import Mathlib

/-!
The collection orchestrator of netgaze.

A shallow embedding of `internal/collector` (the orchestrator `Collect`, the
probes it sequences and the port scanner) together with the properties of the
specification that concern them.

Conventions of the embedding.

* Instants and durations are integers counted in milliseconds.
* A `context.Context` is represented by the instant from which its `Done()`
  channel is closed (`none` when it is never closed).  Deriving a context with
  a timeout, cancelling it, and the cancellation that `errgroup` performs when
  `Wait` returns are all operations on that instant.
* Everything the program obtains from outside (resolver answers, TCP connects,
  WHOIS text, HTTP answers, the clock) is read from an `Env` record, so that a
  run of the program is a function of its arguments and of the `Env`.
* `report.Errors` is an association list keyed by probe name.
* The goroutines of an errgroup are applied to the report one after the other.
  They assign to the one map `report.Errors` without a lock; the run in which
  two such assignments overlap is the outcome `fatal` of `CollectProcess`.
* A `float64` is carried as its 64 bits; arithmetic on it is left to `Env`.
-/

namespace Netgaze

/-! ## internal/model/types.go -/

/-- The carrier of a Go `float64`: its bit pattern. -/
structure Float64 where
  bits : Nat := 0
  deriving DecidableEq, Repr

/-- A `net.IP`: a byte slice of length 4 or 16 (any other length is invalid). -/
structure IP where
  bytes : List Nat
  deriving DecidableEq, Repr

/-- `ip.To4()`: the 4-byte form of an IPv4 address, `none` otherwise. -/
def IP.To4 (ip : IP) : Option (List Nat) :=
  if ip.bytes.length = 4 then some ip.bytes
  else if ip.bytes.length = 16 ∧ ip.bytes.take 10 = List.replicate 10 0
      ∧ (ip.bytes.drop 10).take 2 = [255, 255] then some (ip.bytes.drop 12)
  else none

structure TraceHop where
  Hop : Int := 0
  IP : String := ""
  Host : String := ""
  RTT : String := ""
  Timeout : Bool := false
  deriving DecidableEq, Repr

structure GeoGroup where
  IP : String := ""
  City : String := ""
  Region : String := ""
  RegionCode : String := ""
  Country : String := ""
  CountryCode : String := ""
  Org : String := ""
  ISP : String := ""
  ASN : String := ""
  ASName : String := ""
  Latitude : Float64 := {}
  Longitude : Float64 := {}
  Timezone : String := ""
  deriving DecidableEq, Repr

structure WhoisGroup where
  Domain : String := ""
  Registrar : String := ""
  Created : String := ""
  Expires : String := ""
  Registrant : String := ""
  NetRange : String := ""
  NetName : String := ""
  OrgName : String := ""
  Country : String := ""
  AbuseEmails : List String := []
  deriving DecidableEq, Repr

structure PingGroup where
  PacketsSent : Int := 0
  PacketsReceived : Int := 0
  PacketLossPct : Float64 := {}
  MinRtt : String := ""
  AvgRtt : String := ""
  MaxRtt : String := ""
  StdDevRtt : String := ""
  Success : Bool := false
  Error : String := ""
  deriving DecidableEq, Repr

structure TraceGroup where
  Hops : List TraceHop := []
  Success : Bool := false
  Error : String := ""
  deriving DecidableEq, Repr

structure PortsGroup where
  Scanned : List Int := []
  Open : List Int := []
  Closed : List Int := []
  Filtered : List Int := []
  Error : String := ""
  deriving DecidableEq, Repr

structure TLSGroup where
  Subject : String := ""
  Issuer : String := ""
  CommonName : String := ""
  AltNames : List String := []
  NotBefore : String := ""
  NotAfter : String := ""
  Expired : Bool := false
  SelfSigned : Bool := false
  Error : String := ""
  deriving DecidableEq, Repr

/-- The `map[string]string` of collector errors, most recent write first. -/
abbrev ErrorMap := List (String × String)

/-- Reading `m[k]`: the value and whether the key is present. -/
def ErrorMap.get (m : ErrorMap) (k : String) : Option String :=
  List.lookup k m

/-- The assignment `m[k] = v`. -/
def ErrorMap.set (m : ErrorMap) (k v : String) : ErrorMap :=
  (k, v) :: m.filter (fun e => e.1 != k)

structure Report where
  Target : String := ""
  ResolvedAt : Int := 0
  DurationMs : Int := 0
  IPs : List IP := []
  IPv4 : List String := []
  IPv6 : List String := []
  PTR : List String := []
  CNAME : List String := []
  MX : List String := []
  NS : List String := []
  TXT : List String := []
  Geo : GeoGroup := {}
  WhoisRaw : String := ""
  Whois : WhoisGroup := {}
  Ping : PingGroup := {}
  Trace : TraceGroup := {}
  Ports : PortsGroup := {}
  TLS : TLSGroup := {}
  Errors : ErrorMap := []
  deriving DecidableEq, Repr

/-- The statement `report.Errors[k] = v`. -/
def Report.setError (r : Report) (k v : String) : Report :=
  { r with Errors := r.Errors.set k v }

/-! ## context.Context and errgroup -/

/-- A context, represented by the instant from which `Done()` is closed. -/
structure Context where
  doneAt : Option Int
  deriving DecidableEq, Repr

/-- Whether `ctx.Done()` is closed at the instant `now`. -/
def Context.Done (c : Context) (now : Int) : Bool :=
  match c.doneAt with
  | some t => decide (t ≤ now)
  | none => false

/-- The earlier of two optional instants (`none` is never). -/
def earlier : Option Int → Option Int → Option Int
  | some a, some b => some (min a b)
  | some a, none => some a
  | none, b => b

/-- The context `context.Background()`: never done. -/
def Background : Context := ⟨none⟩

/-- `context.WithTimeout(parent, d)` called at `now`: done at the deadline
`now + d`, or as soon as the parent is, whichever comes first. -/
def WithTimeout (parent : Context) (now d : Int) : Context :=
  ⟨earlier parent.doneAt (some (now + d))⟩

/-- The effect on a context of its `cancel` function being called at `now`. -/
def Context.cancelAt (c : Context) (now : Int) : Context :=
  ⟨earlier c.doneAt (some now)⟩

/-- The context returned by `errgroup.WithContext(parent)`: a cancellable
child of `parent`, done as soon as the parent is. -/
def errgroupWithContext (parent : Context) : Context :=
  ⟨parent.doneAt⟩

/-- The context of an errgroup once `Wait` has returned at `now`: `Wait`
cancels the context derived by `errgroup.WithContext`. -/
def errgroupWait (c : Context) (now : Int) : Context :=
  c.cancelAt now

/-! ## The environment of a run -/

/-- A blocking call to the outside: how long it takes and what it returns. -/
structure Call (α : Type) where
  latency : Nat
  result : Except String α

/-- The outcome of one `net.DialTimeout`: whether the connect succeeded
(`err == nil`) and how long the attempt took. -/
structure Dial where
  ok : Bool
  latency : Nat
  deriving DecidableEq, Repr

/-- An MX record as returned by the resolver. -/
structure MXRecord where
  Pref : Nat
  Host : String
  deriving DecidableEq, Repr

/-- The statistics the pinger holds once `Run` has returned: packets sent and
received and the round-trip times (in nanoseconds) handed to the handlers. -/
structure PingStatistics where
  PacketsSent : Int
  PacketsRecv : Int
  Rtts : List Int
  deriving DecidableEq, Repr

/-- The leaf-certificate facts read by `getTLSCertificate`. -/
structure Certificate where
  Subject : String
  Issuer : String
  SubjectCommonName : String
  IssuerCommonName : String
  DNSNames : List String
  NotBefore : String
  NotAfter : String
  NotAfterInstant : Int
  deriving DecidableEq, Repr

/-- The answer of ip-api.com, decoded. -/
structure GeoResponse where
  Status : String := ""
  Country : String := ""
  CountryCode : String := ""
  Region : String := ""
  RegionCode : String := ""
  City : String := ""
  Zip : String := ""
  Lat : Float64 := {}
  Lon : Float64 := {}
  Timezone : String := ""
  ISP : String := ""
  Org : String := ""
  AS : String := ""
  Message : String := ""
  Query : String := ""
  deriving DecidableEq, Repr

/-- What `lookupGeolocation` can get back from its HTTP exchange: no request
could be built, the exchange failed, or a response arrived with a status code
and a body that decodes or not. -/
inductive HTTPAnswer where
  | requestError (e : String)
  | transportError (e : String)
  | response (code : Nat) (body : Except String GeoResponse)

/-- An HTTP exchange: how long it takes and what comes back. -/
structure HTTPCall where
  latency : Nat
  answer : HTTPAnswer

/-- Everything a run reads from outside the program. Calls that take a
context receive it together with the instant at which they are made. -/
structure Env where
  /-- `time.Now()` on entry of `Collect`. -/
  tStart : Int
  /-- The instant at which the first `g.Wait()` of `Collect` returns. -/
  tDNSDone : Int
  /-- The instant at which the task running `collectPing` returns. -/
  tPingDone : Int
  /-- The instant at which the second `g.Wait()` of `Collect` returns. -/
  tIndepDone : Int
  /-- The instant at which `time.Since(report.ResolvedAt)` is evaluated. -/
  tEnd : Int
  /-- The choice `select` makes when two of its cases are ready at once
  (`true`: the `Done()` case), per probe key. -/
  coin : String → Bool
  /-- When the ASN and the geolocation task both produce a value, whether the
  ASN task writes the report after the geolocation task. -/
  asnAfterGeo : Bool
  ipString : IP → String
  ParseIP : String → Option IP
  LookupIP : String → Call (List IP)
  LookupIPAddr : Context → Int → String → Except String (List IP)
  LookupAddr : Context → Int → String → Except String (List String)
  LookupCNAME : Context → Int → String → Except String String
  LookupMX : Context → Int → String → Except String (List MXRecord)
  LookupNS : Context → Int → String → Except String (List String)
  LookupTXT : Context → Int → String → Except String (List String)
  /-- `net.LookupTXT` without a context (the Team Cymru query). -/
  LookupTXTPlain : String → Call (List String)
  /-- `net.LookupAddr` without a context (hop host names). -/
  LookupAddrPlain : String → Except String (List String)
  NewPinger : String → Except String Unit
  PingerRun : String → Except String PingStatistics
  lossPct : Int → Int → Float64
  rttSummary : List Int → String × String × String × String
  /-- The two `traceroute` invocations of `runSystemTraceroute`: the standard
  output of the command, or its failure. -/
  execTraceroute : Context → Int → List String → Except String String
  Whois : String → Call String
  httpGet : Context → Int → String → HTTPCall
  DialTimeout : String → Int → Dial
  tlsDial : String → Call (List Certificate)
  urlHostname : String → Option String
  SplitHostPort : String → Option String
  FindStringSubmatch : String → String → List String
  FindAllStringSubmatch : String → String → List (List String)
  toLowerRune : Char → Char
  Atoi : String → Option Int
  formatRTT : String → Option String
  /-- Whether, among goroutines that run concurrently and assign to the map
  `report.Errors` under the given keys, two assignments overlap in time; the Go
  runtime then stops the process with `fatal error: concurrent map writes`. -/
  mapWritesCollide : List String → Bool := fun _ => false

/-! ## Strings -/

/-- The predicate `unicode.IsSpace`. -/
def isSpace (c : Char) : Bool :=
  c = '\t' || c = '\n' || c.toNat = 0x0B || c.toNat = 0x0C || c = '\r' || c = ' '
    || c.toNat = 0x85 || c.toNat = 0xA0 || c.toNat = 0x1680
    || (decide (0x2000 ≤ c.toNat) && decide (c.toNat ≤ 0x200A))
    || c.toNat = 0x2028 || c.toNat = 0x2029 || c.toNat = 0x202F
    || c.toNat = 0x205F || c.toNat = 0x3000

/-- The function `strings.TrimSpace`. -/
def TrimSpace (s : String) : String :=
  ⟨((s.data.dropWhile isSpace).reverse.dropWhile isSpace).reverse⟩

/-- The function `strings.ToLower`, with the case mapping of a rune taken from `Env`. -/
def ToLower (env : Env) (s : String) : String :=
  ⟨s.data.map env.toLowerRune⟩

/-- The scan of `strings.Split(s, sep)` for a non-empty `sep`: `skip` counts
the characters of a separator just matched that are still to be passed over,
`acc` holds the current field in reverse. -/
def splitScan (sep : List Char) : List Char → Nat → List Char → List (List Char)
  | [], _, acc => [acc.reverse]
  | _ :: cs, skip + 1, acc => splitScan sep cs skip acc
  | c :: cs, 0, acc =>
    if sep.isPrefixOf (c :: cs) then acc.reverse :: splitScan sep cs (sep.length - 1) []
    else splitScan sep cs 0 (c :: acc)

/-- The function `strings.Split(s, sep)` for a non-empty separator. -/
def Split (s sep : String) : List String :=
  (splitScan sep.data s.data 0 []).map String.mk

/-- The function `strings.HasPrefix`. -/
def HasPrefix (s pre : String) : Bool :=
  pre.data.isPrefixOf s.data

/-- The function `strings.HasSuffix`. -/
def HasSuffix (s suf : String) : Bool :=
  suf.data.reverse.isPrefixOf s.data.reverse

/-- The function `strings.TrimSuffix`. -/
def TrimSuffix (s suf : String) : String :=
  if HasSuffix s suf then ⟨s.data.take (s.data.length - suf.data.length)⟩ else s

/-- The function `strings.Contains` for a one-character substring. -/
def ContainsChar (s : String) (c : Char) : Bool :=
  s.data.contains c

/-- The scan of `strings.Fields`: the maximal runs of non-space characters,
`acc` holding the current run in reverse. -/
def fieldsScan : List Char → List Char → List (List Char)
  | [], acc => if acc.isEmpty then [] else [acc.reverse]
  | c :: cs, acc =>
    if isSpace c then
      (if acc.isEmpty then fieldsScan cs [] else acc.reverse :: fieldsScan cs [])
    else fieldsScan cs (c :: acc)

/-- The function `strings.Fields`. -/
def Fields (s : String) : List String :=
  (fieldsScan s.data []).map String.mk

/-! ## The wait of a probe on its task: `select` -/

/-- Which case of the three-way `select` of a probe was taken. -/
inductive Selected (α : Type) where
  | result (a : α)
  | failed (e : String)
  | done

/-- The `select` over `resultChan`, `errorChan` and `ctx.Done()`, entered at
`now`, when the task of the probe delivers `out` at the instant `finish`. The
case that becomes ready first is taken; `coin` decides when the task and the
context are ready at the same instant (`true`: the `Done()` case). -/
def selectFirst {α : Type} (ctx : Context) (now finish : Int) (out : Except String α)
    (coin : Bool) : Selected α :=
  let delivered : Selected α :=
    match out with
    | .ok a => .result a
    | .error e => .failed e
  match ctx.doneAt with
  | none => delivered
  | some t =>
    if finish < max t now then delivered
    else if max t now < finish then .done
    else if coin then .done else delivered

/-! ## internal/collector/ports.go -/

structure PortScanResult where
  Scanned : List Int := []
  Open : List Int := []
  Closed : List Int := []
  Filtered : List Int := []
  deriving DecidableEq, Repr

def getCommonPorts : List Int :=
  [22, 53, 80, 110, 135, 139, 143, 443, 993, 995, 1723, 3306, 3389, 445, 5900,
   8080, 8443, 992, 10000, 1433]

/-- The choice among resolved addresses shared by `getPortsTargetIP`,
`getTargetIP`, `getGeoTargetIP` and `resolveTargetIP`: the first IPv4 address,
else the first address. -/
def preferIPv4 (ips : List IP) : Option IP :=
  match ips.find? (fun ip => ip.To4.isSome) with
  | some ip => some ip
  | none => ips.head?

/-- The body common to the four target-resolution helpers. -/
def resolveTargetIP (env : Env) (target : String) : Call IP :=
  match env.ParseIP target with
  | some ip => ⟨0, .ok ip⟩
  | none =>
    let c := env.LookupIP target
    match c.result with
    | .error e => ⟨c.latency, .error e⟩
    | .ok ips =>
      match preferIPv4 ips with
      | none => ⟨c.latency, .error ("no IP addresses found for " ++ target)⟩
      | some ip => ⟨c.latency, .ok ip⟩

def getTargetIP (env : Env) (target : String) : Call IP :=
  resolveTargetIP env target

def getGeoTargetIP (env : Env) (target : String) : Call IP :=
  resolveTargetIP env target

def getPortsTargetIP (env : Env) (target : String) : Call String :=
  let c := resolveTargetIP env target
  match c.result with
  | .error e => ⟨c.latency, .error e⟩
  | .ok ip => ⟨c.latency, .ok (env.ipString ip)⟩

/-- What `scanPorts` returns: the result (never nil), the error, and the
instant at which it returns. -/
structure ScanReturn where
  result : PortScanResult
  err : Option String
  finish : Int
  deriving DecidableEq, Repr

/-- The loop of `scanPorts` over the ports still to visit, entered at `now`
with the result accumulated so far. -/
def scanLoop (env : Env) (ctx : Context) (target : String) :
    List Int → Int → PortScanResult → ScanReturn
  | [], now, result => ⟨result, none, now⟩
  | port :: rest, now, result =>
    if ctx.Done now then ⟨result, some "scan timeout", now⟩
    else
      let conn := env.DialTimeout (target ++ ":" ++ toString port) 1000
      if conn.ok then
        scanLoop env ctx target rest (now + conn.latency)
          { result with Open := result.Open ++ [port] }
      else
        scanLoop env ctx target rest (now + conn.latency)
          { result with Closed := result.Closed ++ [port] }

def scanPorts (env : Env) (ctx : Context) (now : Int) (target : String) : ScanReturn :=
  scanLoop env ctx target getCommonPorts now { Scanned := getCommonPorts }

def populatePortData (result : Option PortScanResult) (report : Report) : Report :=
  match result with
  | none => report
  | some result =>
    { report with
      Ports := { report.Ports with
        Scanned := result.Scanned
        Open := result.Open
        Closed := result.Closed
        Filtered := [] } }

/-- The context `portCtx` that `collectPorts`, started at `now`, creates for
the scan: `context.WithTimeout(context.Background(), 30*time.Second)`. -/
def portContext (now : Int) : Context :=
  WithTimeout Background now 30000

/-- The probe `collectPorts`, started at `now`. The context it is given is
not used: the scan runs under `portCtx`, derived from `context.Background()`. -/
def collectPorts (env : Env) (_ctx : Context) (now : Int) (target : String)
    (report : Report) : Report × Option String :=
  let portCtx := portContext now
  let ip := getPortsTargetIP env target
  match ip.result with
  | .error e =>
    (report.setError "ports" ("Failed to resolve target for port scan: " ++ e), none)
  | .ok ip_ =>
    let start := now + ip.latency
    let scan := scanPorts env portCtx start ip_
    let out : Except String PortScanResult :=
      match scan.err with
      | some e => .error e
      | none => .ok scan.result
    match selectFirst portCtx start scan.finish out (env.coin "ports") with
    | .result result => (populatePortData (some result) report, none)
    | .failed e => (report.setError "ports" ("Port scan failed: " ++ e), none)
    | .done => (report.setError "ports" "Port scan timeout", none)

/-! ## internal/collector/tls.go -/

structure TLSResult where
  Subject : String
  Issuer : String
  CommonName : String
  AltNames : List String
  NotBefore : String
  NotAfter : String
  Expired : Bool
  SelfSigned : Bool
  deriving DecidableEq, Repr

def isPortOpen (openPorts : List Int) (port : Int) : Bool :=
  match openPorts with
  | [] => false
  | p :: rest => if p = port then true else isPortOpen rest port

def extractHostname (env : Env) (target : String) : String :=
  let fromURL : Option String :=
    if HasPrefix target "http://" || HasPrefix target "https://" then env.urlHostname target
    else none
  match fromURL with
  | some h => h
  | none =>
    let fromHostPort : Option String :=
      if ContainsChar target ':' && !ContainsChar target ']' then env.SplitHostPort target
      else none
    match fromHostPort with
    | some host => host
    | none => target

/-- The task `getTLSCertificate`, started at `now`. -/
def getTLSCertificate (env : Env) (now : Int) (target : String) : Call TLSResult :=
  let hostname := extractHostname env target
  let conn := env.tlsDial (hostname ++ ":443")
  match conn.result with
  | .error e => ⟨conn.latency, .error ("TLS connection failed: " ++ e)⟩
  | .ok [] => ⟨conn.latency, .error "no TLS certificates presented"⟩
  | .ok (cert :: _) =>
    ⟨conn.latency, .ok
      { Subject := cert.Subject
        Issuer := cert.Issuer
        CommonName := cert.SubjectCommonName
        AltNames := cert.DNSNames
        NotBefore := cert.NotBefore
        NotAfter := cert.NotAfter
        Expired := decide (cert.NotAfterInstant < now + conn.latency)
        SelfSigned := decide (cert.IssuerCommonName = cert.SubjectCommonName) }⟩

def populateTLSData (result : Option TLSResult) (report : Report) : Report :=
  match result with
  | none => report
  | some result =>
    { report with
      TLS := { report.TLS with
        Subject := result.Subject
        Issuer := result.Issuer
        CommonName := result.CommonName
        AltNames := result.AltNames
        NotBefore := result.NotBefore
        NotAfter := result.NotAfter
        Expired := result.Expired
        SelfSigned := result.SelfSigned } }

def collectTLS (env : Env) (ctx : Context) (now : Int) (target : String)
    (report : Report) : Report × Option String :=
  if !isPortOpen report.Ports.Open 443 then
    (report.setError "tls" "Port 443 not open - skipping TLS collection", none)
  else
    let ctx4 := WithTimeout ctx now 4000
    let task := getTLSCertificate env now target
    match selectFirst ctx4 now (now + task.latency) task.result (env.coin "tls") with
    | .result result => (populateTLSData (some result) report, none)
    | .failed e => (report.setError "tls" ("TLS collection failed: " ++ e), none)
    | .done => (report.setError "tls" "TLS collection timeout", none)

/-! ## internal/collector/dns.go -/

def resolveIPs (env : Env) (ctx : Context) (now : Int) (target : String) :
    Except String (List IP) :=
  env.LookupIPAddr ctx now target

def resolvePTR (env : Env) (ctx : Context) (now : Int) (ip : IP) :
    Except String (List String) :=
  env.LookupAddr ctx now (env.ipString ip)

def resolveCNAME (env : Env) (ctx : Context) (now : Int) (target : String) :
    Except String String :=
  match env.LookupCNAME ctx now target with
  | .error e => .error e
  | .ok cname => if cname = target ++ "." then .ok "" else .ok (TrimSuffix cname ".")

def resolveMX (env : Env) (ctx : Context) (now : Int) (target : String) :
    Except String (List String) :=
  match env.LookupMX ctx now target with
  | .error e => .error e
  | .ok mxRecords => .ok (mxRecords.map (fun mx => toString mx.Pref ++ " " ++ mx.Host))

def resolveNS (env : Env) (ctx : Context) (now : Int) (target : String) :
    Except String (List String) :=
  env.LookupNS ctx now target

def resolveTXT (env : Env) (ctx : Context) (now : Int) (target : String) :
    Except String (List String) :=
  env.LookupTXT ctx now target

/-- The loop of `collectDNS` that files each address under IPv4 or IPv6. -/
def storeIPs (env : Env) : List IP → Report → Report
  | [], report => report
  | ip :: rest, report =>
    if ip.To4.isSome then
      storeIPs env rest { report with IPv4 := report.IPv4 ++ [env.ipString ip] }
    else
      storeIPs env rest { report with IPv6 := report.IPv6 ++ [env.ipString ip] }

/-- The probe `collectDNS`, started at `now`. The four record look-ups run as
goroutines of an inner errgroup; each returns nil and writes its own field or
its own key of the map `report.Errors`, which has no lock. This is the report
when no two of their assignments to the map overlap: they are then applied one
after the other. The run in which two overlap is an outcome of
`CollectProcess`. -/
def collectDNS (env : Env) (ctx : Context) (now : Int) (target : String)
    (report : Report) : Report × Option String :=
  let ctx3 := WithTimeout ctx now 3000
  match resolveIPs env ctx3 now target with
  | .error e =>
    (report.setError "dns" ("IP resolution failed: " ++ e),
      some ("IP resolution failed: " ++ e))
  | .ok ips =>
    let r0 := storeIPs env ips { report with IPs := ips }
    let r1 :=
      match ips with
      | [] => r0
      | ip :: _ =>
        match resolvePTR env ctx3 now ip with
        | .error e => r0.setError "dns_ptr" ("PTR lookup failed: " ++ e)
        | .ok ptrs => { r0 with PTR := ptrs }
    let gctx := errgroupWithContext ctx3
    let r2 :=
      match resolveCNAME env gctx now target with
      | .error e => r1.setError "dns_cname" ("CNAME lookup failed: " ++ e)
      | .ok cname => if cname != "" then { r1 with CNAME := [cname] } else r1
    let r3 :=
      match resolveMX env gctx now target with
      | .error e => r2.setError "dns_mx" ("MX lookup failed: " ++ e)
      | .ok mx => { r2 with MX := mx }
    let r4 :=
      match resolveNS env gctx now target with
      | .error e => r3.setError "dns_ns" ("NS lookup failed: " ++ e)
      | .ok ns => { r3 with NS := ns }
    let r5 :=
      match resolveTXT env gctx now target with
      | .error e => r4.setError "dns_txt" ("TXT lookup failed: " ++ e)
      | .ok txt => { r4 with TXT := txt }
    (r5, none)

/-! ## internal/collector/ping.go -/

/-- The probe `collectPing`. The five-second context it derives is never
consulted: `pinger.Run()` is called without it. The statistics are the ones
the `OnFinish` handler receives. -/
def collectPing (env : Env) (_ctx : Context) (_now : Int) (target : String)
    (report : Report) : Report × Option String :=
  match env.NewPinger target with
  | .error e =>
    (report.setError "ping" ("Failed to create pinger: " ++ e),
      some ("failed to create pinger: " ++ e))
  | .ok _ =>
    match env.PingerRun target with
    | .error e =>
      (report.setError "ping" ("Ping failed: " ++ e), some ("ping failed: " ++ e))
    | .ok stats =>
      let packetsSent := stats.PacketsSent
      let packetsReceived := stats.PacketsRecv
      let rtts := stats.Rtts
      let p0 : PingGroup :=
        { report.Ping with PacketsSent := packetsSent, PacketsReceived := packetsReceived }
      let p1 : PingGroup :=
        if packetsSent > 0 then
          { p0 with PacketLossPct := env.lossPct packetsSent packetsReceived }
        else p0
      let p2 : PingGroup :=
        if rtts.length > 0 then
          { p1 with
            MinRtt := (env.rttSummary rtts).1
            AvgRtt := (env.rttSummary rtts).2.1
            MaxRtt := (env.rttSummary rtts).2.2.1
            StdDevRtt := (env.rttSummary rtts).2.2.2 }
        else p1
      ({ report with Ping := { p2 with Success := decide (packetsReceived > 0) } }, none)

/-! ## internal/collector/traceroute.go -/

/-- The inner loop of `parseTracerouteOutput` over the fields after the hop
number: the last field that parses as an IP address before the first
round-trip time, and that round-trip time. -/
def scanHopFields (env : Env) : List String → TraceHop → TraceHop
  | [], hop => hop
  | field :: rest, hop =>
    if (env.ParseIP field).isSome then scanHopFields env rest { hop with IP := field }
    else if HasSuffix field "ms" then
      match env.formatRTT (TrimSuffix field "ms") with
      | some rtt => { hop with RTT := rtt }
      | none => scanHopFields env rest hop
    else scanHopFields env rest hop

/-- The body of the outer loop of `parseTracerouteOutput` for one line: the
hop it appends, if any. -/
def parseHopLine (env : Env) (rawLine : String) : Option TraceHop :=
  let line := TrimSpace rawLine
  if line = "" || HasPrefix line "traceroute to" then none
  else
    match Fields line with
    | [] => none
    | [_] => none
    | first :: rest =>
      match env.Atoi first with
      | none => none
      | some hopNum =>
        let traceHop := scanHopFields env rest { Hop := hopNum }
        if traceHop.IP != "" && traceHop.Host == "" then
          match env.LookupAddrPlain traceHop.IP with
          | .ok (name :: _) => some { traceHop with Host := name }
          | _ => some traceHop
        else some traceHop

def parseTracerouteOutput (env : Env) (output : String) : Except String (List TraceHop) :=
  .ok ((Split output "\n").filterMap (parseHopLine env))

def runSystemTraceroute (env : Env) (ctx : Context) (now : Int) (target : String) :
    Except String (List TraceHop) :=
  match env.execTraceroute ctx now ["traceroute", "-n", "-m", "15", "-w", "3", target] with
  | .ok output => parseTracerouteOutput env output
  | .error _ =>
    match env.execTraceroute ctx now ["traceroute", target] with
    | .ok output => parseTracerouteOutput env output
    | .error e => .error ("traceroute command failed: " ++ e)

def Traceroute (env : Env) (ctx : Context) (now : Int) (target : String) (timeout : Int) :
    Except String (List TraceHop) :=
  let timeout := if timeout ≤ 0 then 10000 else timeout
  let ctx := WithTimeout ctx now timeout
  let ip := resolveTargetIP env target
  match ip.result with
  | .error e => .error ("failed to resolve target: " ++ e)
  | .ok ip_ => runSystemTraceroute env ctx (now + ip.latency) (env.ipString ip_)

def collectTraceroute (env : Env) (ctx : Context) (now : Int) (target : String)
    (report : Report) : Report × Option String :=
  match Traceroute env ctx now target 20000 with
  | .error e =>
    ({ report.setError "traceroute" ("Traceroute failed: " ++ e) with
        Trace := { report.Trace with Error := e } }, none)
  | .ok hops =>
    ({ report with
        Trace := { report.Trace with Hops := hops, Success := decide (hops.length > 0) } },
      none)

/-! ## internal/collector/whois.go -/

def extractField (env : Env) (data lowerData : String) : List String → String
  | [] => ""
  | pattern :: rest =>
    let re := "(?i)" ++ pattern
    let found := env.FindStringSubmatch re lowerData
    if found.length > 1 then
      let originalMatch := env.FindStringSubmatch re data
      if originalMatch.length > 1 then TrimSpace (originalMatch.getD 1 "")
      else TrimSpace (found.getD 1 "")
    else extractField env data lowerData rest

/-- The inner loop of `extractEmails` over the matches of one pattern. -/
def collectEmails (env : Env) : List (List String) → List String → List String
  | [], emails => emails
  | found :: rest, emails =>
    if found.length > 1 then
      let email := ToLower env (TrimSpace (found.getD 1 ""))
      if !emails.contains email && ContainsChar email '@' then
        collectEmails env rest (emails ++ [email])
      else collectEmails env rest emails
    else collectEmails env rest emails

def emailPatterns : List String :=
  ["abuse.*?([a-zA-Z0-9._%+-]+@[a-zA-Z0-9.-]+\\.[a-zA-Z]\x7b2,\x7d)",
   "admin.*?([a-zA-Z0-9._%+-]+@[a-zA-Z0-9.-]+\\.[a-zA-Z]\x7b2,\x7d)",
   "technical.*?([a-zA-Z0-9._%+-]+@[a-zA-Z0-9.-]+\\.[a-zA-Z]\x7b2,\x7d)",
   "([a-zA-Z0-9._%+-]+@[a-zA-Z0-9.-]+\\.[a-zA-Z]\x7b2,\x7d)"]

def extractEmails (env : Env) (data : String) : List String :=
  emailPatterns.foldl
    (fun emails pattern =>
      collectEmails env (env.FindAllStringSubmatch ("(?i)" ++ pattern) data) emails)
    []

def parseWhoisData (env : Env) (data : String) (report : Report) : Report :=
  let lowerData := ToLower env data
  let field := extractField env data lowerData
  { report with
    Whois :=
      { Domain := field ["domain name:\\s*(.+)", "domain:\\s*(.+)"]
        Registrar := field ["registrar:\\s*(.+)", "registrar name:\\s*(.+)",
          "sponsoring registrar:\\s*(.+)"]
        Created := field ["creation date:\\s*(.+)", "created:\\s*(.+)",
          "registered:\\s*(.+)", "registration time:\\s*(.+)"]
        Expires := field ["expiration date:\\s*(.+)", "expires:\\s*(.+)",
          "expiry date:\\s*(.+)", "paid-till:\\s*(.+)"]
        Registrant := field ["registrant name:\\s*(.+)", "registrant organization:\\s*(.+)",
          "registrant:\\s*(.+)"]
        NetRange := field ["inetnum:\\s*(.+)", "netrange:\\s*(.+)", "cidr:\\s*(.+)",
          "route:\\s*(.+)"]
        NetName := field ["netname:\\s*(.+)", "network name:\\s*(.+)"]
        OrgName := field ["organization:\\s*(.+)", "org:\\s*(.+)", "descr:\\s*(.+)"]
        Country := field ["country:\\s*(.+)", "registrant country:\\s*(.+)"]
        AbuseEmails := extractEmails env data } }

def collectWhois (env : Env) (ctx : Context) (now : Int) (target : String)
    (report : Report) : Report × Option String :=
  let ctx10 := WithTimeout ctx now 10000
  let task := env.Whois target
  match selectFirst ctx10 now (now + task.latency) task.result (env.coin "whois") with
  | .result result => (parseWhoisData env result { report with WhoisRaw := result }, none)
  | .failed e => (report.setError "whois" ("WHOIS failed: " ++ e), none)
  | .done => (report.setError "whois" "WHOIS timeout", none)

/-! ## internal/collector/asn.go -/

/-- `ip.To16()`: the 16-byte form of an address, `none` when it is invalid. -/
def IP.To16 (ip : IP) : Option (List Nat) :=
  if ip.bytes.length = 4 then some (List.replicate 10 0 ++ [255, 255] ++ ip.bytes)
  else if ip.bytes.length = 16 then some ip.bytes
  else none

def reverseIP (env : Env) (ip : IP) : Except String String :=
  match ip.To4 with
  | some ipv4 =>
    .ok (toString (ipv4.getD 3 0) ++ "." ++ toString (ipv4.getD 2 0) ++ "."
      ++ toString (ipv4.getD 1 0) ++ "." ++ toString (ipv4.getD 0 0))
  | none =>
    match ip.To16 with
    | none => .error "invalid IP address"
    | some _ => .ok (env.ipString ip)

def lookupTeamCymru (env : Env) (ip : IP) : Call String :=
  match reverseIP env ip with
  | .error e => ⟨0, .error e⟩
  | .ok reversedIP =>
    let c := env.LookupTXTPlain (reversedIP ++ ".origin.asn.cymru.com")
    match c.result with
    | .error e => ⟨c.latency, .error e⟩
    | .ok [] => ⟨c.latency, .error "no TXT records found"⟩
    | .ok (txt :: _) => ⟨c.latency, .ok txt⟩

def parseTeamCymruResult (result : String) (report : Report) : Report :=
  let parts := Split result " | "
  if parts.length < 7 then report
  else
    let asn := TrimSpace (parts.getD 0 "")
    let g0 : GeoGroup := if asn != "" then { report.Geo with ASN := asn } else report.Geo
    let country := TrimSpace (parts.getD 3 "")
    let g1 : GeoGroup := if country != "" then { g0 with CountryCode := country } else g0
    let asName := TrimSpace (parts.getD 6 "")
    let g2 : GeoGroup := if asName != "" then { g1 with ASName := asName, Org := asName } else g1
    let g3 : GeoGroup :=
      if parts.length > 1 then { g2 with IP := TrimSpace (parts.getD 1 "") } else g2
    { report with Geo := g3 }

def collectASN (env : Env) (ctx : Context) (now : Int) (target : String)
    (report : Report) : Report × Option String :=
  let ctx8 := WithTimeout ctx now 8000
  let ip := getTargetIP env target
  match ip.result with
  | .error e =>
    (report.setError "asn" ("Failed to resolve target for ASN lookup: " ++ e), none)
  | .ok ip_ =>
    let start := now + ip.latency
    let task := lookupTeamCymru env ip_
    match selectFirst ctx8 start (start + task.latency) task.result (env.coin "asn") with
    | .result result => (parseTeamCymruResult result report, none)
    | .failed e => (report.setError "asn" ("ASN DNS lookup failed: " ++ e), none)
    | .done => (report.setError "asn" "ASN DNS lookup timeout", none)

/-! ## internal/collector/geo.go -/

/-- The task `lookupGeolocation`, started at `now`. -/
def lookupGeolocation (env : Env) (ctx : Context) (now : Int) (ip : String) :
    Call GeoResponse :=
  let exchange := env.httpGet ctx now ("http://ip-api.com/json/" ++ ip)
  match exchange.answer with
  | .requestError e => ⟨0, .error ("failed to create request: " ++ e)⟩
  | .transportError e => ⟨exchange.latency, .error ("HTTP request failed: " ++ e)⟩
  | .response code body =>
    if code != 200 then ⟨exchange.latency, .error ("HTTP status: " ++ toString code)⟩
    else
      match body with
      | .error e => ⟨exchange.latency, .error ("failed to decode JSON: " ++ e)⟩
      | .ok geoResp =>
        if ToLower env geoResp.Status != "success" then
          ⟨exchange.latency, .error ("API error: " ++ geoResp.Message)⟩
        else ⟨exchange.latency, .ok geoResp⟩

def populateGeoData (resp : Option GeoResponse) (report : Report) : Report :=
  match resp with
  | none => report
  | some resp =>
    let g0 : GeoGroup :=
      { report.Geo with
        IP := resp.Query
        City := resp.City
        Region := resp.Region
        RegionCode := resp.RegionCode
        Country := resp.Country
        CountryCode := resp.CountryCode
        Org := resp.Org
        ISP := resp.ISP
        Latitude := resp.Lat
        Longitude := resp.Lon
        Timezone := resp.Timezone }
    let g1 : GeoGroup :=
      if report.Geo.ASN == "" && resp.AS != "" then { g0 with ASN := resp.AS } else g0
    { report with Geo := g1 }

def collectGeo (env : Env) (ctx : Context) (now : Int) (target : String)
    (report : Report) : Report × Option String :=
  let ctx8 := WithTimeout ctx now 8000
  let ip := getGeoTargetIP env target
  match ip.result with
  | .error e =>
    (report.setError "geo" ("Failed to resolve target for geolocation: " ++ e), none)
  | .ok ip_ =>
    let start := now + ip.latency
    let task := lookupGeolocation env ctx8 start (env.ipString ip_)
    match selectFirst ctx8 start (start + task.latency) task.result (env.coin "geo") with
    | .result resp => (populateGeoData (some resp) report, none)
    | .failed e => (report.setError "geo" ("Geolocation lookup failed: " ++ e), none)
    | .done => (report.setError "geo" "Geolocation lookup timeout", none)

/-! ## internal/collector/collector.go -/

structure Options where
  EnablePorts : Bool
  NoAgent : Bool
  Timeout : Int
  deriving DecidableEq, Repr

inductive Probe where
  | dns | ping | traceroute | whois | asn | geo | ports | tls
  deriving DecidableEq, Repr

/-- A probe being started: which one, the context handed to it and when. -/
structure Launch where
  probe : Probe
  ctx : Context
  instant : Int
  deriving DecidableEq, Repr

/-- What a call of `Collect` returns (`report = none` is the nil Report,
`err = none` the nil error) and the probes it started, in program order. -/
structure Run where
  report : Option Report
  err : Option String
  launched : List Launch
  deriving DecidableEq, Repr

def contains (slice : List Int) (item : Int) : Bool :=
  match slice with
  | [] => false
  | s :: rest => if s = item then true else contains rest item

/-- The probe function behind each probe name. -/
def runProbe (env : Env) (ctx : Context) (now : Int) (target : String) :
    Probe → Report → Report × Option String
  | .dns => collectDNS env ctx now target
  | .ping => collectPing env ctx now target
  | .traceroute => collectTraceroute env ctx now target
  | .whois => collectWhois env ctx now target
  | .asn => collectASN env ctx now target
  | .geo => collectGeo env ctx now target
  | .ports => collectPorts env ctx now target
  | .tls => collectTLS env ctx now target

/-- The tasks handed to `g.Go` in the second errgroup, in program order. -/
def independentProbes (opts : Options) : List Probe :=
  [.ping, .traceroute, .whois, .asn, .geo] ++ (if opts.EnablePorts then [.ports] else [])

/-- The order in which the tasks of the second errgroup write the report. The
ASN and the geolocation task are the only two that write common fields, so
their relative order is the only one that shows; it is read from `Env`. -/
def writeOrder (env : Env) (opts : Options) : List Probe :=
  (if env.asnAfterGeo then [.ping, .traceroute, .whois, .geo, .asn]
   else [.ping, .traceroute, .whois, .asn, .geo])
  ++ (if opts.EnablePorts then [.ports] else [])

/-- The tasks of an errgroup writing the shared report one after the other;
the errors they return are the ones `g.Wait()` would report, which `Collect`
discards. The tasks run as goroutines and assign to the one map
`report.Errors` without a lock: this is the report when no two of these
assignments overlap. The run in which two overlap is an outcome of
`CollectProcess`. -/
def runTasks (env : Env) (ctx : Context) (now : Int) (target : String) :
    List Probe → Report → Report
  | [], report => report
  | p :: rest, report => runTasks env ctx now target rest (runProbe env ctx now target p report).1

/-- The context shared by the tasks of the second errgroup: derived from the
context of the first errgroup after its `Wait` has returned, and cancelled by
the errgroup when a task returns a non-nil error (only `collectPing` can). -/
def sharedContext (env : Env) (ctx1 : Context) (target : String) (report : Report) :
    Context :=
  let ctx2 := errgroupWithContext (errgroupWait ctx1 env.tDNSDone)
  match (collectPing env ctx2 env.tDNSDone target report).2 with
  | some _ => ctx2.cancelAt env.tPingDone
  | none => ctx2

/-- The report when the second `g.Wait()` returns. -/
def independentPhase (env : Env) (ctx1 : Context) (target : String) (opts : Options)
    (report : Report) : Report :=
  runTasks env (sharedContext env ctx1 target report) env.tDNSDone target
    (writeOrder env opts) report

/-- The function `Collect`: what the call returns, when it returns. -/
def Collect (env : Env) (ctx : Context) (target : String) (opts : Options) : Run :=
  let ctx0 := WithTimeout ctx env.tStart opts.Timeout
  let report : Report := { Target := target, ResolvedAt := env.tStart, Errors := [] }
  let ctx1 := errgroupWithContext ctx0
  let dns := collectDNS env ctx1 env.tStart target report
  let dnsLaunch : Launch := ⟨.dns, ctx1, env.tStart⟩
  match dns.2 with
  | some e => ⟨none, some ("DNS resolution failed: " ++ e), [dnsLaunch]⟩
  | none =>
    let shared := sharedContext env ctx1 target dns.1
    let launches := (independentProbes opts).map (fun p => (⟨p, shared, env.tDNSDone⟩ : Launch))
    let report2 := independentPhase env ctx1 target opts dns.1
    let ctx2 := errgroupWait shared env.tIndepDone
    if opts.EnablePorts && decide (report2.Ports.Open.length > 0)
        && contains report2.Ports.Open 443 then
      let tls := collectTLS env ctx2 env.tIndepDone target report2
      let report3 :=
        match tls.2 with
        | some e => tls.1.setError "tls" e
        | none => tls.1
      ⟨some { report3 with DurationMs := env.tEnd - report3.ResolvedAt }, none,
        dnsLaunch :: (launches ++ [⟨.tls, ctx2, env.tIndepDone⟩])⟩
    else
      ⟨some { report2 with DurationMs := env.tEnd - report2.ResolvedAt }, none,
        dnsLaunch :: launches⟩

/-! ## Vocabulary of the statements -/

/-- Whether the TCP connect that `scanPorts` attempts to `port` succeeds. -/
def connectSucceeds (env : Env) (target : String) (port : Int) : Bool :=
  (env.DialTimeout (target ++ ":" ++ toString port) 1000).ok

/-- The instants at which the loop of `scanPorts`, entered at `now`, would
consult `ctx.Done()` if it visited every port of the list. -/
def checkInstants (env : Env) (target : String) : List Int → Int → List Int
  | [], _ => []
  | port :: rest, now =>
    now :: checkInstants env target rest
      (now + (env.DialTimeout (target ++ ":" ++ toString port) 1000).latency)

/-- The context under which the DNS phase of `Collect` resolves the target:
the three-second context of `collectDNS`, derived from the context of the
first errgroup, itself derived from the overall deadline. -/
def dnsContext (env : Env) (ctx : Context) (opts : Options) : Context :=
  WithTimeout (errgroupWithContext (WithTimeout ctx env.tStart opts.Timeout)) env.tStart 3000

/-- The IP resolution performed by the DNS phase of `Collect`. -/
def dnsLookup (env : Env) (ctx : Context) (target : String) (opts : Options) :
    Except String (List IP) :=
  resolveIPs env (dnsContext env ctx opts) env.tStart target

/-- The report as it stands when the second `g.Wait()` of `Collect` returns;
`none` when the DNS phase failed and the independent phase never ran. -/
def afterIndependentPhase (env : Env) (ctx : Context) (target : String) (opts : Options) :
    Option Report :=
  let ctx1 := errgroupWithContext (WithTimeout ctx env.tStart opts.Timeout)
  let dns := collectDNS env ctx1 env.tStart target
    { Target := target, ResolvedAt := env.tStart, Errors := [] }
  match dns.2 with
  | some _ => none
  | none => some (independentPhase env ctx1 target opts dns.1)

/-- The keys under which `collectDNS` records errors. -/
def dnsKeys : List String := ["dns", "dns_ptr", "dns_cname", "dns_mx", "dns_ns", "dns_txt"]

/-- Whether a run started the given probe. -/
def Run.started (run : Run) (p : Probe) : Bool :=
  run.launched.any (fun l => l.probe == p)

/-! ## A sample environment

`example.com` resolves to one IPv4 address, answers pings and WHOIS, and has
ports 80 and 443 open; it has no PTR record, the `traceroute` command is not
installed and the geolocation service refuses connections. -/

def exampleIP : IP := ⟨[93, 184, 216, 34]⟩

def exampleCertificate : Certificate :=
  { Subject := "CN=example.com"
    Issuer := "CN=Example CA"
    SubjectCommonName := "example.com"
    IssuerCommonName := "Example CA"
    DNSNames := ["example.com"]
    NotBefore := "2025-01-01T00:00:00Z"
    NotAfter := "2027-01-01T00:00:00Z"
    NotAfterInstant := 1000000000 }

def exampleEnv : Env :=
  { tStart := 0
    tDNSDone := 120
    tPingDone := 1100
    tIndepDone := 2500
    tEnd := 2800
    coin := fun _ => false
    asnAfterGeo := false
    ipString := fun _ => "93.184.216.34"
    ParseIP := fun s => if s = "93.184.216.34" then some exampleIP else none
    LookupIP := fun _ => ⟨30, .ok [exampleIP]⟩
    LookupIPAddr := fun _ _ _ => .ok [exampleIP]
    LookupAddr := fun _ _ _ => .error "no such host"
    LookupCNAME := fun _ _ _ => .ok "example.com."
    LookupMX := fun _ _ _ => .ok []
    LookupNS := fun _ _ _ => .ok ["a.iana-servers.net."]
    LookupTXT := fun _ _ _ => .ok []
    LookupTXTPlain := fun _ => ⟨40, .ok ["15133 | 93.184.216.0/24 | US | arin | 2008-06-02"]⟩
    LookupAddrPlain := fun _ => .error "no such host"
    NewPinger := fun _ => .ok ()
    PingerRun := fun _ => .ok ⟨5, 5, [11000000, 12000000, 11500000, 11200000, 11900000]⟩
    lossPct := fun _ _ => {}
    rttSummary := fun _ => ("11.0ms", "11.5ms", "12.0ms", "0.39ms")
    execTraceroute := fun _ _ _ => .error "exec: traceroute not found"
    Whois := fun _ => ⟨300, .ok "Domain Name: EXAMPLE.COM"⟩
    httpGet := fun _ _ _ => ⟨200, .transportError "connection refused"⟩
    DialTimeout := fun address _ =>
      ⟨address = "93.184.216.34:80" || address = "93.184.216.34:443", 25⟩
    tlsDial := fun _ => ⟨150, .ok [exampleCertificate]⟩
    urlHostname := fun _ => none
    SplitHostPort := fun _ => none
    FindStringSubmatch := fun _ _ => []
    FindAllStringSubmatch := fun _ _ => []
    toLowerRune := fun c => c.toLower
    Atoi := fun _ => none
    formatRTT := fun _ => none }

/-- The sample environment with a resolver that finds no address. -/
def noHostEnv : Env :=
  { exampleEnv with LookupIPAddr := fun _ _ _ => .error "no such host" }

/-- The sample environment with every optional probe failing: no pinger can
be created, the target cannot be resolved again, WHOIS is refused, no port
answers. -/
def failingEnv : Env :=
  { exampleEnv with
    NewPinger := fun _ => .error "lookup example.com: no such host"
    LookupIP := fun _ => ⟨30, .error "no such host"⟩
    LookupAddr := fun _ _ _ => .error "no such host"
    LookupCNAME := fun _ _ _ => .error "i/o timeout"
    LookupMX := fun _ _ _ => .error "i/o timeout"
    LookupNS := fun _ _ _ => .error "i/o timeout"
    LookupTXT := fun _ _ _ => .error "i/o timeout"
    Whois := fun _ => ⟨0, .error "connection refused"⟩
    DialTimeout := fun _ _ => ⟨false, 1000⟩ }

/-- The sample environment with every port closed. -/
def closedEnv : Env :=
  { exampleEnv with DialTimeout := fun _ _ => ⟨false, 25⟩ }

/-- The sample environment with every connect failing after two seconds. -/
def slowEnv : Env :=
  { exampleEnv with DialTimeout := fun _ _ => ⟨false, 2000⟩ }

def exampleOptions : Options := { EnablePorts := true, NoAgent := true, Timeout := 15000 }

def noPortsOptions : Options := { EnablePorts := false, NoAgent := true, Timeout := 15000 }

/-- The Report of the sample run with every port closed and ports enabled. -/
def closedReport : Report :=
  ((Collect closedEnv Background "example.com" exampleOptions).report).getD {}

/-- The Report of the sample run with ports disabled. -/
def noPortsReport : Report :=
  ((Collect exampleEnv Background "example.com" noPortsOptions).report).getD {}

/-! ## internal/model/types.go: ValidateTarget -/

/-- The function `ValidateTarget`. The URL parser is read from `Env`: it gives
the host name of a URL, or nothing when `url.Parse` fails (the text of that
failure is not modelled). -/
def ValidateTarget (env : Env) (target : String) : Except String String :=
  let target := TrimSpace target
  if target = "" then .error "target cannot be empty"
  else if HasPrefix target "http://" || HasPrefix target "https://" then
    match env.urlHostname target with
    | none => .error "invalid URL"
    | some hostname => .ok hostname
  else if (env.ParseIP target).isSome then .ok target
  else if !ContainsChar target ' ' then .ok target
  else .error "invalid target: must be IP address, domain, or URL"

/-! ## cmd/root.go -/

namespace Cmd

def validateTarget (target : String) : Except String String :=
  let target := TrimSpace target
  if target = "" then .error "target cannot be empty"
  else .ok target

/-- The function `validateFlags`, with the package variables `output` and
`timeout` and the answer of `isatty.IsTerminal` as arguments; `none` is the
nil error. -/
def validateFlags (output : String) (timeout : Int) (isTerminal : Bool) : Option String :=
  let validOutputs := ["text", "md", "json", "raw"]
  if !validOutputs.contains output then
    some ("invalid output format: " ++ output ++ " (valid: "
      ++ ", ".intercalate validOutputs ++ ")")
  else if timeout < 1000 || timeout > 300000 then
    some "timeout must be between 1s and 5m"
  else if output == "json" && isTerminal then
    some "JSON output requires piping or file redirection"
  else none

/-- The package variables set from the command line. -/
structure Flags where
  enablePorts : Bool
  output : String
  noStyle : Bool
  timeout : Int
  deriving DecidableEq, Repr

/-- What a call of `runNetgaze` does: the error it returns, the call of
`collector.Collect` it makes (target and options) if any, the call of
`ui.RunTUI` it makes (target, port flag, timeout) if any, and the Report it
hands to `outputReport` with the format. -/
structure Invocation where
  err : Option String
  collectCall : Option (String × Options)
  tuiCall : Option (String × Bool × Int)
  shown : Option (Report × String)

/-- The function `runNetgaze`: `arg` is `args[0]`, `jsonFlag` the value of the
legacy `--json` flag, `parentIsTUI` the test on the parent command; the
errors of `ui.RunTUI` and of `outputReport` are not modelled. -/
def runNetgaze (env : Env) (cmdCtx : Context) (arg jsonFlag : String)
    (parentIsTUI isTerminal : Bool) (flags : Flags) : Invocation :=
  let output := if jsonFlag != "" then "json" else flags.output
  match validateTarget arg with
  | .error e => ⟨some ("invalid target: " ++ e), none, none, none⟩
  | .ok normalizedTarget =>
    match validateFlags output flags.timeout isTerminal with
    | some e => ⟨some e, none, none, none⟩
    | none =>
      if parentIsTUI then
        ⟨none, none, some (normalizedTarget, flags.enablePorts, flags.timeout), none⟩
      else
        let opts : Options :=
          { EnablePorts := flags.enablePorts, NoAgent := true, Timeout := flags.timeout }
        let run := Collect env cmdCtx normalizedTarget opts
        match run.err, run.report with
        | some e, _ =>
          ⟨some ("collection failed: " ++ e), some (normalizedTarget, opts), none, none⟩
        | none, none => ⟨none, some (normalizedTarget, opts), none, none⟩
        | none, some report =>
          ⟨none, some (normalizedTarget, opts), none, some (report, output)⟩

end Cmd

/-! ## api.go -/

namespace Main

structure Options where
  EnablePorts : Bool
  Timeout : Int
  deriving DecidableEq, Repr

def DefaultTimeout : Int := 15000

/-- The `collector.Options` that `Run` hands to `Collect`, after the
replacement of a zero or negative timeout. -/
def collectOptions (opts : Options) : Netgaze.Options :=
  let opts := if opts.Timeout ≤ 0 then { opts with Timeout := DefaultTimeout } else opts
  { EnablePorts := opts.EnablePorts, NoAgent := true, Timeout := opts.Timeout }

/-- The function `Run`; a nil `ctx` is `none`. -/
def Run (env : Env) (ctx : Option Context) (target : String) (opts : Options) :
    Option Report × Option String :=
  let ctx := match ctx with
    | none => Background
    | some c => c
  let run := Collect env ctx target (collectOptions opts)
  match run.err with
  | some e => (none, some e)
  | none => (run.report, none)

end Main

/-! ## Vocabulary of the statements, continued -/

/-- The DNS phase of `Collect`: what `collectDNS` makes of the fresh report
and the error it returns. -/
def dnsPhase (env : Env) (ctx : Context) (target : String) (opts : Options) :
    Report × Option String :=
  collectDNS env (errgroupWithContext (WithTimeout ctx env.tStart opts.Timeout)) env.tStart
    target { Target := target, ResolvedAt := env.tStart, Errors := [] }

/-- The context that `Collect` hands to `collectTLS`: the context shared by
the second errgroup, after its `Wait` has returned. -/
def tlsContext (env : Env) (ctx : Context) (target : String) (opts : Options) : Context :=
  errgroupWait
    (sharedContext env (errgroupWithContext (WithTimeout ctx env.tStart opts.Timeout)) target
      (dnsPhase env ctx target opts).1)
    env.tIndepDone

/-- The thirteen probe names under which errors are recorded. -/
def probeNames : List String :=
  ["dns", "dns_ptr", "dns_cname", "dns_mx", "dns_ns", "dns_txt", "ping", "traceroute",
   "whois", "asn", "geo", "ports", "tls"]

/-- The seven optional probes. -/
def optionalProbes : List Probe :=
  [.ping, .traceroute, .whois, .asn, .geo, .ports, .tls]

/-- The key of `Errors` under which an optional probe records its failure. -/
def probeKey : Probe → String
  | .dns => "dns"
  | .ping => "ping"
  | .traceroute => "traceroute"
  | .whois => "whois"
  | .asn => "asn"
  | .geo => "geo"
  | .ports => "ports"
  | .tls => "tls"

/-- The keys of `report.Errors` that are a probe's own: the ones its source
assigns. -/
def probeKeys : Probe → List String
  | .dns => ["dns", "dns_ptr", "dns_cname", "dns_mx", "dns_ns", "dns_txt"]
  | .ping => ["ping"]
  | .traceroute => ["traceroute"]
  | .whois => ["whois"]
  | .asn => ["asn"]
  | .geo => ["geo"]
  | .ports => ["ports"]
  | .tls => ["tls"]

/-- A report with the field group of a probe and the error map put back to
their zero values: what is left is everything outside the group of the probe.
The ASN and the geolocation probe have the same group, `Geo`. -/
def withoutGroup : Probe → Report → Report
  | .dns, r => { r with IPs := [], IPv4 := [], IPv6 := [], PTR := [], CNAME := [], MX := [],
                        NS := [], TXT := [], Errors := [] }
  | .ping, r => { r with Ping := {}, Errors := [] }
  | .traceroute, r => { r with Trace := {}, Errors := [] }
  | .whois, r => { r with WhoisRaw := "", Whois := {}, Errors := [] }
  | .asn, r => { r with Geo := {}, Errors := [] }
  | .geo, r => { r with Geo := {}, Errors := [] }
  | .ports, r => { r with Ports := {}, Errors := [] }
  | .tls, r => { r with TLS := {}, Errors := [] }

/-- A report with the error map and the error text of the trace group blanked:
what is left are the results proper. -/
def Report.results (r : Report) : Report :=
  { r with Errors := [], Trace := { r.Trace with Error := "" } }

/-- The Team Cymru answer used in the source as its example. -/
def exampleCymru : String :=
  "15169 | 8.8.8.8 | 8.8.8.0/24 | US | arin | 2012-03-30 | GOOGLE-CLOUD-PLATFORM"

/-- A geolocation answer for the same address. -/
def exampleGeoResponse : GeoResponse :=
  { Status := "success", Country := "United States", CountryCode := "USA", City := "Ashburn",
    ISP := "Google LLC", Org := "Google Public DNS", AS := "AS15169 Google LLC",
    Query := "8.8.8.8 " }

/-- A report without what the ping probe writes: the `Ping` group and the
entry `ping` of the error map. -/
def Report.sansPing (r : Report) : Report :=
  { r with Ping := {}, Errors := r.Errors.filter (fun e => e.1 != "ping") }

/-- An environment in which the ping probe behaves as given; everything else
is as in `env`. -/
def Env.withPing (env : Env) (newPinger : String → Except String Unit)
    (pingerRun : String → Except String PingStatistics) : Env :=
  { env with NewPinger := newPinger, PingerRun := pingerRun }

/-- The TLS group filled from a certificate result, as `populateTLSData`
leaves it in a report whose TLS group was zero. -/
def tlsGroupOf (result : TLSResult) : TLSGroup :=
  { Subject := result.Subject
    Issuer := result.Issuer
    CommonName := result.CommonName
    AltNames := result.AltNames
    NotBefore := result.NotBefore
    NotAfter := result.NotAfter
    Expired := result.Expired
    SelfSigned := result.SelfSigned }

/-! ## Sample environments, continued -/

/-- The sample environment with a URL parser that finds an empty host in
`http://`, as the test `TestValidateTarget` records. -/
def urlEnv : Env :=
  { exampleEnv with urlHostname := fun s => if s = "http://" then some "" else none }

/-- The Report of the sample run. -/
def exampleReport : Report :=
  ((Collect exampleEnv Background "example.com" exampleOptions).report).getD {}

/-! ## Vocabulary of the statements: parsers -/

/-- The hop number a line of traceroute output stands for, in the words of the
specification: the line, trimmed, is non-empty, does not start with
`traceroute to`, has at least two whitespace-separated fields, and its first
field parses as an integer, which is the hop number. -/
def hopNumberOf (env : Env) (line : String) : Option Int :=
  if TrimSpace line = "" then none
  else if HasPrefix (TrimSpace line) "traceroute to" then none
  else if (Fields (TrimSpace line)).length < 2 then none
  else env.Atoi ((Fields (TrimSpace line)).headD "")

/-- The strings that the patterns of `extractEmails` capture in a text, in the
order of discovery: pattern after pattern (abuse, admin, technical, any
address), match after match, each capture trimmed and lower-cased. -/
def emailCandidates (env : Env) (data : String) : List String :=
  emailPatterns.flatMap (fun pattern =>
    (env.FindAllStringSubmatch ("(?i)" ++ pattern) data).filterMap (fun found =>
      if found.length > 1 then some (ToLower env (TrimSpace (found.getD 1 ""))) else none))

/-- A list without its repetitions, each element at the place of its first
occurrence. -/
def firstOccurrences : List String → List String
  | [] => []
  | x :: xs => x :: (firstOccurrences xs).filter (fun y => y != x)

/-! ## Sample environments: parsers -/

/-- The sample environment with the parsers of the Go library answering as
they do on the fields of the documented traceroute line: only `192.168.1.1`
is an IP address, `1`, `2` and `3` are integers, and among the strings that a
field ending in `ms` leaves, `1.234` is a number and the empty string is not. -/
def tracerouteEnv : Env :=
  { exampleEnv with
    ParseIP := fun s => if s = "192.168.1.1" then some ⟨[192, 168, 1, 1]⟩ else none
    Atoi := fun s =>
      if s = "1" then some 1 else if s = "2" then some 2 else if s = "3" then some 3 else none
    formatRTT := fun s => if s = "1.234" then some "1.2ms" else none
    LookupAddrPlain := fun _ => .error "no such host" }

/-- The hop line that the source documents as the format it parses. -/
def documentedHopLine : String :=
  "1  gateway (192.168.1.1)  1.234 ms  1.567 ms  1.890 ms"

/-- The sample environment with a regular-expression engine that finds, for
the pattern of any address, the two addresses of the test `duplicate emails`. -/
def emailEnv : Env :=
  { exampleEnv with
    FindAllStringSubmatch := fun re _ =>
      if re = "(?i)([a-zA-Z0-9._%+-]+@[a-zA-Z0-9.-]+\\.[a-zA-Z]\x7b2,\x7d)" then
        [["test@example.com", "test@example.com"], ["TEST@EXAMPLE.COM", "TEST@EXAMPLE.COM"]]
      else [] }

/-- A Team Cymru record whose second field is empty. -/
def cymruWithoutIP : String :=
  "15169 |  | 8.8.8.0/24 | US | arin | 2012-03-30 | GOOGLE"

/-! ## internal/collector: the unsynchronised map `report.Errors`

The tasks of an errgroup run as goroutines and assign to the one Go map
`report.Errors` without a lock. `collectDNS`, `runTasks` and `Collect` give what
a call returns when no two of these assignments overlap; `CollectProcess` adds
the other outcome, in which the Go runtime stops the process. -/

/-- What becomes of a call of `Collect`: it returns, or the runtime stops the
process with a fatal error and nothing is returned. -/
inductive Outcome where
  | returned (run : Run)
  | fatal (message : String)
  deriving DecidableEq, Repr

/-- The keys of `report.Errors` that the four record tasks of `collectDNS`
(CNAME, MX, NS, TXT), goroutines of its errgroup started at `now`, assign: each
task assigns its key when its look-up fails. -/
def recordErrorKeys (env : Env) (ctx : Context) (now : Int) (target : String) :
    List String :=
  let gctx := errgroupWithContext (WithTimeout ctx now 3000)
  (match resolveCNAME env gctx now target with
    | .error _ => ["dns_cname"]
    | .ok _ => [])
  ++ (match resolveMX env gctx now target with
    | .error _ => ["dns_mx"]
    | .ok _ => [])
  ++ (match resolveNS env gctx now target with
    | .error _ => ["dns_ns"]
    | .ok _ => [])
  ++ (match resolveTXT env gctx now target with
    | .error _ => ["dns_txt"]
    | .ok _ => [])

/-- Whether the probe `p`, run on `report`, executes an assignment
`report.Errors[k] = v`: started on the report with an empty map, it leaves an
entry in the map. -/
def assignsError (env : Env) (ctx : Context) (now : Int) (target : String) (p : Probe)
    (report : Report) : Bool :=
  !(runProbe env ctx now target p { report with Errors := [] }).1.Errors.isEmpty

/-- The keys of `report.Errors` that the tasks of the second errgroup of
`Collect`, goroutines started when the DNS phase has succeeded, assign. -/
def taskErrorKeys (env : Env) (ctx : Context) (target : String) (opts : Options) :
    List String :=
  let ctx1 := errgroupWithContext (WithTimeout ctx env.tStart opts.Timeout)
  let report := (dnsPhase env ctx target opts).1
  ((independentProbes opts).filter (fun p =>
    assignsError env (sharedContext env ctx1 target report) env.tDNSDone target p report)).map
    probeKey

/-- A call of `Collect` as the Go runtime executes it. When the IP resolution
has succeeded, the record tasks of `collectDNS` and then the tasks of the
second errgroup run as goroutines; when two goroutines of one group assign to
`report.Errors` and their assignments overlap, the runtime stops the process
with `fatal error: concurrent map writes`. Otherwise the call returns what
`Collect` gives. -/
def CollectProcess (env : Env) (ctx : Context) (target : String) (opts : Options) :
    Outcome :=
  match dnsLookup env ctx target opts with
  | .error _ => .returned (Collect env ctx target opts)
  | .ok _ =>
    let records := recordErrorKeys env
      (errgroupWithContext (WithTimeout ctx env.tStart opts.Timeout)) env.tStart target
    let tasks := taskErrorKeys env ctx target opts
    if decide (2 ≤ records.length) && env.mapWritesCollide records then
      .fatal "concurrent map writes"
    else if decide (2 ≤ tasks.length) && env.mapWritesCollide tasks then
      .fatal "concurrent map writes"
    else .returned (Collect env ctx target opts)

/-! ## Sample environments: deadlines and schedules -/

def loopbackIP : IP := ⟨[127, 0, 0, 1]⟩

/-- The sample environment with the resolver of the Go library: it answers an
IP literal at once, without consulting its context, and for a host name
returns the error of a context that is already done. -/
def literalEnv : Env :=
  { exampleEnv with
    ipString := fun ip => if ip = loopbackIP then "127.0.0.1" else "93.184.216.34"
    ParseIP := fun s =>
      if s = "127.0.0.1" then some loopbackIP
      else if s = "93.184.216.34" then some exampleIP else none
    LookupIPAddr := fun c now t =>
      if t = "127.0.0.1" then .ok [loopbackIP]
      else if c.Done now then .error "context deadline exceeded"
      else .ok [exampleIP] }

/-- Options whose overall deadline has expired when `Collect` is entered. -/
def expiredOptions : Options := { EnablePorts := false, NoAgent := true, Timeout := 0 }

/-- The sample environment with a schedule in which concurrent assignments to
`report.Errors` overlap. -/
def racyEnv : Env :=
  { exampleEnv with mapWritesCollide := fun _ => true }

/-! ## Auxiliary facts -/

theorem ErrorMap.get_set_same (m : ErrorMap) (k v : String) :
    (m.set k v).get k = some v := by
  simp [ErrorMap.get, ErrorMap.set, List.lookup]

theorem ErrorMap.get_set_other (m : ErrorMap) (k k2 v : String) (h : k2 ≠ k) :
    (m.set k v).get k2 = m.get k2 := by
  have hb : (k2 == k) = false := by simpa using h
  simp only [ErrorMap.get, ErrorMap.set, List.lookup, hb]
  induction m with
  | nil => simp
  | cons e rest ih =>
    obtain ⟨a, b⟩ := e
    by_cases hak : a = k
    · subst hak
      simp [List.filter, List.lookup, hb, ih]
    · have hne : (a != k) = true := by simpa using hak
      simp only [List.filter, hne, List.lookup]
      cases hka : (k2 == a) <;> simp [ih]

theorem scanLoop_scanned (env : Env) (ctx : Context) (target : String) (ports : List Int) :
    ∀ (now : Int) (r : PortScanResult),
      (scanLoop env ctx target ports now r).result.Scanned = r.Scanned := by
  induction ports with
  | nil => intro now r; rfl
  | cons port rest ih =>
    intro now r
    simp only [scanLoop]
    split
    · rfl
    · split <;> rw [ih]

theorem scanLoop_complete (env : Env) (ctx : Context) (target : String) (ports : List Int) :
    ∀ (now : Int) (r : PortScanResult),
      (scanLoop env ctx target ports now r).err = none →
      (scanLoop env ctx target ports now r).result.Open
          = r.Open ++ ports.filter (connectSucceeds env target)
      ∧ (scanLoop env ctx target ports now r).result.Closed
          = r.Closed ++ ports.filter (fun p => !connectSucceeds env target p) := by
  induction ports with
  | nil => intro now r _; simp [scanLoop]
  | cons port rest ih =>
    intro now r h
    simp only [scanLoop] at h ⊢
    split at h
    · simp at h
    · next hdone =>
      simp only [hdone]
      by_cases hok : (env.DialTimeout (target ++ ":" ++ toString port) 1000).ok = true
      · simp only [hok, if_true] at h ⊢
        obtain ⟨h1, h2⟩ := ih _ _ h
        simp [h1, h2, connectSucceeds, hok, List.filter]
      · simp only [hok] at h ⊢
        obtain ⟨h1, h2⟩ := ih _ _ h
        simp [h1, h2, connectSucceeds, hok, List.filter]

theorem scanLoop_not_cancelled (env : Env) (ctx : Context) (target : String)
    (ports : List Int) :
    ∀ (now : Int) (r : PortScanResult),
      (∀ t ∈ checkInstants env target ports now, ctx.Done t = false) →
      (scanLoop env ctx target ports now r).err = none := by
  induction ports with
  | nil => intro now r _; rfl
  | cons port rest ih =>
    intro now r h
    have h0 : ctx.Done now = false := h now (by simp [checkInstants])
    have hrest : ∀ t ∈ checkInstants env target rest
        (now + (env.DialTimeout (target ++ ":" ++ toString port) 1000).latency),
        ctx.Done t = false := fun t ht => h t (by simp [checkInstants, ht])
    simp only [scanLoop, h0, Bool.false_eq_true, if_false]
    split <;> exact ih _ _ hrest

theorem getCommonPorts_nodup : getCommonPorts.Nodup := by
  decide

/-! ## What each probe leaves untouched -/

theorem Report.setError_get_other (r : Report) (k k2 v : String) (h : k2 ≠ k) :
    (r.setError k v).Errors.get k2 = r.Errors.get k2 := by
  simp [Report.setError, ErrorMap.get_set_other _ _ _ _ h]

theorem Report.setError_get_same (r : Report) (k v : String) :
    (r.setError k v).Errors.get k = some v := by
  simp [Report.setError, ErrorMap.get_set_same]

theorem storeIPs_frame (env : Env) (ips : List IP) :
    ∀ r : Report, (storeIPs env ips r).Ports = r.Ports ∧ (storeIPs env ips r).TLS = r.TLS
      ∧ (storeIPs env ips r).Errors = r.Errors ∧ (storeIPs env ips r).IPs = r.IPs := by
  induction ips with
  | nil => intro r; simp [storeIPs]
  | cons ip rest ih =>
    intro r
    simp only [storeIPs]
    split
    · obtain ⟨h1, h2, h3, h4⟩ := ih { r with IPv4 := r.IPv4 ++ [env.ipString ip] }
      exact ⟨h1, h2, h3, h4⟩
    · obtain ⟨h1, h2, h3, h4⟩ := ih { r with IPv6 := r.IPv6 ++ [env.ipString ip] }
      exact ⟨h1, h2, h3, h4⟩

theorem collectDNS_frame (env : Env) (ctx : Context) (now : Int) (target : String)
    (r : Report) (k : String) (hk : k ∉ dnsKeys) :
    (collectDNS env ctx now target r).1.Ports = r.Ports
    ∧ (collectDNS env ctx now target r).1.TLS = r.TLS
    ∧ (collectDNS env ctx now target r).1.Errors.get k = r.Errors.get k := by
  simp only [dnsKeys, List.mem_cons, List.mem_singleton, List.not_mem_nil, or_false,
    not_or] at hk
  obtain ⟨h1, h2, h3, h4, h5, h6⟩ := hk
  have s1 := fun ips r => (storeIPs_frame env ips r).1
  have s2 := fun ips r => (storeIPs_frame env ips r).2.1
  have s3 := fun ips r => (storeIPs_frame env ips r).2.2.1
  unfold collectDNS
  simp only []
  split
  · simp [Report.setError, ErrorMap.get_set_other _ _ _ _ h1]
  · refine ⟨?_, ?_, ?_⟩ <;>
    · repeat' split
      all_goals
        simp [Report.setError, ErrorMap.get_set_other _ _ _ _ h2,
          ErrorMap.get_set_other _ _ _ _ h3, ErrorMap.get_set_other _ _ _ _ h4,
          ErrorMap.get_set_other _ _ _ _ h5, ErrorMap.get_set_other _ _ _ _ h6, s1, s2, s3]

theorem collectPing_frame (env : Env) (ctx : Context) (now : Int) (target : String)
    (r : Report) (k : String) (hk : k ≠ "ping") :
    (collectPing env ctx now target r).1.Ports = r.Ports
    ∧ (collectPing env ctx now target r).1.TLS = r.TLS
    ∧ (collectPing env ctx now target r).1.Errors.get k = r.Errors.get k := by
  unfold collectPing
  refine ⟨?_, ?_, ?_⟩ <;>
  · repeat' split
    all_goals simp [Report.setError, ErrorMap.get_set_other _ _ _ _ hk]

theorem collectTraceroute_frame (env : Env) (ctx : Context) (now : Int) (target : String)
    (r : Report) (k : String) (hk : k ≠ "traceroute") :
    (collectTraceroute env ctx now target r).1.Ports = r.Ports
    ∧ (collectTraceroute env ctx now target r).1.TLS = r.TLS
    ∧ (collectTraceroute env ctx now target r).1.Errors.get k = r.Errors.get k := by
  unfold collectTraceroute
  refine ⟨?_, ?_, ?_⟩ <;>
  · repeat' split
    all_goals simp [Report.setError, ErrorMap.get_set_other _ _ _ _ hk]

theorem collectWhois_frame (env : Env) (ctx : Context) (now : Int) (target : String)
    (r : Report) (k : String) (hk : k ≠ "whois") :
    (collectWhois env ctx now target r).1.Ports = r.Ports
    ∧ (collectWhois env ctx now target r).1.TLS = r.TLS
    ∧ (collectWhois env ctx now target r).1.Errors.get k = r.Errors.get k := by
  unfold collectWhois
  simp only []
  generalize selectFirst _ _ _ _ _ = sel
  cases sel <;> simp [Report.setError, ErrorMap.get_set_other _ _ _ _ hk, parseWhoisData]

theorem parseTeamCymruResult_frame (result : String) (r : Report) :
    (parseTeamCymruResult result r).Ports = r.Ports
    ∧ (parseTeamCymruResult result r).TLS = r.TLS
    ∧ (parseTeamCymruResult result r).Errors = r.Errors := by
  unfold parseTeamCymruResult
  refine ⟨?_, ?_, ?_⟩ <;>
  · simp only []
    split <;> rfl

theorem collectASN_frame (env : Env) (ctx : Context) (now : Int) (target : String)
    (r : Report) (k : String) (hk : k ≠ "asn") :
    (collectASN env ctx now target r).1.Ports = r.Ports
    ∧ (collectASN env ctx now target r).1.TLS = r.TLS
    ∧ (collectASN env ctx now target r).1.Errors.get k = r.Errors.get k := by
  have a1 := fun s => (parseTeamCymruResult_frame s r).1
  have a2 := fun s => (parseTeamCymruResult_frame s r).2.1
  have a3 := fun s => (parseTeamCymruResult_frame s r).2.2
  unfold collectASN
  simp only []
  split
  · simp [Report.setError, ErrorMap.get_set_other _ _ _ _ hk]
  · generalize selectFirst _ _ _ _ _ = sel
    cases sel <;> simp [Report.setError, ErrorMap.get_set_other _ _ _ _ hk, a1, a2, a3]

theorem collectGeo_frame (env : Env) (ctx : Context) (now : Int) (target : String)
    (r : Report) (k : String) (hk : k ≠ "geo") :
    (collectGeo env ctx now target r).1.Ports = r.Ports
    ∧ (collectGeo env ctx now target r).1.TLS = r.TLS
    ∧ (collectGeo env ctx now target r).1.Errors.get k = r.Errors.get k := by
  unfold collectGeo
  simp only []
  split
  · simp [Report.setError, ErrorMap.get_set_other _ _ _ _ hk]
  · generalize selectFirst _ _ _ _ _ = sel
    cases sel <;> simp [Report.setError, ErrorMap.get_set_other _ _ _ _ hk, populateGeoData]

theorem collectPorts_frame (env : Env) (ctx : Context) (now : Int) (target : String)
    (r : Report) (k : String) (hk : k ≠ "ports") :
    (collectPorts env ctx now target r).1.TLS = r.TLS
    ∧ (collectPorts env ctx now target r).1.Errors.get k = r.Errors.get k := by
  unfold collectPorts
  simp only []
  split
  · simp [Report.setError, ErrorMap.get_set_other _ _ _ _ hk]
  · generalize selectFirst _ _ _ _ _ = sel
    cases sel <;> simp [Report.setError, ErrorMap.get_set_other _ _ _ _ hk, populatePortData]

theorem collectTLS_frame (env : Env) (ctx : Context) (now : Int) (target : String)
    (r : Report) (k : String) (hk : k ≠ "tls") :
    (collectTLS env ctx now target r).1.Ports = r.Ports
    ∧ (collectTLS env ctx now target r).1.Errors.get k = r.Errors.get k
    ∧ (collectTLS env ctx now target r).2 = none := by
  unfold collectTLS
  simp only []
  split
  · simp [Report.setError, ErrorMap.get_set_other _ _ _ _ hk]
  · generalize selectFirst _ _ _ _ _ = sel
    cases sel <;> simp [Report.setError, ErrorMap.get_set_other _ _ _ _ hk, populateTLSData]

theorem contains_iff (slice : List Int) (item : Int) :
    contains slice item = true ↔ item ∈ slice := by
  induction slice with
  | nil => simp [contains]
  | cons s rest ih =>
    simp only [contains, List.mem_cons]
    by_cases h : s = item
    · simp [h]
    · have h2 : ¬ item = s := fun e => h e.symm
      simp [h, h2, ih]

theorem collectDNS_error (env : Env) (ctx : Context) (now : Int) (target : String)
    (r : Report) :
    (collectDNS env ctx now target r).2
      = match resolveIPs env (WithTimeout ctx now 3000) now target with
        | .error e => some ("IP resolution failed: " ++ e)
        | .ok _ => none := by
  unfold collectDNS
  simp only []
  split <;> rfl

theorem runTasks_frame_tls (env : Env) (ctx : Context) (now : Int) (target : String)
    (ps : List Probe) (hp : Probe.tls ∉ ps) :
    ∀ r : Report, (runTasks env ctx now target ps r).TLS = r.TLS
      ∧ (runTasks env ctx now target ps r).Errors.get "tls" = r.Errors.get "tls" := by
  induction ps with
  | nil => intro r; simp [runTasks]
  | cons p rest ih =>
    intro r
    simp only [List.mem_cons, not_or] at hp
    obtain ⟨hne, hrest⟩ := hp
    obtain ⟨h1, h2⟩ := ih hrest (runProbe env ctx now target p r).1
    simp only [runTasks, h1, h2]
    cases p with
    | tls => exact absurd rfl hne
    | dns =>
      have h := collectDNS_frame env ctx now target r "tls" (by decide)
      exact ⟨h.2.1, h.2.2⟩
    | ping =>
      have h := collectPing_frame env ctx now target r "tls" (by decide)
      exact ⟨h.2.1, h.2.2⟩
    | traceroute =>
      have h := collectTraceroute_frame env ctx now target r "tls" (by decide)
      exact ⟨h.2.1, h.2.2⟩
    | whois =>
      have h := collectWhois_frame env ctx now target r "tls" (by decide)
      exact ⟨h.2.1, h.2.2⟩
    | asn =>
      have h := collectASN_frame env ctx now target r "tls" (by decide)
      exact ⟨h.2.1, h.2.2⟩
    | geo =>
      have h := collectGeo_frame env ctx now target r "tls" (by decide)
      exact ⟨h.2.1, h.2.2⟩
    | ports =>
      have h := collectPorts_frame env ctx now target r "tls" (by decide)
      exact ⟨h.1, h.2⟩

theorem runTasks_frame_ports (env : Env) (ctx : Context) (now : Int) (target : String)
    (ps : List Probe) (hp : Probe.ports ∉ ps) :
    ∀ r : Report, (runTasks env ctx now target ps r).Ports = r.Ports
      ∧ (runTasks env ctx now target ps r).Errors.get "ports" = r.Errors.get "ports" := by
  induction ps with
  | nil => intro r; simp [runTasks]
  | cons p rest ih =>
    intro r
    simp only [List.mem_cons, not_or] at hp
    obtain ⟨hne, hrest⟩ := hp
    obtain ⟨h1, h2⟩ := ih hrest (runProbe env ctx now target p r).1
    simp only [runTasks, h1, h2]
    cases p with
    | ports => exact absurd rfl hne
    | dns =>
      have h := collectDNS_frame env ctx now target r "ports" (by decide)
      exact ⟨h.1, h.2.2⟩
    | ping =>
      have h := collectPing_frame env ctx now target r "ports" (by decide)
      exact ⟨h.1, h.2.2⟩
    | traceroute =>
      have h := collectTraceroute_frame env ctx now target r "ports" (by decide)
      exact ⟨h.1, h.2.2⟩
    | whois =>
      have h := collectWhois_frame env ctx now target r "ports" (by decide)
      exact ⟨h.1, h.2.2⟩
    | asn =>
      have h := collectASN_frame env ctx now target r "ports" (by decide)
      exact ⟨h.1, h.2.2⟩
    | geo =>
      have h := collectGeo_frame env ctx now target r "ports" (by decide)
      exact ⟨h.1, h.2.2⟩
    | tls =>
      have h := collectTLS_frame env ctx now target r "ports" (by decide)
      exact ⟨h.1, h.2.1⟩

theorem writeOrder_no_tls (env : Env) (opts : Options) : Probe.tls ∉ writeOrder env opts := by
  unfold writeOrder
  cases env.asnAfterGeo <;> cases opts.EnablePorts <;> decide

theorem writeOrder_no_ports (env : Env) (opts : Options) (h : opts.EnablePorts = false) :
    Probe.ports ∉ writeOrder env opts := by
  unfold writeOrder
  rw [h]
  cases env.asnAfterGeo <;> decide

/-! ## The port scanner -/

/-- C7. When `scanPorts` runs to completion (it returns a nil error), `Open`
and `Closed` partition `Scanned`: no port is in both, every port of either is
in `Scanned`, every scanned port is in exactly one of the two, the two lists
together are a rearrangement of `Scanned`, and
`len(Open) + len(Closed) == len(Scanned)`, in the result and in the Report
that `populatePortData` fills from it. -/
theorem scanPorts_partition (env : Env) (ctx : Context) (now : Int) (target : String)
    (h : (scanPorts env ctx now target).err = none) :
    (∀ p, ¬ (p ∈ (scanPorts env ctx now target).result.Open
              ∧ p ∈ (scanPorts env ctx now target).result.Closed))
    ∧ (∀ p, p ∈ (scanPorts env ctx now target).result.Open
              ∨ p ∈ (scanPorts env ctx now target).result.Closed →
            p ∈ (scanPorts env ctx now target).result.Scanned)
    ∧ (∀ p ∈ (scanPorts env ctx now target).result.Scanned,
            (p ∈ (scanPorts env ctx now target).result.Open
              ∧ p ∉ (scanPorts env ctx now target).result.Closed)
            ∨ (p ∉ (scanPorts env ctx now target).result.Open
              ∧ p ∈ (scanPorts env ctx now target).result.Closed))
    ∧ ((scanPorts env ctx now target).result.Open
          ++ (scanPorts env ctx now target).result.Closed).Perm
        (scanPorts env ctx now target).result.Scanned
    ∧ (scanPorts env ctx now target).result.Open.length
        + (scanPorts env ctx now target).result.Closed.length
        = (scanPorts env ctx now target).result.Scanned.length
    ∧ (∀ report : Report,
        (populatePortData (some (scanPorts env ctx now target).result) report).Ports.Open.length
        + (populatePortData (some (scanPorts env ctx now target).result)
            report).Ports.Closed.length
        = (populatePortData (some (scanPorts env ctx now target).result)
            report).Ports.Scanned.length) := by
  have hs : (scanPorts env ctx now target).result.Scanned = getCommonPorts := by
    simp [scanPorts, scanLoop_scanned]
  obtain ⟨ho, hc⟩ := scanLoop_complete env ctx target getCommonPorts now
    { Scanned := getCommonPorts } h
  have ho2 : (scanPorts env ctx now target).result.Open
      = getCommonPorts.filter (connectSucceeds env target) := by
    simpa [scanPorts] using ho
  have hc2 : (scanPorts env ctx now target).result.Closed
      = getCommonPorts.filter (fun p => !connectSucceeds env target p) := by
    simpa [scanPorts] using hc
  have hlen : (getCommonPorts.filter (connectSucceeds env target)).length
      + (getCommonPorts.filter (fun p => !connectSucceeds env target p)).length
      = getCommonPorts.length := by
    have := (List.filter_append_perm (connectSucceeds env target) getCommonPorts).length_eq
    simpa using this
  simp only [populatePortData]
  rw [hs, ho2, hc2]
  refine ⟨?_, ?_, ?_, ?_, hlen, fun _ => hlen⟩
  · intro p hp
    simp only [List.mem_filter] at hp
    obtain ⟨⟨_, h1⟩, ⟨_, h2⟩⟩ := hp
    simp [h1] at h2
  · intro p hp
    simp only [List.mem_filter] at hp
    rcases hp with hp | hp <;> exact hp.1
  · intro p hp
    simp only [List.mem_filter]
    cases hcs : connectSucceeds env target p <;> simp [hp]
  · exact List.filter_append_perm _ _

/-- C7, at the sample environment: the scan of `93.184.216.34` under a
context that is never done runs to completion. -/
theorem scanPorts_partition_witness :
    (scanPorts exampleEnv Background 0 "93.184.216.34").err = none
    ∧ (scanPorts exampleEnv Background 0 "93.184.216.34").result.Open.length
        + (scanPorts exampleEnv Background 0 "93.184.216.34").result.Closed.length
        = (scanPorts exampleEnv Background 0 "93.184.216.34").result.Scanned.length :=
  ⟨by rfl, (scanPorts_partition exampleEnv Background 0 "93.184.216.34" (by rfl)).2.2.2.2.1⟩

/-- C8. For a scan that is not cancelled (the context is not done at any of
the instants at which the loop consults it), `scanPorts` returns a nil error,
`Open` is the sub-list, in candidate order, of the common ports whose connect
succeeded, and `Closed` the sub-list of those whose connect failed. -/
theorem scanPorts_classifies (env : Env) (ctx : Context) (now : Int) (target : String)
    (h : ∀ t ∈ checkInstants env target getCommonPorts now, ctx.Done t = false) :
    (scanPorts env ctx now target).err = none
    ∧ (scanPorts env ctx now target).result.Open
        = getCommonPorts.filter (fun p => connectSucceeds env target p)
    ∧ (scanPorts env ctx now target).result.Closed
        = getCommonPorts.filter (fun p => !connectSucceeds env target p) := by
  have herr := scanLoop_not_cancelled env ctx target getCommonPorts now
    { Scanned := getCommonPorts } h
  obtain ⟨ho, hc⟩ := scanLoop_complete env ctx target getCommonPorts now
    { Scanned := getCommonPorts } herr
  exact ⟨herr, by simpa [scanPorts] using ho, by simpa [scanPorts] using hc⟩

/-- C8, at the sample environment: under a 30 s deadline the scan of
`93.184.216.34` finds exactly ports 80 and 443 open. -/
theorem scanPorts_classifies_witness :
    (∀ t ∈ checkInstants exampleEnv "93.184.216.34" getCommonPorts 0,
        (WithTimeout Background 0 30000).Done t = false)
    ∧ (scanPorts exampleEnv (WithTimeout Background 0 30000) 0 "93.184.216.34").result.Open
        = [80, 443] :=
  ⟨by decide,
   (scanPorts_classifies exampleEnv (WithTimeout Background 0 30000) 0 "93.184.216.34"
      (by decide)).2.1.trans (by decide)⟩

/-- C9. Whatever the outcome of `scanPorts` (every connect failing, every
connect succeeding, cancellation at any point) the `Scanned` list of the
result is the full candidate list; and `populatePortData` leaves the report
with an empty `Ports.Filtered` whatever the result holds in `Filtered`. -/
theorem scanPorts_scanned_full (env : Env) (ctx : Context) (now : Int) (target : String)
    (result : PortScanResult) (report : Report) :
    (scanPorts env ctx now target).result.Scanned = getCommonPorts
    ∧ (populatePortData (some result) report).Ports.Filtered = [] := by
  constructor
  · simp [scanPorts, scanLoop_scanned]
  · rfl

/-! ## The orchestrator -/

theorem collectDNS_error_of_lookup (env : Env) (ctx : Context) (target : String)
    (opts : Options) (r : Report) :
    (collectDNS env (errgroupWithContext (WithTimeout ctx env.tStart opts.Timeout))
        env.tStart target r).2
      = match dnsLookup env ctx target opts with
        | .error e => some ("IP resolution failed: " ++ e)
        | .ok _ => none := by
  rw [collectDNS_error]
  rfl

/-- Whenever the IP resolution of the target, made under the deadline of the
run, returns an error, `Collect` returns a nil Report and the error
`DNS resolution failed: IP resolution failed: ...` wrapping the cause, and the
DNS probe is the only probe it started. -/
theorem Collect_dns_failure (env : Env) (ctx : Context) (target : String) (opts : Options)
    (e : String) (h : dnsLookup env ctx target opts = .error e) :
    (Collect env ctx target opts).report = none
    ∧ (Collect env ctx target opts).err
        = some ("DNS resolution failed: " ++ ("IP resolution failed: " ++ e))
    ∧ (Collect env ctx target opts).launched.map (fun l => l.probe) = [Probe.dns] := by
  have hd := collectDNS_error_of_lookup env ctx target opts
    { Target := target, ResolvedAt := env.tStart, Errors := [] }
  rw [h] at hd
  simp only [] at hd
  unfold Collect
  simp [hd]

/-- The sample environment whose resolver finds no address: a nil Report and
the wrapped error. -/
theorem Collect_dns_failure_witness :
    dnsLookup noHostEnv Background "example.com" exampleOptions = .error "no such host"
    ∧ (Collect noHostEnv Background "example.com" exampleOptions).report = none
    ∧ (Collect noHostEnv Background "example.com" exampleOptions).err
        = some "DNS resolution failed: IP resolution failed: no such host" :=
  ⟨rfl,
   (Collect_dns_failure noHostEnv Background "example.com" exampleOptions "no such host" rfl).1,
   (Collect_dns_failure noHostEnv Background "example.com" exampleOptions "no such host"
      rfl).2.1.trans (by decide)⟩

/-- What `Collect` returns, when it returns: a non-nil error exactly when the
IP resolution of the DNS probe fails; when it succeeds, a non-nil Report and a
nil error, whatever the record look-ups and the ping, traceroute, WHOIS, ASN,
geolocation, port-scan and TLS probes do, a probe that returns an error
included. -/
theorem Collect_error_iff_dns (env : Env) (ctx : Context) (target : String)
    (opts : Options) :
    ((Collect env ctx target opts).err ≠ none
        ↔ ∃ e, dnsLookup env ctx target opts = .error e)
    ∧ (∀ ips, dnsLookup env ctx target opts = .ok ips →
        (Collect env ctx target opts).report ≠ none
        ∧ (Collect env ctx target opts).err = none) := by
  have hd := collectDNS_error_of_lookup env ctx target opts
    { Target := target, ResolvedAt := env.tStart, Errors := [] }
  cases hl : dnsLookup env ctx target opts with
  | error e =>
    rw [hl] at hd
    simp only [] at hd
    refine ⟨⟨fun _ => ⟨e, rfl⟩, fun _ => ?_⟩, fun ips hips => by cases hips⟩
    unfold Collect
    simp [hd]
  | ok ips =>
    rw [hl] at hd
    simp only [] at hd
    have key : (Collect env ctx target opts).report ≠ none
        ∧ (Collect env ctx target opts).err = none := by
      unfold Collect
      simp only [hd]
      split <;> simp
    refine ⟨⟨fun hne => absurd key.2 hne, fun ⟨e, he⟩ => by cases he⟩, fun _ _ => key⟩

/-- The sample environment in which every optional probe fails and
`collectPing` returns an error: what is returned is a Report and no error. -/
theorem Collect_error_iff_dns_witness :
    dnsLookup failingEnv Background "example.com" exampleOptions = .ok [exampleIP]
    ∧ (collectPing failingEnv Background 120 "example.com" {}).2
        = some "failed to create pinger: lookup example.com: no such host"
    ∧ (Collect failingEnv Background "example.com" exampleOptions).report ≠ none
    ∧ (Collect failingEnv Background "example.com" exampleOptions).err = none :=
  ⟨rfl, by decide,
   (Collect_error_iff_dns failingEnv Background "example.com" exampleOptions).2
      [exampleIP] rfl⟩

theorem earlier_done (a : Option Int) (t now : Int) (h : t ≤ now) :
    (Context.mk (earlier a (some t))).Done now = true := by
  cases a with
  | none => simp [earlier, Context.Done, h]
  | some x =>
    simp only [earlier, Context.Done, decide_eq_true_eq]
    exact le_trans (min_le_right x t) h

/-- The context of an errgroup whose `Wait` has returned is done, and so is
every context derived from it afterwards. -/
theorem errgroupWait_done (c : Context) (t now : Int) (h : t ≤ now) :
    (errgroupWithContext (errgroupWait c t)).Done now = true
    ∧ (errgroupWait c t).Done now = true := by
  exact ⟨earlier_done c.doneAt t now h, earlier_done c.doneAt t now h⟩

theorem sharedContext_done (env : Env) (ctx1 : Context) (target : String) (report : Report) :
    (sharedContext env ctx1 target report).Done env.tDNSDone = true := by
  unfold sharedContext
  simp only []
  split
  · simp only [Context.cancelAt, errgroupWithContext, errgroupWait]
    cases hd : ctx1.doneAt with
    | none =>
      simp only [earlier, Context.Done, decide_eq_true_eq]
      exact min_le_left _ _
    | some x =>
      simp only [earlier, Context.Done, decide_eq_true_eq]
      exact le_trans (min_le_left _ _) (min_le_right _ _)
  · exact (errgroupWait_done ctx1 env.tDNSDone env.tDNSDone le_rfl).1

/-- In every run, each probe that `Collect` starts after the DNS probe is
handed a context that is already done at the instant it is started. -/
theorem Collect_later_contexts_done (env : Env) (ctx : Context) (target : String)
    (opts : Options) :
    ∀ l ∈ (Collect env ctx target opts).launched,
      l.probe ≠ Probe.dns → l.ctx.Done l.instant = true := by
  intro l hl hne
  unfold Collect at hl
  simp only [] at hl
  split at hl
  · simp only [List.mem_singleton] at hl
    subst hl
    exact absurd rfl hne
  · split at hl
    · simp only [List.mem_cons, List.mem_append, List.mem_map, List.mem_singleton,
        List.not_mem_nil, or_false] at hl
      rcases hl with hl | ⟨p, _, hl⟩ | hl
      · subst hl; exact absurd rfl hne
      · subst hl; exact sharedContext_done _ _ _ _
      · subst hl; exact (errgroupWait_done _ _ _ le_rfl).2
    · simp only [List.mem_cons, List.mem_map] at hl
      rcases hl with hl | ⟨p, _, hl⟩
      · subst hl; exact absurd rfl hne
      · subst hl; exact sharedContext_done _ _ _ _

/-- C3, evaluated on the code. In the sample run (DNS succeeds, overall
timeout 15 s, caller context never cancelled) the overall deadline has not
expired when the independent phase and the TLS phase start, yet every probe
after the DNS probe is handed a context that is already done when it starts:
the context of the second errgroup is derived from the context of the first,
which `g.Wait()` has cancelled. -/
theorem Collect_hands_done_context :
    dnsLookup exampleEnv Background "example.com" exampleOptions = .ok [exampleIP]
    ∧ (WithTimeout Background exampleEnv.tStart exampleOptions.Timeout).Done
        exampleEnv.tIndepDone = false
    ∧ Background.Done exampleEnv.tIndepDone = false
    ∧ (Collect exampleEnv Background "example.com" exampleOptions).launched.map
        (fun l => (l.probe, l.instant, l.ctx.Done l.instant))
      = [(.dns, 0, false), (.ping, 120, true), (.traceroute, 120, true),
         (.whois, 120, true), (.asn, 120, true), (.geo, 120, true),
         (.ports, 120, true), (.tls, 2500, true)] := by
  refine ⟨rfl, by decide, by decide, by decide⟩

theorem independent_launches_no_tls (opts : Options) (c : Context) (t : Int) :
    ((independentProbes opts).map (fun p => (⟨p, c, t⟩ : Launch))).any
      (fun l => l.probe == Probe.tls) = false := by
  unfold independentProbes
  cases opts.EnablePorts <;> simp

/-- C4. `Collect` invokes the TLS probe if and only if `EnablePorts` is true
and 443 is in `Ports.Open` of the report as it stands after the independent
phase; so never when `EnablePorts` is false, and never when 443 is absent
from the open-port list. -/
theorem Collect_tls_iff (env : Env) (ctx : Context) (target : String) (opts : Options) :
    (Collect env ctx target opts).started Probe.tls = true
      ↔ (opts.EnablePorts = true
          ∧ ∃ r, afterIndependentPhase env ctx target opts = some r
              ∧ (443 : Int) ∈ r.Ports.Open) := by
  unfold Collect afterIndependentPhase Run.started
  simp only []
  split
  · simp
  · split
    · next hc =>
      simp only [Bool.and_eq_true, decide_eq_true_eq, contains_iff] at hc
      simp [hc.1.1, hc.2]
    · next hc =>
      simp only [Bool.and_eq_true, decide_eq_true_eq, contains_iff, not_and] at hc
      have hno : ¬ (opts.EnablePorts = true ∧ (443 : Int) ∈
          (independentPhase env (errgroupWithContext (WithTimeout ctx env.tStart opts.Timeout))
            target opts
            (collectDNS env (errgroupWithContext (WithTimeout ctx env.tStart opts.Timeout))
              env.tStart target
              { Target := target, ResolvedAt := env.tStart, Errors := [] }).1).Ports.Open) := by
        rintro ⟨h1, h2⟩
        exact hc ⟨h1, List.length_pos_of_mem h2⟩ h2
      have hl := independent_launches_no_tls opts
        (sharedContext env (errgroupWithContext (WithTimeout ctx env.tStart opts.Timeout)) target
          (collectDNS env (errgroupWithContext (WithTimeout ctx env.tStart opts.Timeout))
            env.tStart target
            { Target := target, ResolvedAt := env.tStart, Errors := [] }).1) env.tDNSDone
      simp only [List.any_cons, hl]
      constructor
      · intro h
        simp at h
      · rintro ⟨h1, r, hr, h2⟩
        simp only [Option.some.injEq] at hr
        subst hr
        exact absurd ⟨h1, h2⟩ hno

/-- The report after the independent phase, as far as the TLS group and the
`tls` error key go: both are as in a fresh report. -/
theorem independentPhase_tls_untouched (env : Env) (ctx1 : Context) (target : String)
    (opts : Options) :
    (independentPhase env ctx1 target opts
        (collectDNS env ctx1 env.tStart target
          { Target := target, ResolvedAt := env.tStart, Errors := [] }).1).TLS = {}
    ∧ (independentPhase env ctx1 target opts
        (collectDNS env ctx1 env.tStart target
          { Target := target, ResolvedAt := env.tStart, Errors := [] }).1).Errors.get "tls"
        = none := by
  obtain ⟨h1, h2⟩ := runTasks_frame_tls env
    (sharedContext env ctx1 target (collectDNS env ctx1 env.tStart target
      { Target := target, ResolvedAt := env.tStart, Errors := [] }).1)
    env.tDNSDone target (writeOrder env opts) (writeOrder_no_tls env opts)
    (collectDNS env ctx1 env.tStart target
      { Target := target, ResolvedAt := env.tStart, Errors := [] }).1
  have hd := collectDNS_frame env ctx1 env.tStart target
    { Target := target, ResolvedAt := env.tStart, Errors := [] } "tls" (by decide)
  unfold independentPhase
  rw [h1, h2, hd.2.1, hd.2.2]
  exact ⟨rfl, rfl⟩

/-- The report after the independent phase when ports are disabled, as far as
the port group and the `ports` error key go: both are as in a fresh report. -/
theorem independentPhase_ports_untouched (env : Env) (ctx1 : Context) (target : String)
    (opts : Options) (hE : opts.EnablePorts = false) :
    (independentPhase env ctx1 target opts
        (collectDNS env ctx1 env.tStart target
          { Target := target, ResolvedAt := env.tStart, Errors := [] }).1).Ports = {}
    ∧ (independentPhase env ctx1 target opts
        (collectDNS env ctx1 env.tStart target
          { Target := target, ResolvedAt := env.tStart, Errors := [] }).1).Errors.get "ports"
        = none := by
  obtain ⟨h1, h2⟩ := runTasks_frame_ports env
    (sharedContext env ctx1 target (collectDNS env ctx1 env.tStart target
      { Target := target, ResolvedAt := env.tStart, Errors := [] }).1)
    env.tDNSDone target (writeOrder env opts) (writeOrder_no_ports env opts hE)
    (collectDNS env ctx1 env.tStart target
      { Target := target, ResolvedAt := env.tStart, Errors := [] }).1
  have hd := collectDNS_frame env ctx1 env.tStart target
    { Target := target, ResolvedAt := env.tStart, Errors := [] } "ports" (by decide)
  unfold independentPhase
  rw [h1, h2, hd.1, hd.2.2]
  exact ⟨rfl, rfl⟩

/-- C5 as stated fails. In the sample run with every port closed and
`EnablePorts` set, `Collect` returns a Report in which 443 is not open and in
which `Errors["tls"]` is absent, not the skip message. -/
theorem Collect_skip_message_absent :
    exampleOptions.EnablePorts = true
    ∧ (Collect closedEnv Background "example.com" exampleOptions).report.map
        (fun r => (decide ((443 : Int) ∈ r.Ports.Open), r.Errors.get "tls"))
      = some (false, none)
    ∧ (Collect closedEnv Background "example.com" exampleOptions).report.map
        (fun r => r.Errors.get "tls")
      ≠ some (some "Port 443 not open - skipping TLS collection") := by
  refine ⟨rfl, by decide, by decide⟩

/-- C5, amended. For every run of `Collect` with `EnablePorts` set that
returns a Report in which 443 is absent from `Ports.Open`, `Errors["tls"]` is
absent from that Report: the TLS probe, the only writer of the skip message,
is not called. -/
theorem Collect_tls_key_absent (env : Env) (ctx : Context) (target : String)
    (opts : Options) (r : Report) (_hE : opts.EnablePorts = true)
    (hr : (Collect env ctx target opts).report = some r)
    (h443 : (443 : Int) ∉ r.Ports.Open) :
    r.Errors.get "tls" = none := by
  have hu := independentPhase_tls_untouched env
    (errgroupWithContext (WithTimeout ctx env.tStart opts.Timeout)) target opts
  unfold Collect at hr
  simp only [] at hr
  split at hr
  · cases hr
  · split at hr
    · next hc =>
      simp only [Bool.and_eq_true, decide_eq_true_eq, contains_iff] at hc
      simp only [Option.some.injEq] at hr
      subst hr
      exfalso
      apply h443
      have hp := (collectTLS_frame env
        (errgroupWait (sharedContext env
          (errgroupWithContext (WithTimeout ctx env.tStart opts.Timeout)) target
          (collectDNS env (errgroupWithContext (WithTimeout ctx env.tStart opts.Timeout))
            env.tStart target
            { Target := target, ResolvedAt := env.tStart, Errors := [] }).1) env.tIndepDone)
        env.tIndepDone target
        (independentPhase env (errgroupWithContext (WithTimeout ctx env.tStart opts.Timeout))
          target opts
          (collectDNS env (errgroupWithContext (WithTimeout ctx env.tStart opts.Timeout))
            env.tStart target
            { Target := target, ResolvedAt := env.tStart, Errors := [] }).1)
        "ports" (by decide))
      simp only [hp.2.2, hp.1]
      exact hc.2
    · simp only [Option.some.injEq] at hr
      subst hr
      exact hu.2

/-- C5, amended, at the sample environment with every port closed. -/
theorem Collect_tls_key_absent_witness :
    exampleOptions.EnablePorts = true
    ∧ (Collect closedEnv Background "example.com" exampleOptions).report = some closedReport
    ∧ (443 : Int) ∉ closedReport.Ports.Open
    ∧ closedReport.Errors.get "tls" = none :=
  ⟨rfl, by decide, by decide,
   Collect_tls_key_absent closedEnv Background "example.com" exampleOptions closedReport rfl
     (by decide) (by decide)⟩

/-- C6. For every run of `Collect` with `EnablePorts` false that returns a
Report, the port-scan group (`Scanned`, `Open`, `Closed`, `Filtered`) and the
whole TLS group are at their zero values, and `Errors` holds neither the key
`ports` nor the key `tls`. -/
theorem Collect_ports_disabled (env : Env) (ctx : Context) (target : String)
    (opts : Options) (r : Report) (hE : opts.EnablePorts = false)
    (hr : (Collect env ctx target opts).report = some r) :
    r.Ports.Scanned = [] ∧ r.Ports.Open = [] ∧ r.Ports.Closed = [] ∧ r.Ports.Filtered = []
    ∧ r.TLS = {}
    ∧ r.Errors.get "ports" = none ∧ r.Errors.get "tls" = none := by
  have ht := independentPhase_tls_untouched env
    (errgroupWithContext (WithTimeout ctx env.tStart opts.Timeout)) target opts
  have hp := independentPhase_ports_untouched env
    (errgroupWithContext (WithTimeout ctx env.tStart opts.Timeout)) target opts hE
  unfold Collect at hr
  simp only [hE, Bool.false_and, Bool.false_eq_true, if_false] at hr
  split at hr
  · cases hr
  · simp only [Option.some.injEq] at hr
    subst hr
    simp [hp.1, ht.1, hp.2, ht.2]

/-- C6, at the sample environment with ports disabled. -/
theorem Collect_ports_disabled_witness :
    noPortsOptions.EnablePorts = false
    ∧ (Collect exampleEnv Background "example.com" noPortsOptions).report = some noPortsReport
    ∧ noPortsReport.Ports.Scanned = [] ∧ noPortsReport.TLS = {}
    ∧ noPortsReport.Errors.get "ports" = none ∧ noPortsReport.Errors.get "tls" = none :=
  ⟨rfl, by decide,
   (Collect_ports_disabled exampleEnv Background "example.com" noPortsOptions noPortsReport
      rfl (by decide)).1,
   (Collect_ports_disabled exampleEnv Background "example.com" noPortsOptions noPortsReport
      rfl (by decide)).2.2.2.2.1,
   (Collect_ports_disabled exampleEnv Background "example.com" noPortsOptions noPortsReport
      rfl (by decide)).2.2.2.2.2⟩

/-! ## The deadline of the port scan -/

theorem selectFirst_error {α : Type} (ctx : Context) (now finish : Int) (e : String)
    (coin : Bool) :
    selectFirst ctx now finish (.error e : Except String α) coin = .failed e
    ∨ selectFirst ctx now finish (.error e : Except String α) coin = .done := by
  unfold selectFirst
  simp only []
  split
  · exact Or.inl rfl
  · split
    · exact Or.inl rfl
    · split
      · exact Or.inr rfl
      · split
        · exact Or.inr rfl
        · exact Or.inl rfl

/-- C10 as stated fails. A context that is already cancelled when it is
passed to `collectPorts` does not stop the scan: in the sample environment
with every port closed all twenty connects are attempted and no `ports` error
is recorded; and the deadline of the scan started at 120 ms of a run whose
overall deadline is 15 s lies at 30.12 s, after the overall deadline. -/
theorem collectPorts_ignores_cancelled_context :
    (Context.mk (some 0)).Done 5 = true
    ∧ (collectPorts closedEnv ⟨some 0⟩ 5 "93.184.216.34" {}).1.Ports.Closed.length = 20
    ∧ (collectPorts closedEnv ⟨some 0⟩ 5 "93.184.216.34" {}).1.Errors.get "ports" = none
    ∧ (WithTimeout Background 0 exampleOptions.Timeout).doneAt = some 15000
    ∧ (portContext 120).doneAt = some 30120 := by
  refine ⟨by decide, by decide, by decide, by decide, by decide⟩

/-- C10, amended. The port scan is governed by its own context, created by
`collectPorts` from `context.Background()` with a timeout of 30 s, and not by
the context passed to `collectPorts`: the outcome of `collectPorts` is the
same for every context passed; the deadline of the scan is 30 s after the
probe starts; when the context of a scan is done at one of its checks between
two attempts, no further connect is attempted and the scan returns
`scan timeout`; and when the scan of `collectPorts` returns an error, the
probe records `Errors["ports"]` and leaves the port group as it was. -/
theorem collectPorts_own_deadline (env : Env) (ctx ctx2 : Context) (now : Int)
    (target : String) (report : Report) :
    collectPorts env ctx now target report = collectPorts env ctx2 now target report
    ∧ (portContext now).doneAt = some (now + 30000)
    ∧ (∀ (c : Context) (port : Int) (rest : List Int) (t : Int) (acc : PortScanResult),
        c.Done t = true →
        scanLoop env c target (port :: rest) t acc = ⟨acc, some "scan timeout", t⟩)
    ∧ (∀ ip, (getPortsTargetIP env target).result = .ok ip →
        (scanPorts env (portContext now) (now + (getPortsTargetIP env target).latency) ip).err
          ≠ none →
        ((collectPorts env ctx now target report).1.Errors.get "ports").isSome = true
        ∧ (collectPorts env ctx now target report).1.Ports = report.Ports) := by
  refine ⟨rfl, rfl, ?_, ?_⟩
  · intro c port rest t acc h
    simp [scanLoop, h]
  · intro ip hip herr
    unfold collectPorts
    simp only [hip]
    cases hs : (scanPorts env (portContext now)
        (now + (getPortsTargetIP env target).latency) ip).err with
    | none => exact absurd hs herr
    | some e =>
      simp only []
      rcases selectFirst_error (α := PortScanResult) (portContext now)
        (now + (getPortsTargetIP env target).latency)
        (scanPorts env (portContext now) (now + (getPortsTargetIP env target).latency) ip).finish
        e (env.coin "ports") with h | h <;>
      simp [h, Report.setError, ErrorMap.get_set_same]

/-- C10, amended, at the sample environment with two-second connects: the
30 s deadline passes at the sixteenth check, fifteen connects have been
attempted, and the probe records the `ports` error. -/
theorem collectPorts_own_deadline_witness :
    (portContext 0).Done 30000 = true
    ∧ (scanPorts slowEnv (portContext 0) 0 "93.184.216.34").err = some "scan timeout"
    ∧ (scanPorts slowEnv (portContext 0) 0 "93.184.216.34").result.Closed.length = 15
    ∧ scanLoop slowEnv (portContext 0) "93.184.216.34" [8080, 8443, 992, 10000, 1433] 30000
        {} = ⟨{}, some "scan timeout", 30000⟩
    ∧ ((collectPorts slowEnv Background 0 "93.184.216.34" {}).1.Errors.get "ports").isSome
        = true :=
  ⟨by decide, by decide, by decide,
   (collectPorts_own_deadline slowEnv Background Background 0 "93.184.216.34" {}).2.2.1
     (portContext 0) 8080 [8443, 992, 10000, 1433] 30000 {} (by decide),
   ((collectPorts_own_deadline slowEnv Background Background 0 "93.184.216.34" {}).2.2.2
     "93.184.216.34" rfl (by decide)).1⟩

/-! ## Field groups -/

theorem storeIPs_withoutGroup (env : Env) (ips : List IP) :
    ∀ r : Report, withoutGroup .dns (storeIPs env ips r) = withoutGroup .dns r := by
  induction ips with
  | nil => intro r; rfl
  | cons ip rest ih =>
    intro r
    simp only [storeIPs]
    split <;> rw [ih] <;> rfl

theorem storeIPs_shape (env : Env) (ips : List IP) :
    ∀ r : Report, ∃ v4 v6, storeIPs env ips r = { r with IPv4 := v4, IPv6 := v6 } := by
  induction ips with
  | nil => intro r; exact ⟨r.IPv4, r.IPv6, rfl⟩
  | cons ip rest ih =>
    intro r
    simp only [storeIPs]
    split
    · obtain ⟨v4, v6, h⟩ := ih { r with IPv4 := r.IPv4 ++ [env.ipString ip] }
      exact ⟨v4, v6, h⟩
    · obtain ⟨v4, v6, h⟩ := ih { r with IPv6 := r.IPv6 ++ [env.ipString ip] }
      exact ⟨v4, v6, h⟩

theorem withoutGroup_dns_ext (a b : Report) (h1 : a.Target = b.Target)
    (h2 : a.ResolvedAt = b.ResolvedAt) (h3 : a.DurationMs = b.DurationMs)
    (h4 : a.Geo = b.Geo) (h5 : a.WhoisRaw = b.WhoisRaw) (h6 : a.Whois = b.Whois)
    (h7 : a.Ping = b.Ping) (h8 : a.Trace = b.Trace) (h9 : a.Ports = b.Ports)
    (h10 : a.TLS = b.TLS) :
    withoutGroup .dns a = withoutGroup .dns b := by
  simp only [withoutGroup, h1, h2, h3, h4, h5, h6, h7, h8, h9, h10]

theorem storeIPs_fields (env : Env) (ips : List IP) (r : Report) :
    (storeIPs env ips r).Target = r.Target
    ∧ (storeIPs env ips r).ResolvedAt = r.ResolvedAt
    ∧ (storeIPs env ips r).DurationMs = r.DurationMs
    ∧ (storeIPs env ips r).Geo = r.Geo
    ∧ (storeIPs env ips r).WhoisRaw = r.WhoisRaw
    ∧ (storeIPs env ips r).Whois = r.Whois
    ∧ (storeIPs env ips r).Ping = r.Ping
    ∧ (storeIPs env ips r).Trace = r.Trace := by
  obtain ⟨v4, v6, hx⟩ := storeIPs_shape env ips r
  rw [hx]
  exact ⟨rfl, rfl, rfl, rfl, rfl, rfl, rfl, rfl⟩

theorem collectDNS_fields (env : Env) (ctx : Context) (now : Int) (target : String)
    (r : Report) :
    (collectDNS env ctx now target r).1.Target = r.Target
    ∧ (collectDNS env ctx now target r).1.ResolvedAt = r.ResolvedAt
    ∧ (collectDNS env ctx now target r).1.DurationMs = r.DurationMs
    ∧ (collectDNS env ctx now target r).1.Geo = r.Geo
    ∧ (collectDNS env ctx now target r).1.WhoisRaw = r.WhoisRaw
    ∧ (collectDNS env ctx now target r).1.Whois = r.Whois
    ∧ (collectDNS env ctx now target r).1.Ping = r.Ping
    ∧ (collectDNS env ctx now target r).1.Trace = r.Trace := by
  have s1 := fun ips r => (storeIPs_fields env ips r).1
  have s2 := fun ips r => (storeIPs_fields env ips r).2.1
  have s3 := fun ips r => (storeIPs_fields env ips r).2.2.1
  have s4 := fun ips r => (storeIPs_fields env ips r).2.2.2.1
  have s5 := fun ips r => (storeIPs_fields env ips r).2.2.2.2.1
  have s6 := fun ips r => (storeIPs_fields env ips r).2.2.2.2.2.1
  have s7 := fun ips r => (storeIPs_fields env ips r).2.2.2.2.2.2.1
  have s8 := fun ips r => (storeIPs_fields env ips r).2.2.2.2.2.2.2
  unfold collectDNS
  simp only []
  split
  · simp [Report.setError]
  · refine ⟨?_, ?_, ?_, ?_, ?_, ?_, ?_, ?_⟩ <;>
    · repeat' split
      all_goals simp [Report.setError, s1, s2, s3, s4, s5, s6, s7, s8]

theorem collectDNS_withoutGroup (env : Env) (ctx : Context) (now : Int) (target : String)
    (r : Report) :
    withoutGroup .dns (collectDNS env ctx now target r).1 = withoutGroup .dns r := by
  obtain ⟨h1, h2, h3, h4, h5, h6, h7, h8⟩ := collectDNS_fields env ctx now target r
  have hf := collectDNS_frame env ctx now target r "tls" (by decide)
  exact withoutGroup_dns_ext _ _ h1 h2 h3 h4 h5 h6 h7 h8 hf.1 hf.2.1

theorem collectPing_withoutGroup (env : Env) (ctx : Context) (now : Int) (target : String)
    (r : Report) :
    withoutGroup .ping (collectPing env ctx now target r).1 = withoutGroup .ping r := by
  unfold collectPing
  repeat' split
  all_goals rfl

theorem collectTraceroute_withoutGroup (env : Env) (ctx : Context) (now : Int)
    (target : String) (r : Report) :
    withoutGroup .traceroute (collectTraceroute env ctx now target r).1
      = withoutGroup .traceroute r := by
  unfold collectTraceroute
  repeat' split
  all_goals rfl

theorem collectWhois_withoutGroup (env : Env) (ctx : Context) (now : Int) (target : String)
    (r : Report) :
    withoutGroup .whois (collectWhois env ctx now target r).1 = withoutGroup .whois r := by
  unfold collectWhois
  simp only []
  generalize selectFirst _ _ _ _ _ = sel
  cases sel <;> rfl

theorem collectASN_withoutGroup (env : Env) (ctx : Context) (now : Int) (target : String)
    (r : Report) :
    withoutGroup .asn (collectASN env ctx now target r).1 = withoutGroup .asn r := by
  unfold collectASN
  simp only []
  split
  · rfl
  · generalize selectFirst _ _ _ _ _ = sel
    cases sel
    · simp only [parseTeamCymruResult]
      split <;> rfl
    · rfl
    · rfl

theorem collectGeo_withoutGroup (env : Env) (ctx : Context) (now : Int) (target : String)
    (r : Report) :
    withoutGroup .geo (collectGeo env ctx now target r).1 = withoutGroup .geo r := by
  unfold collectGeo
  simp only []
  split
  · rfl
  · generalize selectFirst _ _ _ _ _ = sel
    cases sel <;> rfl

theorem collectPorts_withoutGroup (env : Env) (ctx : Context) (now : Int) (target : String)
    (r : Report) :
    withoutGroup .ports (collectPorts env ctx now target r).1 = withoutGroup .ports r := by
  unfold collectPorts
  simp only []
  split
  · rfl
  · generalize selectFirst _ _ _ _ _ = sel
    cases sel <;> rfl

theorem collectTLS_withoutGroup (env : Env) (ctx : Context) (now : Int) (target : String)
    (r : Report) :
    withoutGroup .tls (collectTLS env ctx now target r).1 = withoutGroup .tls r := by
  unfold collectTLS
  simp only []
  split
  · rfl
  · generalize selectFirst _ _ _ _ _ = sel
    cases sel <;> rfl

/-- Every probe leaves every field outside its own group as it was (the error
map apart). -/
theorem runProbe_withoutGroup (env : Env) (ctx : Context) (now : Int) (target : String)
    (p : Probe) (r : Report) :
    withoutGroup p (runProbe env ctx now target p r).1 = withoutGroup p r := by
  cases p with
  | dns => exact collectDNS_withoutGroup env ctx now target r
  | ping => exact collectPing_withoutGroup env ctx now target r
  | traceroute => exact collectTraceroute_withoutGroup env ctx now target r
  | whois => exact collectWhois_withoutGroup env ctx now target r
  | asn => exact collectASN_withoutGroup env ctx now target r
  | geo => exact collectGeo_withoutGroup env ctx now target r
  | ports => exact collectPorts_withoutGroup env ctx now target r
  | tls => exact collectTLS_withoutGroup env ctx now target r

/-- Outside its own error keys, a probe leaves the error map as it was. -/
theorem runProbe_frame_key (env : Env) (ctx : Context) (now : Int) (target : String)
    (p : Probe) (r : Report) (k : String) (hk : k ∉ probeNames) :
    (runProbe env ctx now target p r).1.Errors.get k = r.Errors.get k := by
  simp only [probeNames, List.mem_cons, List.mem_singleton, List.not_mem_nil, or_false,
    not_or] at hk
  obtain ⟨h1, h2, h3, h4, h5, h6, h7, h8, h9, h10, h11, h12, h13⟩ := hk
  cases p with
  | dns =>
    exact (collectDNS_frame env ctx now target r k (by
      simp only [dnsKeys, List.mem_cons, List.mem_singleton, List.not_mem_nil, or_false,
        not_or]
      exact ⟨h1, h2, h3, h4, h5, h6⟩)).2.2
  | ping => exact (collectPing_frame env ctx now target r k h7).2.2
  | traceroute => exact (collectTraceroute_frame env ctx now target r k h8).2.2
  | whois => exact (collectWhois_frame env ctx now target r k h9).2.2
  | asn => exact (collectASN_frame env ctx now target r k h10).2.2
  | geo => exact (collectGeo_frame env ctx now target r k h11).2.2
  | ports => exact (collectPorts_frame env ctx now target r k h12).2
  | tls => exact (collectTLS_frame env ctx now target r k h13).2.1

/-- C14 as stated fails. The ASN probe and the geolocation probe both write
`Geo.IP`, `Geo.CountryCode`, `Geo.Org` and `Geo.ASN`: on the sample answers
each of the two leaves its own value in these fields of a fresh report, and
the report that results from both depends on which of the two writes last. -/
theorem asn_geo_write_common_fields :
    ((parseTeamCymruResult exampleCymru {}).Geo.IP,
      (parseTeamCymruResult exampleCymru {}).Geo.CountryCode,
      (parseTeamCymruResult exampleCymru {}).Geo.Org,
      (parseTeamCymruResult exampleCymru {}).Geo.ASN)
      = ("8.8.8.8", "US", "GOOGLE-CLOUD-PLATFORM", "15169")
    ∧ ((populateGeoData (some exampleGeoResponse) {}).Geo.IP,
        (populateGeoData (some exampleGeoResponse) {}).Geo.CountryCode,
        (populateGeoData (some exampleGeoResponse) {}).Geo.Org,
        (populateGeoData (some exampleGeoResponse) {}).Geo.ASN)
      = ("8.8.8.8 ", "USA", "Google Public DNS", "AS15169 Google LLC")
    ∧ (populateGeoData (some exampleGeoResponse) (parseTeamCymruResult exampleCymru {})).Geo.Org
        = "Google Public DNS"
    ∧ (parseTeamCymruResult exampleCymru (populateGeoData (some exampleGeoResponse) {})).Geo.Org
        = "GOOGLE-CLOUD-PLATFORM" := by
  refine ⟨by decide, by decide, by decide, by decide⟩

/-- Outside its own error keys, a probe leaves the error map as it was. -/
theorem runProbe_frame_own (env : Env) (ctx : Context) (now : Int) (target : String)
    (p : Probe) (r : Report) (k : String) (hk : k ∉ probeKeys p) :
    (runProbe env ctx now target p r).1.Errors.get k = r.Errors.get k := by
  cases p with
  | dns => exact (collectDNS_frame env ctx now target r k hk).2.2
  | ping =>
    exact (collectPing_frame env ctx now target r k (by simpa [probeKeys] using hk)).2.2
  | traceroute =>
    exact (collectTraceroute_frame env ctx now target r k (by simpa [probeKeys] using hk)).2.2
  | whois =>
    exact (collectWhois_frame env ctx now target r k (by simpa [probeKeys] using hk)).2.2
  | asn => exact (collectASN_frame env ctx now target r k (by simpa [probeKeys] using hk)).2.2
  | geo => exact (collectGeo_frame env ctx now target r k (by simpa [probeKeys] using hk)).2.2
  | ports =>
    exact (collectPorts_frame env ctx now target r k (by simpa [probeKeys] using hk)).2
  | tls => exact (collectTLS_frame env ctx now target r k (by simpa [probeKeys] using hk)).2.1

/-- C14, amended. Each probe writes only Report fields of its own group
(every field outside the group is left as it was) and only its own error keys
(every entry of `report.Errors` under a key that is not the probe's own is left
as it was), and no error key is the own key of two probes. The ASN probe and
the geolocation probe share the group `Geo`: `parseTeamCymruResult` leaves
`Geo.City`, `Region`, `RegionCode`, `Country`, `ISP`, `Latitude`, `Longitude`
and `Timezone` as they were, and `populateGeoData` leaves `Geo.ASName` as it
was, so that the fields the two have in common are at most `Geo.IP`,
`CountryCode`, `Org` and `ASN`. -/
theorem probes_write_own_group (env : Env) (ctx : Context) (now : Int) (target : String)
    (p : Probe) (r : Report) (result : String) (resp : Option GeoResponse) :
    withoutGroup p (runProbe env ctx now target p r).1 = withoutGroup p r
    ∧ (∀ k, k ∉ probeKeys p →
        (runProbe env ctx now target p r).1.Errors.get k = r.Errors.get k)
    ∧ (∀ q : Probe, q ≠ p → ∀ k ∈ probeKeys p, k ∉ probeKeys q)
    ∧ ((parseTeamCymruResult result r).Geo.City = r.Geo.City
        ∧ (parseTeamCymruResult result r).Geo.Region = r.Geo.Region
        ∧ (parseTeamCymruResult result r).Geo.RegionCode = r.Geo.RegionCode
        ∧ (parseTeamCymruResult result r).Geo.Country = r.Geo.Country
        ∧ (parseTeamCymruResult result r).Geo.ISP = r.Geo.ISP
        ∧ (parseTeamCymruResult result r).Geo.Latitude = r.Geo.Latitude
        ∧ (parseTeamCymruResult result r).Geo.Longitude = r.Geo.Longitude
        ∧ (parseTeamCymruResult result r).Geo.Timezone = r.Geo.Timezone)
    ∧ (populateGeoData resp r).Geo.ASName = r.Geo.ASName := by
  refine ⟨runProbe_withoutGroup env ctx now target p r,
    fun k hk => runProbe_frame_own env ctx now target p r k hk, ?_, ?_, ?_⟩
  · intro q hq k hk
    cases p <;> cases q <;>
      first
        | exact absurd rfl hq
        | (simp only [probeKeys, List.mem_cons, List.mem_singleton, List.not_mem_nil,
            or_false] at hk ⊢
           rcases hk with rfl | rfl | rfl | rfl | rfl | rfl <;> decide)
  · unfold parseTeamCymruResult
    simp only []
    split
    · exact ⟨rfl, rfl, rfl, rfl, rfl, rfl, rfl, rfl⟩
    · refine ⟨?_, ?_, ?_, ?_, ?_, ?_, ?_, ?_⟩ <;>
      · repeat' split
        all_goals rfl
  · cases resp with
    | none => rfl
    | some g =>
      simp only [populateGeoData]
      split <;> rfl

/-- C14, amended, at the sample environment in which WHOIS is refused: the
WHOIS probe leaves the entry under the key `geo` alone and writes its own. -/
theorem probes_write_own_group_witness :
    "geo" ∉ probeKeys Probe.whois
    ∧ (runProbe failingEnv Background 0 "example.com" Probe.whois
        { Errors := [("geo", "kept")] }).1.Errors.get "geo" = some "kept"
    ∧ (runProbe failingEnv Background 0 "example.com" Probe.whois
        { Errors := [("geo", "kept")] }).1.Errors.get "whois" ≠ none :=
  ⟨by decide,
   ((probes_write_own_group failingEnv Background 0 "example.com" Probe.whois
      { Errors := [("geo", "kept")] } "" none).2.1 "geo" (by decide)).trans (by decide),
   by decide⟩

/-! ## Errors of the probes -/

/-- The six optional probes other than `collectPing` return a nil error on
every path. -/
theorem optional_probes_return_nil (env : Env) (ctx : Context) (now : Int) (target : String)
    (r : Report) :
    (collectTraceroute env ctx now target r).2 = none
    ∧ (collectWhois env ctx now target r).2 = none
    ∧ (collectASN env ctx now target r).2 = none
    ∧ (collectGeo env ctx now target r).2 = none
    ∧ (collectPorts env ctx now target r).2 = none
    ∧ (collectTLS env ctx now target r).2 = none := by
  refine ⟨?_, ?_, ?_, ?_, ?_, (collectTLS_frame env ctx now target r "ports" (by decide)).2.2⟩
  · unfold collectTraceroute
    split <;> rfl
  · unfold collectWhois
    simp only []
    generalize selectFirst _ _ _ _ _ = sel
    cases sel <;> rfl
  · unfold collectASN
    simp only []
    split
    · rfl
    · generalize selectFirst _ _ _ _ _ = sel
      cases sel <;> rfl
  · unfold collectGeo
    simp only []
    split
    · rfl
    · generalize selectFirst _ _ _ _ _ = sel
      cases sel <;> rfl
  · unfold collectPorts
    simp only []
    split
    · rfl
    · generalize selectFirst _ _ _ _ _ = sel
      cases sel <;> rfl

/-- C11, evaluated on the code. When no pinger can be created `collectPing`
records the failure under `ping` and also returns it as a non-nil error; and
so it does when the run of the pinger fails. -/
theorem collectPing_returns_error :
    (collectPing failingEnv Background 120 "example.com" {}).2
      = some "failed to create pinger: lookup example.com: no such host"
    ∧ (collectPing failingEnv Background 120 "example.com" {}).1.Errors.get "ping"
      = some "Failed to create pinger: lookup example.com: no such host"
    ∧ (collectPing { exampleEnv with PingerRun := fun _ => .error "socket: permission denied" }
        Background 120 "example.com" {}).2
      = some "ping failed: socket: permission denied" := by
  refine ⟨by decide, by decide, by decide⟩

/-- C13 as stated fails. On a fresh report the traceroute probe of the sample
environment, where the command is missing, records its error under
`traceroute` and also leaves a non-empty field, `Trace.Error`, in its group. -/
theorem collectTraceroute_error_in_group :
    (collectTraceroute exampleEnv Background 0 "example.com" {}).1.Errors.get "traceroute"
      = some "Traceroute failed: traceroute command failed: exec: traceroute not found"
    ∧ (collectTraceroute exampleEnv Background 0 "example.com" {}).1.Trace.Error
      = "traceroute command failed: exec: traceroute not found"
    ∧ (collectTraceroute exampleEnv Background 0 "example.com" {}).1.Trace ≠ {} := by
  refine ⟨by decide, by decide, by decide⟩

/-- C13, amended. For each optional probe run on a fresh report: if the probe
records an entry under its error key, that entry is the only entry of the
error map and every result field of the report, those of its own group
included, is at its zero value, except that `collectTraceroute` also stores
the text of the error in `Trace.Error`. -/
theorem optional_probe_error_alone (env : Env) (ctx : Context) (now : Int)
    (target : String) (p : Probe) (hp : p ∈ optionalProbes)
    (h : (runProbe env ctx now target p {}).1.Errors.get (probeKey p) ≠ none) :
    (∃ msg, (runProbe env ctx now target p {}).1.Errors = [(probeKey p, msg)])
    ∧ (runProbe env ctx now target p {}).1.results = {}
    ∧ (p ≠ Probe.traceroute → (runProbe env ctx now target p {}).1.Trace.Error = "") := by
  cases p with
  | dns => exact absurd hp (by decide)
  | ping =>
    simp only [runProbe, probeKey] at h ⊢
    unfold collectPing at h ⊢
    split
    · exact ⟨⟨_, rfl⟩, rfl, fun _ => rfl⟩
    · split
      · exact ⟨⟨_, rfl⟩, rfl, fun _ => rfl⟩
      · rename_i h1 _ _ h2
        simp [h1, h2, ErrorMap.get] at h
  | traceroute =>
    simp only [runProbe, probeKey] at h ⊢
    unfold collectTraceroute at h ⊢
    split
    · exact ⟨⟨_, rfl⟩, rfl, fun hne => absurd rfl hne⟩
    · rename_i h1
      simp [h1, ErrorMap.get] at h
  | whois =>
    simp only [runProbe, probeKey] at h ⊢
    unfold collectWhois at h ⊢
    simp only [] at h ⊢
    generalize selectFirst _ _ _ _ _ = sel at h ⊢
    cases sel with
    | result a => simp [parseWhoisData, ErrorMap.get] at h
    | failed e => exact ⟨⟨_, rfl⟩, rfl, fun _ => rfl⟩
    | done => exact ⟨⟨_, rfl⟩, rfl, fun _ => rfl⟩
  | asn =>
    simp only [runProbe, probeKey] at h ⊢
    unfold collectASN at h ⊢
    simp only [] at h ⊢
    split
    · exact ⟨⟨_, rfl⟩, rfl, fun _ => rfl⟩
    · rename_i h1
      simp only [h1] at h
      generalize selectFirst _ _ _ _ _ = sel at h ⊢
      cases sel with
      | result a =>
        have := (parseTeamCymruResult_frame a {}).2.2
        simp [this, ErrorMap.get] at h
      | failed e => exact ⟨⟨_, rfl⟩, rfl, fun _ => rfl⟩
      | done => exact ⟨⟨_, rfl⟩, rfl, fun _ => rfl⟩
  | geo =>
    simp only [runProbe, probeKey] at h ⊢
    unfold collectGeo at h ⊢
    simp only [] at h ⊢
    split
    · exact ⟨⟨_, rfl⟩, rfl, fun _ => rfl⟩
    · rename_i h1
      simp only [h1] at h
      generalize selectFirst _ _ _ _ _ = sel at h ⊢
      cases sel with
      | result a => simp [populateGeoData, ErrorMap.get] at h
      | failed e => exact ⟨⟨_, rfl⟩, rfl, fun _ => rfl⟩
      | done => exact ⟨⟨_, rfl⟩, rfl, fun _ => rfl⟩
  | ports =>
    simp only [runProbe, probeKey] at h ⊢
    unfold collectPorts at h ⊢
    simp only [] at h ⊢
    split
    · exact ⟨⟨_, rfl⟩, rfl, fun _ => rfl⟩
    · rename_i h1
      simp only [h1] at h
      generalize selectFirst _ _ _ _ _ = sel at h ⊢
      cases sel with
      | result a => simp [populatePortData, ErrorMap.get] at h
      | failed e => exact ⟨⟨_, rfl⟩, rfl, fun _ => rfl⟩
      | done => exact ⟨⟨_, rfl⟩, rfl, fun _ => rfl⟩
  | tls =>
    simp only [runProbe, probeKey]
    exact ⟨⟨_, rfl⟩, rfl, fun _ => rfl⟩

/-- C13, amended, at the sample environment: the WHOIS probe handed a context
that is already done records its timeout and nothing else. -/
theorem optional_probe_error_alone_witness :
    (runProbe exampleEnv ⟨some 0⟩ 120 "example.com" Probe.whois {}).1.Errors.get
        (probeKey Probe.whois) ≠ none
    ∧ (runProbe exampleEnv ⟨some 0⟩ 120 "example.com" Probe.whois {}).1.results = {} :=
  ⟨by decide,
   (optional_probe_error_alone exampleEnv ⟨some 0⟩ 120 "example.com" Probe.whois
      (by decide) (by decide)).2.1⟩

/-! ## The shape of a successful run -/

theorem isPortOpen_iff (openPorts : List Int) (port : Int) :
    isPortOpen openPorts port = true ↔ port ∈ openPorts := by
  induction openPorts with
  | nil => simp [isPortOpen]
  | cons s rest ih =>
    simp only [isPortOpen, List.mem_cons]
    by_cases h : s = port
    · simp [h]
    · have h2 : ¬ port = s := fun e => h e.symm
      simp [h, h2, ih]

/-- A run that returns a Report went through a successful DNS phase and the
independent phase; its Report is the report after the independent phase, or
what `collectTLS` made of it when ports are enabled and 443 is open, with the
duration stamped. -/
theorem Collect_report_cases (env : Env) (ctx : Context) (target : String)
    (opts : Options) (r : Report) (hr : (Collect env ctx target opts).report = some r) :
    (dnsPhase env ctx target opts).2 = none
    ∧ ∃ r2, afterIndependentPhase env ctx target opts = some r2
      ∧ r2 = independentPhase env
          (errgroupWithContext (WithTimeout ctx env.tStart opts.Timeout)) target opts
          (dnsPhase env ctx target opts).1
      ∧ ((¬ (opts.EnablePorts = true ∧ (443 : Int) ∈ r2.Ports.Open)
            ∧ r = { r2 with DurationMs := env.tEnd - r2.ResolvedAt })
          ∨ (opts.EnablePorts = true ∧ (443 : Int) ∈ r2.Ports.Open
            ∧ r = { (collectTLS env (tlsContext env ctx target opts) env.tIndepDone target
                      r2).1 with
                    DurationMs := env.tEnd
                      - (collectTLS env (tlsContext env ctx target opts) env.tIndepDone target
                          r2).1.ResolvedAt })) := by
  unfold Collect at hr
  simp only [] at hr
  split at hr
  · cases hr
  · rename_i hd
    have hd2 : (dnsPhase env ctx target opts).2 = none := hd
    refine ⟨hd2, _, ?_, rfl, ?_⟩
    · unfold afterIndependentPhase
      simp only [hd]
      rfl
    · split at hr
      · rename_i hc
        simp only [Bool.and_eq_true, decide_eq_true_eq, contains_iff] at hc
        right
        refine ⟨hc.1.1, hc.2, ?_⟩
        simp only [Option.some.injEq] at hr
        rw [← hr]
        have ht := (collectTLS_frame env (tlsContext env ctx target opts) env.tIndepDone
          target (independentPhase env
            (errgroupWithContext (WithTimeout ctx env.tStart opts.Timeout)) target opts
            (dnsPhase env ctx target opts).1) "ports" (by decide)).2.2
        simp only [tlsContext, dnsPhase] at ht
        simp only [ht, tlsContext, dnsPhase]
      · rename_i hc
        simp only [Bool.and_eq_true, decide_eq_true_eq, contains_iff, not_and] at hc
        left
        refine ⟨?_, ?_⟩
        · rintro ⟨h1, h2⟩
          exact hc ⟨h1, List.length_pos_of_mem h2⟩ h2
        · simp only [Option.some.injEq] at hr
          rw [← hr]
          rfl

theorem runTasks_frame_key (env : Env) (ctx : Context) (now : Int) (target : String)
    (k : String) (hk : k ∉ probeNames) (ps : List Probe) :
    ∀ r : Report, (runTasks env ctx now target ps r).Errors.get k = r.Errors.get k := by
  induction ps with
  | nil => intro r; rfl
  | cons p rest ih =>
    intro r
    simp only [runTasks]
    rw [ih, runProbe_frame_key env ctx now target p r k hk]

/-- C15. Every key that `Collect` leaves in `Report.Errors`, and every key
that a probe adds to the error map on any path, is one of the thirteen probe
names `dns`, `dns_ptr`, `dns_cname`, `dns_mx`, `dns_ns`, `dns_txt`, `ping`,
`traceroute`, `whois`, `asn`, `geo`, `ports`, `tls`. -/
theorem Collect_error_keys (env : Env) (ctx : Context) (target : String) (opts : Options)
    (k : String) :
    (∀ r, (Collect env ctx target opts).report = some r →
        r.Errors.get k ≠ none → k ∈ probeNames)
    ∧ (∀ (p : Probe) (c : Context) (now : Int) (r0 : Report),
        (runProbe env c now target p r0).1.Errors.get k ≠ none →
        r0.Errors.get k ≠ none ∨ k ∈ probeNames) := by
  constructor
  · intro r hr hk
    by_contra hnot
    apply hk
    obtain ⟨_, r2, _, hr2, hcase⟩ := Collect_report_cases env ctx target opts r hr
    have h2 : r2.Errors.get k = none := by
      rw [hr2]
      unfold independentPhase
      rw [runTasks_frame_key env _ _ target k hnot]
      have := runProbe_frame_key env
        (errgroupWithContext (WithTimeout ctx env.tStart opts.Timeout)) env.tStart target
        Probe.dns { Target := target, ResolvedAt := env.tStart, Errors := [] } k hnot
      simp only [runProbe] at this
      simp only [dnsPhase, this]
      rfl
    rcases hcase with ⟨_, h⟩ | ⟨_, _, h⟩
    · rw [h]
      exact h2
    · rw [h]
      have := runProbe_frame_key env (tlsContext env ctx target opts) env.tIndepDone target
        Probe.tls r2 k hnot
      simp only [runProbe] at this
      simp only [this]
      exact h2
  · intro p c now r0 h
    by_cases hk : k ∈ probeNames
    · exact Or.inr hk
    · left
      rw [runProbe_frame_key env c now target p r0 k hk] at h
      exact h

/-- C15, at the sample run: the key `whois` is in the Report, and it is a
probe name. -/
theorem Collect_error_keys_witness :
    (Collect exampleEnv Background "example.com" exampleOptions).report = some exampleReport
    ∧ exampleReport.Errors.get "whois" ≠ none
    ∧ "whois" ∈ probeNames :=
  ⟨by decide, by decide,
   (Collect_error_keys exampleEnv Background "example.com" exampleOptions "whois").1
     exampleReport (by decide) (by decide)⟩

/-! ## Resolved addresses -/

theorem storeIPs_lengths (env : Env) (ips : List IP) :
    ∀ r : Report,
      (storeIPs env ips r).IPv4.length + (storeIPs env ips r).IPv6.length
        = r.IPv4.length + r.IPv6.length + ips.length := by
  induction ips with
  | nil => intro r; simp [storeIPs]
  | cons ip rest ih =>
    intro r
    simp only [storeIPs]
    split
    · rw [ih]
      simp only [List.length_append, List.length_cons, List.length_nil]
      omega
    · rw [ih]
      simp only [List.length_append, List.length_cons, List.length_nil]
      omega

theorem collectDNS_ips (env : Env) (ctx : Context) (now : Int) (target : String)
    (r : Report) (ips : List IP)
    (h : resolveIPs env (WithTimeout ctx now 3000) now target = .ok ips) :
    (collectDNS env ctx now target r).1.IPs = ips
    ∧ (collectDNS env ctx now target r).1.IPv4 = (storeIPs env ips { r with IPs := ips }).IPv4
    ∧ (collectDNS env ctx now target r).1.IPv6
        = (storeIPs env ips { r with IPs := ips }).IPv6 := by
  have s1 := fun ips r => (storeIPs_frame env ips r).2.2.2
  unfold collectDNS
  simp only [h]
  refine ⟨?_, ?_, ?_⟩ <;>
  · repeat' split
    all_goals simp [Report.setError, s1]

theorem runProbe_addresses (env : Env) (ctx : Context) (now : Int) (target : String)
    (p : Probe) (hp : p ≠ Probe.dns) (r : Report) :
    (runProbe env ctx now target p r).1.IPs = r.IPs
    ∧ (runProbe env ctx now target p r).1.IPv4 = r.IPv4
    ∧ (runProbe env ctx now target p r).1.IPv6 = r.IPv6 := by
  have h := runProbe_withoutGroup env ctx now target p r
  have h1 := congrArg Report.IPs h
  have h2 := congrArg Report.IPv4 h
  have h3 := congrArg Report.IPv6 h
  cases p with
  | dns => exact absurd rfl hp
  | ping => exact ⟨h1, h2, h3⟩
  | traceroute => exact ⟨h1, h2, h3⟩
  | whois => exact ⟨h1, h2, h3⟩
  | asn => exact ⟨h1, h2, h3⟩
  | geo => exact ⟨h1, h2, h3⟩
  | ports => exact ⟨h1, h2, h3⟩
  | tls => exact ⟨h1, h2, h3⟩

theorem runTasks_addresses (env : Env) (ctx : Context) (now : Int) (target : String)
    (ps : List Probe) (hp : Probe.dns ∉ ps) :
    ∀ r : Report, (runTasks env ctx now target ps r).IPs = r.IPs
      ∧ (runTasks env ctx now target ps r).IPv4 = r.IPv4
      ∧ (runTasks env ctx now target ps r).IPv6 = r.IPv6 := by
  induction ps with
  | nil => intro r; exact ⟨rfl, rfl, rfl⟩
  | cons p rest ih =>
    intro r
    simp only [List.mem_cons, not_or] at hp
    obtain ⟨h1, h2, h3⟩ := ih hp.2 (runProbe env ctx now target p r).1
    obtain ⟨g1, g2, g3⟩ := runProbe_addresses env ctx now target p (fun e => hp.1 e.symm) r
    simp only [runTasks]
    exact ⟨h1.trans g1, h2.trans g2, h3.trans g3⟩

theorem writeOrder_no_dns (env : Env) (opts : Options) : Probe.dns ∉ writeOrder env opts := by
  unfold writeOrder
  cases env.asnAfterGeo <;> cases opts.EnablePorts <;> decide

/-- Whenever `Collect` returns a Report, `Report.IPs` is the list of addresses
the resolver returned and `IPv4` and `IPv6` together hold one entry for each of
them; so whenever the resolver returned at least one address, `Report.IPs` is
non-empty and at least one of `IPv4` and `IPv6` is non-empty. -/
theorem Collect_records_addresses (env : Env) (ctx : Context) (target : String)
    (opts : Options) (r : Report) (hr : (Collect env ctx target opts).report = some r) :
    ∃ ips, dnsLookup env ctx target opts = .ok ips
      ∧ r.IPs = ips
      ∧ r.IPv4.length + r.IPv6.length = ips.length
      ∧ (ips ≠ [] → r.IPs ≠ [] ∧ (r.IPv4 ≠ [] ∨ r.IPv6 ≠ [])) := by
  obtain ⟨hd, r2, _, hr2, hcase⟩ := Collect_report_cases env ctx target opts r hr
  have hlook := collectDNS_error_of_lookup env ctx target opts
    { Target := target, ResolvedAt := env.tStart, Errors := [] }
  cases hl : dnsLookup env ctx target opts with
  | error e =>
    rw [hl] at hlook
    simp only [dnsPhase] at hd
    rw [hd] at hlook
    cases hlook
  | ok ips =>
    obtain ⟨d1, d2, d3⟩ := collectDNS_ips env
      (errgroupWithContext (WithTimeout ctx env.tStart opts.Timeout)) env.tStart target
      { Target := target, ResolvedAt := env.tStart, Errors := [] } ips hl
    obtain ⟨t1, t2, t3⟩ := runTasks_addresses env
      (sharedContext env (errgroupWithContext (WithTimeout ctx env.tStart opts.Timeout)) target
        (dnsPhase env ctx target opts).1)
      env.tDNSDone target (writeOrder env opts) (writeOrder_no_dns env opts)
      (dnsPhase env ctx target opts).1
    have e1 : r2.IPs = ips := by
      rw [hr2]; unfold independentPhase; rw [t1]; exact d1
    have e2 : r2.IPv4.length + r2.IPv6.length = ips.length := by
      rw [hr2]; unfold independentPhase; rw [t2, t3]
      simp only [dnsPhase]
      rw [d2, d3, storeIPs_lengths]
      simp
    have key : r.IPs = r2.IPs ∧ r.IPv4 = r2.IPv4 ∧ r.IPv6 = r2.IPv6 := by
      rcases hcase with ⟨_, h⟩ | ⟨_, _, h⟩
      · rw [h]; exact ⟨rfl, rfl, rfl⟩
      · obtain ⟨g1, g2, g3⟩ := runProbe_addresses env (tlsContext env ctx target opts)
          env.tIndepDone target Probe.tls (by decide) r2
        simp only [runProbe] at g1 g2 g3
        rw [h]
        exact ⟨g1, g2, g3⟩
    obtain ⟨k1, k2, k3⟩ := key
    refine ⟨ips, rfl, k1.trans e1, by rw [k2, k3]; exact e2, ?_⟩
    intro hne
    refine ⟨by rw [k1, e1]; exact hne, ?_⟩
    rw [k2, k3]
    by_contra hcon
    simp only [not_or, not_not] at hcon
    rw [hcon.1, hcon.2] at e2
    simp only [List.length_nil, Nat.add_zero] at e2
    exact hne (List.length_eq_zero.mp e2.symm)

/-- The sample run: one address resolved, one recorded. -/
theorem Collect_records_addresses_witness :
    (Collect exampleEnv Background "example.com" exampleOptions).report = some exampleReport
    ∧ ∃ ips, dnsLookup exampleEnv Background "example.com" exampleOptions = .ok ips
      ∧ exampleReport.IPs = ips
      ∧ exampleReport.IPv4.length + exampleReport.IPv6.length = ips.length
      ∧ (ips ≠ [] → exampleReport.IPs ≠ []
          ∧ (exampleReport.IPv4 ≠ [] ∨ exampleReport.IPv6 ≠ [])) :=
  ⟨by decide,
   Collect_records_addresses exampleEnv Background "example.com" exampleOptions exampleReport
     (by decide)⟩

/-! ## The TLS phase -/

/-- Whatever the `select` of `collectTLS` takes: for every run of `Collect`
with `EnablePorts` set in which 443 is in `Ports.Open`, the returned Report has
a TLS-phase error under the key `tls`, or its TLS group holds the facts of the
leaf certificate that the server presented. -/
theorem Collect_tls_error_or_certificate (env : Env) (ctx : Context) (target : String)
    (opts : Options) (r : Report) (hE : opts.EnablePorts = true)
    (hr : (Collect env ctx target opts).report = some r)
    (h443 : (443 : Int) ∈ r.Ports.Open) :
    r.Errors.get "tls" ≠ none
    ∨ ∃ result, (getTLSCertificate env env.tIndepDone target).result = .ok result
        ∧ r.TLS = tlsGroupOf result := by
  obtain ⟨_, r2, _, hr2, hcase⟩ := Collect_report_cases env ctx target opts r hr
  have htls : r2.TLS = {} := by
    rw [hr2]
    exact (independentPhase_tls_untouched env
      (errgroupWithContext (WithTimeout ctx env.tStart opts.Timeout)) target opts).1
  rcases hcase with ⟨hno, h⟩ | ⟨_, h2, h⟩
  · exfalso
    apply hno
    rw [h] at h443
    exact ⟨hE, h443⟩
  · rw [h]
    have hopen : isPortOpen r2.Ports.Open 443 = true := (isPortOpen_iff _ _).2 h2
    unfold collectTLS
    simp only [hopen, Bool.not_true, Bool.false_eq_true, if_false]
    cases hres : (getTLSCertificate env env.tIndepDone target).result with
    | error e =>
      left
      rcases selectFirst_error (α := TLSResult)
        (WithTimeout (tlsContext env ctx target opts) env.tIndepDone 4000) env.tIndepDone
        (env.tIndepDone + (getTLSCertificate env env.tIndepDone target).latency) e
        (env.coin "tls") with hs | hs <;>
      simp [hs, Report.setError, ErrorMap.get_set_same]
    | ok result =>
      cases hsel : selectFirst (WithTimeout (tlsContext env ctx target opts) env.tIndepDone 4000)
          env.tIndepDone
          (env.tIndepDone + (getTLSCertificate env env.tIndepDone target).latency)
          (Except.ok result : Except String TLSResult) (env.coin "tls") with
      | result a =>
        right
        have ha : a = result := by
          unfold selectFirst at hsel
          simp only [] at hsel
          repeat' split at hsel
          all_goals first
            | (cases hsel; rfl)
            | cases hsel
        subst ha
        exact ⟨a, rfl, by simp [populateTLSData, htls, tlsGroupOf]⟩
      | failed e =>
        left
        simp [Report.setError, ErrorMap.get_set_same]
      | done =>
        left
        simp [Report.setError, ErrorMap.get_set_same]

/-- The sample run, where the TLS probe times out. -/
theorem Collect_tls_error_or_certificate_witness :
    exampleOptions.EnablePorts = true
    ∧ (Collect exampleEnv Background "example.com" exampleOptions).report = some exampleReport
    ∧ (443 : Int) ∈ exampleReport.Ports.Open
    ∧ (exampleReport.Errors.get "tls" ≠ none
        ∨ ∃ result, (getTLSCertificate exampleEnv exampleEnv.tIndepDone "example.com").result
            = .ok result ∧ exampleReport.TLS = tlsGroupOf result) :=
  ⟨rfl, by decide, by decide,
   Collect_tls_error_or_certificate exampleEnv Background "example.com" exampleOptions
     exampleReport rfl (by decide) (by decide)⟩

/-! ## Targets -/

theorem dropWhile_of_prefix {α : Type} (p : α → Bool) (q m : List α) (hq : q <+: m)
    (hm : m.dropWhile p = m) : q.dropWhile p = q := by
  cases q with
  | nil => rfl
  | cons a rest =>
    obtain ⟨t, rfl⟩ := hq
    by_cases hpa : p a = true
    · exfalso
      have hlen := (List.dropWhile_suffix p (l := rest ++ t)).length_le
      simp only [List.cons_append, List.dropWhile_cons, hpa, if_true] at hm
      rw [hm] at hlen
      simp only [List.length_cons] at hlen
      omega
    · simp [List.dropWhile_cons, hpa]

/-- Trimming is idempotent. -/
theorem TrimSpace_idempotent (s : String) : TrimSpace (TrimSpace s) = TrimSpace s := by
  have h1 : (TrimSpace s).data = (s.data.dropWhile isSpace).rdropWhile isSpace := rfl
  have h2 : ((s.data.dropWhile isSpace).rdropWhile isSpace).dropWhile isSpace
      = (s.data.dropWhile isSpace).rdropWhile isSpace :=
    dropWhile_of_prefix isSpace _ _ (List.rdropWhile_prefix isSpace _)
      (List.dropWhile_idempotent isSpace s.data)
  have h3 : (TrimSpace (TrimSpace s)).data
      = (((TrimSpace s).data.dropWhile isSpace).rdropWhile isSpace) := rfl
  apply String.ext
  rw [h3, h1, h2, List.rdropWhile_idempotent]

/-- C18 as stated fails. `ValidateTarget` returns the empty string without
error for `http://` (the case `invalid URL` of `TestValidateTarget`), and the
normalizer of the CLI returns `a b`, which contains a space. -/
theorem normalized_target_empty_or_spaced :
    ValidateTarget urlEnv "http://" = .ok ""
    ∧ Cmd.validateTarget "a b" = .ok "a b"
    ∧ ContainsChar "a b" ' ' = true := by
  refine ⟨by rfl, by rfl, by decide⟩

/-- C18, amended. A target that `ValidateTarget` returns without error for an
input that is not an `http://` or `https://` URL is non-empty, equal to its
own whitespace-trim and, `net.ParseIP` accepting no string with a space, free
of space characters; for a URL input the target is the host name of the
parsed URL, whatever it is. A target that the normalizer of the CLI returns
without error is non-empty and equal to its own whitespace-trim. -/
theorem normalized_target_invariant (env : Env) (input t : String) :
    (ValidateTarget env input = .ok t →
      (HasPrefix (TrimSpace input) "http://" || HasPrefix (TrimSpace input) "https://")
        = false →
      t ≠ "" ∧ TrimSpace t = t
      ∧ ((∀ s, (env.ParseIP s).isSome = true → ContainsChar s ' ' = false) →
          ContainsChar t ' ' = false))
    ∧ (ValidateTarget env input = .ok t →
      (HasPrefix (TrimSpace input) "http://" || HasPrefix (TrimSpace input) "https://")
        = true →
      env.urlHostname (TrimSpace input) = some t)
    ∧ (Cmd.validateTarget input = .ok t → t ≠ "" ∧ TrimSpace t = t) := by
  refine ⟨?_, ?_, ?_⟩
  · intro h hurl
    unfold ValidateTarget at h
    simp only [hurl, Bool.false_eq_true, if_false] at h
    split at h
    · cases h
    · rename_i hne
      split at h
      · rename_i hip
        simp only [Except.ok.injEq] at h
        subst h
        exact ⟨hne, TrimSpace_idempotent input, fun hIP => hIP _ hip⟩
      · split at h
        · rename_i hsp
          simp only [Except.ok.injEq] at h
          subst h
          exact ⟨hne, TrimSpace_idempotent input, fun _ => by simpa using hsp⟩
        · cases h
  · intro h hurl
    unfold ValidateTarget at h
    simp only [hurl, if_true] at h
    split at h
    · cases h
    · split at h
      · cases h
      · rename_i hh
        simp only [Except.ok.injEq] at h
        subst h
        exact hh
  · intro h
    unfold Cmd.validateTarget at h
    simp only [] at h
    split at h
    · cases h
    · rename_i hne
      simp only [Except.ok.injEq] at h
      subst h
      exact ⟨hne, TrimSpace_idempotent input⟩

/-- C18, amended, at the sample environment and the input ` example.com `. -/
theorem normalized_target_invariant_witness :
    ValidateTarget exampleEnv "  example.com  " = .ok "example.com"
    ∧ Cmd.validateTarget "  example.com  " = .ok "example.com"
    ∧ TrimSpace "example.com" = "example.com"
    ∧ ContainsChar "example.com" ' ' = false :=
  ⟨by rfl, by rfl,
   ((normalized_target_invariant exampleEnv "  example.com  " "example.com").2.2
      (by rfl)).2,
   ((normalized_target_invariant exampleEnv "  example.com  " "example.com").1
      (by rfl) (by decide)).2.2 (by
        intro s hs
        have : s = "93.184.216.34" := by
          by_contra hne
          simp [exampleEnv, hne] at hs
        subst this
        decide)⟩

/-! ## The overall timeout -/

theorem validateFlags_range (output : String) (timeout : Int) (isTerminal : Bool)
    (h : Cmd.validateFlags output timeout isTerminal = none) :
    1000 ≤ timeout ∧ timeout ≤ 300000 := by
  unfold Cmd.validateFlags at h
  simp only [] at h
  split at h
  · cases h
  · split at h
    · cases h
    · rename_i hr
      simp only [Bool.or_eq_true, decide_eq_true_eq, not_or, not_lt] at hr
      exact hr

theorem validateFlags_rejects (output : String) (timeout : Int) (isTerminal : Bool)
    (h : timeout < 1000 ∨ 300000 < timeout) :
    Cmd.validateFlags output timeout isTerminal ≠ none := by
  intro hn
  have := validateFlags_range output timeout isTerminal hn
  omega

/-- C20 as stated fails. `Run` hands a requested timeout of 1 ms and one of
one hour to `Collect` unchanged, and the CLI answers a timeout of 500 ms with
an error and no call of `Collect` instead of raising it to 1 s. -/
theorem timeout_not_clamped :
    (Main.collectOptions ⟨false, 1⟩).Timeout = 1
    ∧ (Main.collectOptions ⟨false, 3600000⟩).Timeout = 3600000
    ∧ (Cmd.runNetgaze exampleEnv Background "example.com" "" false false
        ⟨false, "text", false, 500⟩).err = some "timeout must be between 1s and 5m"
    ∧ (Cmd.runNetgaze exampleEnv Background "example.com" "" false false
        ⟨false, "text", false, 500⟩).collectCall = none := by
  refine ⟨by decide, by decide, by decide, by decide⟩

/-- C20, amended. On the CLI path the timeout handed to `Collect` is the
requested one and lies in [1 s, 5 min]: a requested timeout outside that
range makes `runNetgaze` return an error without calling `Collect`, it is not
clamped. `Run` checks no range: it replaces a zero or negative timeout by
15 s and hands any positive timeout to `Collect` as it is. -/
theorem timeout_handed_to_Collect (env : Env) (cmdCtx : Context) (arg jsonFlag : String)
    (parentIsTUI isTerminal : Bool) (flags : Cmd.Flags) (opts : Main.Options) :
    (∀ target o,
        (Cmd.runNetgaze env cmdCtx arg jsonFlag parentIsTUI isTerminal flags).collectCall
          = some (target, o) →
        o.Timeout = flags.timeout ∧ 1000 ≤ o.Timeout ∧ o.Timeout ≤ 300000)
    ∧ (flags.timeout < 1000 ∨ 300000 < flags.timeout →
        (Cmd.runNetgaze env cmdCtx arg jsonFlag parentIsTUI isTerminal flags).collectCall = none
        ∧ (Cmd.runNetgaze env cmdCtx arg jsonFlag parentIsTUI isTerminal flags).err ≠ none)
    ∧ (opts.Timeout ≤ 0 → (Main.collectOptions opts).Timeout = 15000)
    ∧ (0 < opts.Timeout → (Main.collectOptions opts).Timeout = opts.Timeout) := by
  refine ⟨?_, ?_, ?_, ?_⟩
  · intro target o h
    unfold Cmd.runNetgaze at h
    simp only [] at h
    split at h
    · cases h
    · split at h
      · cases h
      · rename_i hv
        have hrange := validateFlags_range _ _ _ hv
        split at h
        · cases h
        · split at h <;>
          · simp only [Option.some.injEq, Prod.mk.injEq] at h
            obtain ⟨_, ho⟩ := h
            subst ho
            exact ⟨rfl, hrange⟩
  · intro hout
    unfold Cmd.runNetgaze
    simp only []
    split
    · exact ⟨rfl, by simp⟩
    · split
      · exact ⟨rfl, by simp⟩
      · rename_i hv
        exact absurd hv (validateFlags_rejects _ _ _ hout)
  · intro h
    simp [Main.collectOptions, h, Main.DefaultTimeout]
  · intro h
    have : ¬ opts.Timeout ≤ 0 := by omega
    simp [Main.collectOptions, this]

/-- C20, amended, at the sample environment: the CLI hands a requested 2 s to
`Collect`, and `Run` hands 15 s for a request of 0 and 1 ms for one of 1 ms. -/
theorem timeout_handed_to_Collect_witness :
    (Cmd.runNetgaze exampleEnv Background "example.com" "" false false
        ⟨false, "text", false, 2000⟩).collectCall
      = some ("example.com", { EnablePorts := false, NoAgent := true, Timeout := 2000 })
    ∧ (Main.collectOptions ⟨false, 0⟩).Timeout = 15000
    ∧ (Main.collectOptions ⟨false, 1⟩).Timeout = 1 :=
  ⟨by decide,
   (timeout_handed_to_Collect exampleEnv Background "example.com" "" false false
      ⟨false, "text", false, 2000⟩ ⟨false, 0⟩).2.2.1 (by decide),
   (timeout_handed_to_Collect exampleEnv Background "example.com" "" false false
      ⟨false, "text", false, 2000⟩ ⟨false, 1⟩).2.2.2 (by decide)⟩

/-! ## Failure isolation -/

theorem withPing_storeIPs (env : Env) (np : String → Except String Unit)
    (pr : String → Except String PingStatistics) (ips : List IP) :
    ∀ r, storeIPs (env.withPing np pr) ips r = storeIPs env ips r := by
  induction ips with
  | nil => intro r; rfl
  | cons ip rest ih =>
    intro r
    simp only [storeIPs, ih]
    rfl

theorem withPing_collectDNS (env : Env) (np : String → Except String Unit)
    (pr : String → Except String PingStatistics) (ctx : Context) (now : Int)
    (target : String) (r : Report) :
    collectDNS (env.withPing np pr) ctx now target r = collectDNS env ctx now target r := by
  unfold collectDNS
  simp only [withPing_storeIPs]
  rfl

theorem withPing_extractField (env : Env) (np : String → Except String Unit)
    (pr : String → Except String PingStatistics) (data lowerData : String)
    (patterns : List String) :
    extractField (env.withPing np pr) data lowerData patterns
      = extractField env data lowerData patterns := by
  induction patterns with
  | nil => rfl
  | cons pat rest ih =>
    simp only [extractField, ih]
    rfl

theorem withPing_collectEmails (env : Env) (np : String → Except String Unit)
    (pr : String → Except String PingStatistics) (found : List (List String)) :
    ∀ emails, collectEmails (env.withPing np pr) found emails
      = collectEmails env found emails := by
  induction found with
  | nil => intro emails; rfl
  | cons f rest ih =>
    intro emails
    simp only [collectEmails, ih]
    rfl

theorem withPing_extractEmails (env : Env) (np : String → Except String Unit)
    (pr : String → Except String PingStatistics) (data : String) :
    extractEmails (env.withPing np pr) data = extractEmails env data := by
  unfold extractEmails
  simp only [withPing_collectEmails]
  rfl

theorem withPing_collectWhois (env : Env) (np : String → Except String Unit)
    (pr : String → Except String PingStatistics) (ctx : Context) (now : Int)
    (target : String) (r : Report) :
    collectWhois (env.withPing np pr) ctx now target r = collectWhois env ctx now target r := by
  unfold collectWhois parseWhoisData
  simp only [withPing_extractField, withPing_extractEmails]
  rfl

theorem withPing_scanHopFields (env : Env) (np : String → Except String Unit)
    (pr : String → Except String PingStatistics) (fields : List String) :
    ∀ hop, scanHopFields (env.withPing np pr) fields hop = scanHopFields env fields hop := by
  induction fields with
  | nil => intro hop; rfl
  | cons f rest ih =>
    intro hop
    simp only [scanHopFields, ih]
    rfl

theorem withPing_parseHopLine (env : Env) (np : String → Except String Unit)
    (pr : String → Except String PingStatistics) (line : String) :
    parseHopLine (env.withPing np pr) line = parseHopLine env line := by
  unfold parseHopLine
  simp only [withPing_scanHopFields]
  rfl

theorem withPing_collectTraceroute (env : Env) (np : String → Except String Unit)
    (pr : String → Except String PingStatistics) (ctx : Context) (now : Int)
    (target : String) (r : Report) :
    collectTraceroute (env.withPing np pr) ctx now target r
      = collectTraceroute env ctx now target r := by
  have hp : parseHopLine (env.withPing np pr) = parseHopLine env :=
    funext (withPing_parseHopLine env np pr)
  unfold collectTraceroute Traceroute runSystemTraceroute parseTracerouteOutput
  simp only [hp]
  rfl

theorem withPing_scanLoop (env : Env) (np : String → Except String Unit)
    (pr : String → Except String PingStatistics) (ctx : Context) (target : String)
    (ports : List Int) :
    ∀ now result, scanLoop (env.withPing np pr) ctx target ports now result
      = scanLoop env ctx target ports now result := by
  induction ports with
  | nil => intro now result; rfl
  | cons port rest ih =>
    intro now result
    simp only [scanLoop, ih]
    rfl

theorem withPing_collectPorts (env : Env) (np : String → Except String Unit)
    (pr : String → Except String PingStatistics) (ctx : Context) (now : Int)
    (target : String) (r : Report) :
    collectPorts (env.withPing np pr) ctx now target r = collectPorts env ctx now target r := by
  unfold collectPorts scanPorts
  simp only [withPing_scanLoop]
  rfl

/-- A probe other than the ping probe does not read the ping part of the
environment. -/
theorem withPing_runProbe (env : Env) (np : String → Except String Unit)
    (pr : String → Except String PingStatistics) (ctx : Context) (now : Int)
    (target : String) (p : Probe) (hp : p ≠ Probe.ping) (r : Report) :
    runProbe (env.withPing np pr) ctx now target p r = runProbe env ctx now target p r := by
  cases p with
  | ping => exact absurd rfl hp
  | dns => exact withPing_collectDNS env np pr ctx now target r
  | traceroute => exact withPing_collectTraceroute env np pr ctx now target r
  | whois => exact withPing_collectWhois env np pr ctx now target r
  | asn => rfl
  | geo => rfl
  | ports => exact withPing_collectPorts env np pr ctx now target r
  | tls => rfl

theorem sansPing_setError (r : Report) (k v : String) (hk : k ≠ "ping") :
    (r.setError k v).sansPing = (r.sansPing).setError k v := by
  have hb : (k != "ping") = true := by simpa using hk
  simp only [Report.sansPing, Report.setError, ErrorMap.set, List.filter_cons, hb, if_true,
    List.filter_filter, Bool.and_comm]

theorem sansPing_setError_ping (r : Report) (v : String) :
    (r.setError "ping" v).sansPing = r.sansPing := by
  simp [Report.sansPing, Report.setError, ErrorMap.set, List.filter_cons, List.filter_filter]

theorem sansPing_collectPing (env : Env) (ctx : Context) (now : Int) (target : String)
    (r : Report) :
    (collectPing env ctx now target r).1.sansPing = r.sansPing := by
  unfold collectPing
  split
  · exact sansPing_setError_ping r _
  · split
    · exact sansPing_setError_ping r _
    · rfl

/-- A probe other than the ping probe does the same to a report with and
without the ping part. -/
theorem sansPing_runProbe (env : Env) (ctx : Context) (now : Int) (target : String)
    (p : Probe) (hp : p ≠ Probe.ping) (hd : p ≠ Probe.dns) (r : Report) :
    (runProbe env ctx now target p r).1.sansPing
      = (runProbe env ctx now target p r.sansPing).1 := by
  cases p with
  | ping => exact absurd rfl hp
  | dns => exact absurd rfl hd
  | traceroute =>
    simp only [runProbe]
    unfold collectTraceroute
    split
    · simp [Report.sansPing, Report.setError, ErrorMap.set, List.filter_cons,
        List.filter_filter, Bool.and_comm]
    · rfl
  | whois =>
    simp only [runProbe]
    unfold collectWhois
    simp only []
    generalize selectFirst _ _ _ _ _ = sel
    cases sel with
    | result a => rfl
    | failed e => exact sansPing_setError _ _ _ (by decide)
    | done => exact sansPing_setError _ _ _ (by decide)
  | asn =>
    simp only [runProbe]
    unfold collectASN
    simp only []
    split
    · exact sansPing_setError _ _ _ (by decide)
    · generalize selectFirst _ _ _ _ _ = sel
      cases sel with
      | result a =>
        simp only [parseTeamCymruResult]
        split <;> rfl
      | failed e => exact sansPing_setError _ _ _ (by decide)
      | done => exact sansPing_setError _ _ _ (by decide)
  | geo =>
    simp only [runProbe]
    unfold collectGeo
    simp only []
    split
    · exact sansPing_setError _ _ _ (by decide)
    · generalize selectFirst _ _ _ _ _ = sel
      cases sel with
      | result a => rfl
      | failed e => exact sansPing_setError _ _ _ (by decide)
      | done => exact sansPing_setError _ _ _ (by decide)
  | ports =>
    simp only [runProbe]
    unfold collectPorts
    simp only []
    split
    · exact sansPing_setError _ _ _ (by decide)
    · generalize selectFirst _ _ _ _ _ = sel
      cases sel with
      | result a => rfl
      | failed e => exact sansPing_setError _ _ _ (by decide)
      | done => exact sansPing_setError _ _ _ (by decide)
  | tls =>
    simp only [runProbe]
    unfold collectTLS
    have hP : r.sansPing.Ports = r.Ports := rfl
    simp only [hP]
    split
    · exact sansPing_setError _ _ _ (by decide)
    · generalize selectFirst _ _ _ _ _ = sel
      cases sel with
      | result a => rfl
      | failed e => exact sansPing_setError _ _ _ (by decide)
      | done => exact sansPing_setError _ _ _ (by decide)

theorem runTasks_sansPing (env : Env) (np : String → Except String Unit)
    (pr : String → Except String PingStatistics) (c : Context) (now : Int) (target : String)
    (ps : List Probe) (hd : Probe.dns ∉ ps) :
    ∀ r1 r2 : Report, r1.sansPing = r2.sansPing →
      (runTasks (env.withPing np pr) c now target ps r1).sansPing
        = (runTasks env c now target ps r2).sansPing := by
  induction ps with
  | nil => intro r1 r2 h; exact h
  | cons p rest ih =>
    intro r1 r2 h
    simp only [List.mem_cons, not_or] at hd
    simp only [runTasks]
    apply ih hd.2
    by_cases hp : p = Probe.ping
    · subst hp
      simp only [runProbe]
      rw [sansPing_collectPing, sansPing_collectPing]
      exact h
    · rw [withPing_runProbe env np pr c now target p hp,
        sansPing_runProbe env c now target p hp (fun e => hd.1 e.symm),
        sansPing_runProbe env c now target p hp (fun e => hd.1 e.symm), h]

theorem sharedContext_of_clock (env : Env) (ctx1 : Context) (target : String)
    (report : Report) (h : env.tDNSDone ≤ env.tPingDone) :
    sharedContext env ctx1 target report
      = errgroupWithContext (errgroupWait ctx1 env.tDNSDone) := by
  unfold sharedContext
  simp only []
  split
  · simp only [Context.cancelAt, errgroupWithContext, errgroupWait]
    cases ctx1.doneAt with
    | none => simp [earlier, h]
    | some x =>
      simp only [earlier, Context.mk.injEq, Option.some.injEq]
      exact min_eq_left (le_trans (min_le_right _ _) h)
  · rfl

theorem sansPing_stamp (a b : Report) (t : Int) (h : a.sansPing = b.sansPing) :
    ({ a with DurationMs := t - a.ResolvedAt } : Report).sansPing
      = ({ b with DurationMs := t - b.ResolvedAt } : Report).sansPing := by
  have h1 : ({ a with DurationMs := t - a.ResolvedAt } : Report).sansPing
      = { a.sansPing with DurationMs := t - a.sansPing.ResolvedAt } := rfl
  have h2 : ({ b with DurationMs := t - b.ResolvedAt } : Report).sansPing
      = { b.sansPing with DurationMs := t - b.sansPing.ResolvedAt } := rfl
  rw [h1, h2, h]

/-- C12. For two runs of `Collect` that differ only in what the ping probe
does (with a clock on which the ping task returns no earlier than it was
started), the probes started, the context handed to each of them and the
instant of each start are the same, the error returned is the same, and the
two Reports agree on every field group other than `Ping` and on every entry
of `Errors` other than `ping`. -/
theorem ping_failure_isolated (env : Env) (np : String → Except String Unit)
    (pr : String → Except String PingStatistics) (ctx : Context) (target : String)
    (opts : Options) (hclock : env.tDNSDone ≤ env.tPingDone) :
    (Collect (env.withPing np pr) ctx target opts).launched
      = (Collect env ctx target opts).launched
    ∧ (Collect (env.withPing np pr) ctx target opts).err = (Collect env ctx target opts).err
    ∧ (Collect (env.withPing np pr) ctx target opts).report.map Report.sansPing
      = (Collect env ctx target opts).report.map Report.sansPing := by
  have e1 : (env.withPing np pr).tStart = env.tStart := rfl
  have e2 : (env.withPing np pr).tDNSDone = env.tDNSDone := rfl
  have e3 : (env.withPing np pr).tIndepDone = env.tIndepDone := rfl
  have e4 : (env.withPing np pr).tEnd = env.tEnd := rfl
  have hs2 : ∀ c t r, sharedContext (env.withPing np pr) c t r
      = errgroupWithContext (errgroupWait c env.tDNSDone) :=
    fun c t r => sharedContext_of_clock (env.withPing np pr) c t r hclock
  have hs1 : ∀ c t r, sharedContext env c t r
      = errgroupWithContext (errgroupWait c env.tDNSDone) :=
    fun c t r => sharedContext_of_clock env c t r hclock
  have hw : writeOrder (env.withPing np pr) opts = writeOrder env opts := rfl
  have htls : ∀ c t x, collectTLS (env.withPing np pr) c t target x
      = collectTLS env c t target x := fun _ _ _ => rfl
  unfold Collect independentPhase
  simp only [e1, e2, e3, e4, hs2, hs1, hw, htls, withPing_collectDNS]
  generalize collectDNS env (errgroupWithContext (WithTimeout ctx env.tStart opts.Timeout))
    env.tStart target { Target := target, ResolvedAt := env.tStart, Errors := [] } = d
  cases hd : d.2 with
  | some e => exact ⟨rfl, rfl, rfl⟩
  | none =>
    simp only []
    have hA := runTasks_sansPing env np pr
      (errgroupWithContext (errgroupWait
        (errgroupWithContext (WithTimeout ctx env.tStart opts.Timeout)) env.tDNSDone))
      env.tDNSDone target (writeOrder env opts) (writeOrder_no_dns env opts) d.1 d.1 rfl
    have hP := congrArg Report.Ports hA
    simp only [Report.sansPing] at hP
    generalize runTasks (env.withPing np pr)
      (errgroupWithContext (errgroupWait
        (errgroupWithContext (WithTimeout ctx env.tStart opts.Timeout)) env.tDNSDone))
      env.tDNSDone target (writeOrder env opts) d.1 = A2 at hA hP ⊢
    generalize runTasks env
      (errgroupWithContext (errgroupWait
        (errgroupWithContext (WithTimeout ctx env.tStart opts.Timeout)) env.tDNSDone))
      env.tDNSDone target (writeOrder env opts) d.1 = A at hA hP ⊢
    rw [hP]
    split
    · refine ⟨rfl, rfl, ?_⟩
      have t2 := (collectTLS_frame env
        (errgroupWait (errgroupWithContext (errgroupWait
          (errgroupWithContext (WithTimeout ctx env.tStart opts.Timeout)) env.tDNSDone))
          env.tIndepDone) env.tIndepDone target A2 "ports" (by decide)).2.2
      have t1 := (collectTLS_frame env
        (errgroupWait (errgroupWithContext (errgroupWait
          (errgroupWithContext (WithTimeout ctx env.tStart opts.Timeout)) env.tDNSDone))
          env.tIndepDone) env.tIndepDone target A "ports" (by decide)).2.2
      simp only [t1, t2, Option.map_some', Option.some.injEq]
      apply sansPing_stamp
      have q2 := sansPing_runProbe env
        (errgroupWait (errgroupWithContext (errgroupWait
          (errgroupWithContext (WithTimeout ctx env.tStart opts.Timeout)) env.tDNSDone))
          env.tIndepDone) env.tIndepDone target Probe.tls (by decide) (by decide) A2
      have q1 := sansPing_runProbe env
        (errgroupWait (errgroupWithContext (errgroupWait
          (errgroupWithContext (WithTimeout ctx env.tStart opts.Timeout)) env.tDNSDone))
          env.tIndepDone) env.tIndepDone target Probe.tls (by decide) (by decide) A
      simp only [runProbe] at q1 q2
      rw [q1, q2, hA]
    · refine ⟨rfl, rfl, ?_⟩
      simp only [Option.map_some', Option.some.injEq]
      have hst := sansPing_stamp A2 A env.tEnd hA
      rw [hP] at hst
      exact hst

/-- C12, at the sample environment: with a pinger that cannot be created the
run starts the same probes under the same contexts and its Report differs
from that of the sample run in the ping part only. -/
theorem ping_failure_isolated_witness :
    exampleEnv.tDNSDone ≤ exampleEnv.tPingDone
    ∧ (collectPing (exampleEnv.withPing (fun _ => .error "no such host") exampleEnv.PingerRun)
        Background 120 "example.com" {}).2 ≠ none
    ∧ (Collect (exampleEnv.withPing (fun _ => .error "no such host") exampleEnv.PingerRun)
        Background "example.com" exampleOptions).launched
      = (Collect exampleEnv Background "example.com" exampleOptions).launched
    ∧ (Collect (exampleEnv.withPing (fun _ => .error "no such host") exampleEnv.PingerRun)
        Background "example.com" exampleOptions).report.map Report.sansPing
      = (Collect exampleEnv Background "example.com" exampleOptions).report.map
          Report.sansPing :=
  ⟨by decide, by decide,
   (ping_failure_isolated exampleEnv (fun _ => .error "no such host") exampleEnv.PingerRun
      Background "example.com" exampleOptions (by decide)).1,
   (ping_failure_isolated exampleEnv (fun _ => .error "no such host") exampleEnv.PingerRun
      Background "example.com" exampleOptions (by decide)).2.2⟩

/-! ## The package entry point -/

/-- C21. `Run` hands `Collect` the timeout `DefaultTimeout`, 15 seconds, when
`Options.Timeout` is zero or negative and the given timeout otherwise, with
`EnablePorts` as given (and a nil context replaced by the background
context); when `Collect` fails, `Run` returns a nil Report with that error,
and otherwise the Report of `Collect` with a nil error. -/
theorem Run_timeout_and_failure (env : Env) (ctx : Option Context) (target : String)
    (opts : Main.Options) :
    Main.DefaultTimeout = 15000
    ∧ (opts.Timeout ≤ 0 → (Main.collectOptions opts).Timeout = Main.DefaultTimeout)
    ∧ (0 < opts.Timeout → (Main.collectOptions opts).Timeout = opts.Timeout)
    ∧ (Main.collectOptions opts).EnablePorts = opts.EnablePorts
    ∧ (∀ e, (Collect env (ctx.getD Background) target (Main.collectOptions opts)).err = some e →
        Main.Run env ctx target opts = (none, some e))
    ∧ ((Collect env (ctx.getD Background) target (Main.collectOptions opts)).err = none →
        Main.Run env ctx target opts
          = ((Collect env (ctx.getD Background) target (Main.collectOptions opts)).report,
              none)) := by
  have hctx : (match ctx with
      | none => Background
      | some c => c) = ctx.getD Background := by
    cases ctx <;> rfl
  refine ⟨rfl, ?_, ?_, ?_, ?_, ?_⟩
  · intro h
    simp [Main.collectOptions, h]
  · intro h
    have : ¬ opts.Timeout ≤ 0 := by omega
    simp [Main.collectOptions, this]
  · unfold Main.collectOptions
    simp only []
    split <;> rfl
  · intro e he
    unfold Main.Run
    simp only [hctx, he]
  · intro he
    unfold Main.Run
    simp only [hctx, he]

/-- C21, at the sample environment whose resolver finds no address: a request
without timeout runs under 15 s and returns the error of `Collect`. -/
theorem Run_timeout_and_failure_witness :
    (Main.collectOptions ⟨true, 0⟩).Timeout = 15000
    ∧ (Main.collectOptions ⟨true, 2000⟩).Timeout = 2000
    ∧ Main.Run noHostEnv none "example.com" ⟨true, 0⟩
      = (none, some "DNS resolution failed: IP resolution failed: no such host") :=
  ⟨(Run_timeout_and_failure noHostEnv none "example.com" ⟨true, 0⟩).2.1 (by decide),
   (Run_timeout_and_failure noHostEnv none "example.com" ⟨true, 2000⟩).2.2.1 (by decide),
   (Run_timeout_and_failure noHostEnv none "example.com" ⟨true, 0⟩).2.2.2.2.1
     "DNS resolution failed: IP resolution failed: no such host" (by decide)⟩

/-! ## The TLS probe on a report without port 443 -/

/-- C22. For every report whose `Ports.Open` does not contain 443,
`collectTLS` returns a nil error and the report with `Errors["tls"]` set to
`Port 443 not open - skipping TLS collection` and nothing else changed, the
TLS group in particular; the outcome does not depend on the environment, so
no TLS connection is attempted. -/
theorem collectTLS_skips_without_443 (env env2 : Env) (ctx : Context) (now : Int)
    (target : String) (r : Report) (h : (443 : Int) ∉ r.Ports.Open) :
    collectTLS env ctx now target r
      = (r.setError "tls" "Port 443 not open - skipping TLS collection", none)
    ∧ (collectTLS env ctx now target r).2 = none
    ∧ (collectTLS env ctx now target r).1.Errors.get "tls"
      = some "Port 443 not open - skipping TLS collection"
    ∧ (collectTLS env ctx now target r).1.TLS = r.TLS
    ∧ collectTLS env ctx now target r = collectTLS env2 ctx now target r := by
  have hopen : isPortOpen r.Ports.Open 443 = false := by
    cases hb : isPortOpen r.Ports.Open 443 with
    | false => rfl
    | true => exact absurd ((isPortOpen_iff _ _).1 hb) h
  have key : ∀ e : Env, collectTLS e ctx now target r
      = (r.setError "tls" "Port 443 not open - skipping TLS collection", none) := by
    intro e
    unfold collectTLS
    simp [hopen]
  rw [key env, key env2]
  exact ⟨rfl, rfl, Report.setError_get_same _ _ _, rfl, rfl⟩

/-- C22, at the report of the test `TestCollectTLS_Port443Closed`. -/
theorem collectTLS_skips_without_443_witness :
    (443 : Int) ∉ ({ Ports := { Open := [80, 22] } } : Report).Ports.Open
    ∧ (collectTLS exampleEnv Background 0 "google.com"
        { Target := "google.com", Ports := { Open := [80, 22] } }).1.Errors.get "tls"
      = some "Port 443 not open - skipping TLS collection" :=
  ⟨by decide,
   (collectTLS_skips_without_443 exampleEnv exampleEnv Background 0 "google.com"
      { Target := "google.com", Ports := { Open := [80, 22] } } (by decide)).2.2.1⟩

/-! ## The candidate ports -/

/-- C23. `getCommonPorts` returns a fixed list of exactly 20 pairwise distinct
ports, each in the range 1..65535, that includes 22, 53, 80, 443 and 8080. -/
theorem getCommonPorts_wellformed :
    getCommonPorts.length = 20
    ∧ getCommonPorts.Nodup
    ∧ getCommonPorts.all (fun p => decide (1 ≤ p) && decide (p ≤ 65535)) = true
    ∧ (22 : Int) ∈ getCommonPorts ∧ (53 : Int) ∈ getCommonPorts ∧ (80 : Int) ∈ getCommonPorts
    ∧ (443 : Int) ∈ getCommonPorts ∧ (8080 : Int) ∈ getCommonPorts := by
  refine ⟨by decide, by decide, by decide, by decide, by decide, by decide, by decide,
    by decide⟩

/-! ## The ASN record -/

/-- C24. `parseTeamCymruResult` splits the record on ` | `. With fewer than 7
fields the report is left unchanged. Otherwise `Geo.ASN` becomes the trimmed
field 0, `Geo.CountryCode` the trimmed field 3, `Geo.ASName` and `Geo.Org` the
trimmed field 6, each only when non-empty, `Geo.IP` becomes the trimmed
field 1, and no other field of the report changes. -/
theorem parseTeamCymruResult_fields (result : String) (r : Report) :
    ((Split result " | ").length < 7 → parseTeamCymruResult result r = r)
    ∧ (7 ≤ (Split result " | ").length →
        parseTeamCymruResult result r
          = { r with
              Geo := { r.Geo with
                ASN := if TrimSpace ((Split result " | ").getD 0 "") != ""
                  then TrimSpace ((Split result " | ").getD 0 "") else r.Geo.ASN
                CountryCode := if TrimSpace ((Split result " | ").getD 3 "") != ""
                  then TrimSpace ((Split result " | ").getD 3 "") else r.Geo.CountryCode
                ASName := if TrimSpace ((Split result " | ").getD 6 "") != ""
                  then TrimSpace ((Split result " | ").getD 6 "") else r.Geo.ASName
                Org := if TrimSpace ((Split result " | ").getD 6 "") != ""
                  then TrimSpace ((Split result " | ").getD 6 "") else r.Geo.Org
                IP := TrimSpace ((Split result " | ").getD 1 "") } }) := by
  constructor
  · intro h
    unfold parseTeamCymruResult
    simp only [h, if_true]
  · intro h
    have h7 : ¬ (Split result " | ").length < 7 := by omega
    have h1 : (Split result " | ").length > 1 := by omega
    unfold parseTeamCymruResult
    simp only [h7, h1, if_false, if_true]
    cases h0 : (TrimSpace ((Split result " | ").getD 0 "") != "") <;>
    cases h3 : (TrimSpace ((Split result " | ").getD 3 "") != "") <;>
    cases h6 : (TrimSpace ((Split result " | ").getD 6 "") != "") <;>
    simp

/-- C24, at the record that the source gives as its example and at a record
that is not in the format. -/
theorem parseTeamCymruResult_fields_witness :
    7 ≤ (Split exampleCymru " | ").length
    ∧ (Split "invalid data" " | ").length < 7
    ∧ (parseTeamCymruResult exampleCymru {}).Geo
        = { ASN := "15169", IP := "8.8.8.8", CountryCode := "US",
            ASName := "GOOGLE-CLOUD-PLATFORM", Org := "GOOGLE-CLOUD-PLATFORM" }
    ∧ parseTeamCymruResult "invalid data" {} = {} :=
  ⟨by decide, by decide,
   (congrArg Report.Geo ((parseTeamCymruResult_fields exampleCymru {}).2 (by decide))).trans
     (by decide),
   (parseTeamCymruResult_fields "invalid data" {}).1 (by decide)⟩

/-- C25, evaluated on the code. A record with seven fields of which the
second is empty leaves a fresh report with `Geo.ASN` set and `Geo.IP` empty. -/
theorem parseTeamCymruResult_asn_without_ip :
    Split cymruWithoutIP " | " = ["15169", "", "8.8.8.0/24", "US", "arin", "2012-03-30", "GOOGLE"]
    ∧ (parseTeamCymruResult cymruWithoutIP {}).Geo.ASN = "15169"
    ∧ (parseTeamCymruResult cymruWithoutIP {}).Geo.IP = "" := by
  refine ⟨by decide, by decide, by decide⟩

/-! ## The reversed address -/

/-- C26. For every IPv4 address `a.b.c.d`, in its 4-byte and in its 16-byte
form, `reverseIP` returns the string `d.c.b.a` and no error, so that the
reversal of the reversed address is `a.b.c.d` again; for the nil address it
returns an error. -/
theorem reverseIP_ipv4 (env : Env) (a b c d : Nat) :
    reverseIP env ⟨[a, b, c, d]⟩
      = .ok (toString d ++ "." ++ toString c ++ "." ++ toString b ++ "." ++ toString a)
    ∧ reverseIP env ⟨[0, 0, 0, 0, 0, 0, 0, 0, 0, 0, 255, 255, a, b, c, d]⟩
      = .ok (toString d ++ "." ++ toString c ++ "." ++ toString b ++ "." ++ toString a)
    ∧ reverseIP env ⟨[d, c, b, a]⟩
      = .ok (toString a ++ "." ++ toString b ++ "." ++ toString c ++ "." ++ toString d)
    ∧ reverseIP env ⟨[]⟩ = .error "invalid IP address" := by
  refine ⟨rfl, rfl, rfl, rfl⟩

/-! ## The parser of traceroute output -/

theorem scanHopFields_hop (env : Env) (fields : List String) (hop : TraceHop) :
    (scanHopFields env fields hop).Hop = hop.Hop
      ∧ (scanHopFields env fields hop).Timeout = hop.Timeout
      ∧ (scanHopFields env fields hop).Host = hop.Host := by
  induction fields generalizing hop with
  | nil => simp [scanHopFields]
  | cons field rest ih =>
    unfold scanHopFields
    split
    · simpa using ih { hop with IP := field }
    · split
      · split
        · simp
        · exact ih hop
      · exact ih hop

theorem parseHopLine_hop (env : Env) (line : String) :
    (parseHopLine env line).map (fun h => h.Hop) = hopNumberOf env line := by
  unfold parseHopLine hopNumberOf
  simp only []
  by_cases h1 : TrimSpace line = ""
  · simp [h1]
  · by_cases h2 : HasPrefix (TrimSpace line) "traceroute to" = true
    · simp [h1, h2]
    · simp only [h1, h2, decide_False, Bool.false_eq_true, Bool.or_self, if_false]
      rcases hF : Fields (TrimSpace line) with _ | ⟨first, _ | ⟨second, rest⟩⟩
      · simp
      · simp
      · simp only [List.length_cons, List.headD_cons]
        rw [if_neg (by omega)]
        cases hA : env.Atoi first with
        | none => simp
        | some hopNum =>
          simp only []
          split
          · split <;> simp [(scanHopFields_hop env _ _).1]
          · simp [(scanHopFields_hop env _ _).1]

theorem parseHopLine_timeout (env : Env) (line : String) (h : TraceHop)
    (hh : parseHopLine env line = some h) : h.Timeout = false := by
  unfold parseHopLine at hh
  simp only [] at hh
  split at hh
  · cases hh
  · split at hh
    · cases hh
    · cases hh
    · split at hh
      · cases hh
      · split at hh
        · split at hh <;>
            (cases hh; simp [(scanHopFields_hop env _ _).2.1])
        · cases hh; simp [(scanHopFields_hop env _ _).2.1]

/-- Claim C27, as the code has it: the line ` 1  * * *` of a traceroute
output is not omitted, yet its hop carries no timeout marker. Whenever the
library reads `1` as the integer 1 and does not read `*` as an IP address, the
parser returns the one hop with `Hop = 1`, empty `IP`, `Host` and `RTT`, and
`Timeout = false`; and no line of any output yields a hop with `Timeout` set. -/
theorem parseTracerouteOutput_timeout_line (env : Env)
    (hAtoi : env.Atoi "1" = some 1) (hStar : env.ParseIP "*" = none) :
    parseTracerouteOutput env " 1  * * *"
        = .ok [{ Hop := 1, IP := "", Host := "", RTT := "", Timeout := false }]
      ∧ ∀ output hops, parseTracerouteOutput env output = .ok hops →
          ∀ h ∈ hops, h.Timeout = false := by
  constructor
  · have hS : Split " 1  * * *" "\n" = [" 1  * * *"] := by decide
    have hT : TrimSpace " 1  * * *" = "1  * * *" := by decide
    have hF : Fields "1  * * *" = ["1", "*", "*", "*"] := by decide
    have hP : HasPrefix "1  * * *" "traceroute to" = false := by decide
    have hM : HasSuffix "*" "ms" = false := by decide
    simp [parseTracerouteOutput, hS, parseHopLine, hT, hF, hP, hAtoi, scanHopFields, hStar, hM]
  · intro output hops hp h hh
    unfold parseTracerouteOutput at hp
    cases hp
    obtain ⟨line, _, hl⟩ := List.mem_filterMap.1 hh
    exact parseHopLine_timeout env line h hl

/-- The sample environment of the parsers meets the hypotheses of
`parseTracerouteOutput_timeout_line`. -/
theorem parseTracerouteOutput_timeout_line_witness :
    parseTracerouteOutput tracerouteEnv " 1  * * *"
        = .ok [{ Hop := 1, IP := "", Host := "", RTT := "", Timeout := false }]
      ∧ ∀ output hops, parseTracerouteOutput tracerouteEnv output = .ok hops →
          ∀ h ∈ hops, h.Timeout = false :=
  parseTracerouteOutput_timeout_line tracerouteEnv rfl rfl

/-- Claim C28: `parseTracerouteOutput` never returns an error; the hop numbers
of the hops it returns are, in the order of the input lines, the integers of
exactly those lines whose trimmed text is non-empty, does not start with
`traceroute to`, has at least two whitespace-separated fields and a first
field that parses as an integer (`hopNumberOf`), one hop for each such line and
none for any other line; the empty output yields no hop. -/
theorem parseTracerouteOutput_hops (env : Env) (output : String) :
    (∃ hops, parseTracerouteOutput env output = .ok hops
        ∧ hops.map (fun h => h.Hop) = (Split output "\n").filterMap (hopNumberOf env))
      ∧ parseTracerouteOutput env "" = .ok [] := by
  constructor
  · refine ⟨_, rfl, ?_⟩
    rw [List.map_filterMap]
    congr 1
    funext line
    exact parseHopLine_hop env line
  · have hS : Split "" "\n" = [""] := by decide
    have hT : TrimSpace "" = "" := by decide
    simp [parseTracerouteOutput, hS, parseHopLine, hT]

/-- Claim C29, as the code has it: on the hop line that the source documents,
`1  gateway (192.168.1.1)  1.234 ms  1.567 ms  1.890 ms`, the parser sets
neither the address nor the round-trip time. The address stands in parentheses,
which `net.ParseIP` does not accept, and each sample is two fields, a number and
`ms`, so that the only fields ending in `ms` leave the empty string, which
`strconv.ParseFloat` does not accept. The hypotheses are these answers of the
library. -/
theorem parseTracerouteOutput_documented_line (env : Env)
    (hAtoi : env.Atoi "1" = some 1)
    (hGateway : env.ParseIP "gateway" = none)
    (hParen : env.ParseIP "(192.168.1.1)" = none)
    (hNum1 : env.ParseIP "1.234" = none)
    (hNum2 : env.ParseIP "1.567" = none)
    (hNum3 : env.ParseIP "1.890" = none)
    (hMs : env.ParseIP "ms" = none)
    (hFloat : env.formatRTT "" = none) :
    parseTracerouteOutput env documentedHopLine
      = .ok [{ Hop := 1, IP := "", Host := "", RTT := "", Timeout := false }] := by
  have hS : Split documentedHopLine "\n" = [documentedHopLine] := by decide
  have hT : TrimSpace documentedHopLine = documentedHopLine := by decide
  have hF : Fields documentedHopLine
      = ["1", "gateway", "(192.168.1.1)", "1.234", "ms", "1.567", "ms", "1.890", "ms"] := by
    decide
  have hP : HasPrefix documentedHopLine "traceroute to" = false := by decide
  have hE : documentedHopLine ≠ "" := by decide
  have h1 : HasSuffix "gateway" "ms" = false := by decide
  have h2 : HasSuffix "(192.168.1.1)" "ms" = false := by decide
  have h3 : HasSuffix "1.234" "ms" = false := by decide
  have h4 : HasSuffix "1.567" "ms" = false := by decide
  have h5 : HasSuffix "1.890" "ms" = false := by decide
  have h6 : HasSuffix "ms" "ms" = true := by decide
  have h7 : TrimSuffix "ms" "ms" = "" := by decide
  simp [parseTracerouteOutput, hS, parseHopLine, hT, hF, hP, hE, hAtoi, scanHopFields,
    hGateway, hParen, hNum1, hNum2, hNum3, hMs, hFloat, h1, h2, h3, h4, h5, h6, h7]

/-- The sample environment of the parsers, in which `192.168.1.1` is an address
and `1.234` is formatted as `1.2ms`, meets the hypotheses of
`parseTracerouteOutput_documented_line`. -/
theorem parseTracerouteOutput_documented_line_witness :
    parseTracerouteOutput tracerouteEnv documentedHopLine
      = .ok [{ Hop := 1, IP := "", Host := "", RTT := "", Timeout := false }] :=
  parseTracerouteOutput_documented_line tracerouteEnv rfl rfl rfl rfl rfl rfl rfl rfl

/-! ## The e-mail addresses of a WHOIS answer -/

theorem firstOccurrences_mem (l : List String) (e : String) :
    e ∈ firstOccurrences l ↔ e ∈ l := by
  induction l with
  | nil => simp [firstOccurrences]
  | cons x xs ih =>
    simp only [firstOccurrences, List.mem_cons, List.mem_filter, ih]
    by_cases h : e = x
    · simp [h]
    · simp [h]

theorem firstOccurrences_nodup (l : List String) : (firstOccurrences l).Nodup := by
  induction l with
  | nil => simp [firstOccurrences]
  | cons x xs ih =>
    simp only [firstOccurrences, List.nodup_cons]
    refine ⟨?_, ih.filter _⟩
    simp [List.mem_filter]

theorem foldl_addNew (p : String → Bool) (cs acc : List String) :
    cs.foldl (fun emails c => if !emails.contains c && p c then emails ++ [c] else emails) acc
      = acc ++ (firstOccurrences (cs.filter p)).filter (fun e => !acc.contains e) := by
  induction cs generalizing acc with
  | nil => simp [firstOccurrences]
  | cons c rest ih =>
    simp only [List.foldl_cons]
    by_cases hp : p c = true
    · by_cases hc : acc.contains c = true
      · simp only [hc, hp, Bool.not_true, Bool.false_and, Bool.false_eq_true, if_false]
        rw [ih, List.filter_cons_of_pos hp]
        simp only [firstOccurrences, List.filter_cons, hc, Bool.not_true, Bool.false_eq_true,
          if_false, List.filter_filter]
        congr 1
        apply List.filter_congr
        intro y _
        by_cases hy : y = c
        · subst hy; simpa using hc
        · simp [hy]
      · simp only [Bool.not_eq_true] at hc
        simp only [hc, hp, Bool.not_false, Bool.and_self, if_true]
        rw [ih, List.filter_cons_of_pos hp]
        simp only [firstOccurrences, List.filter_cons, hc, Bool.not_false, if_true,
          List.filter_filter, List.append_assoc, List.singleton_append]
        congr 2
        apply List.filter_congr
        intro y _
        by_cases hy : y = c
        · subst hy; simp
        · simp [hy, List.contains_eq_any_beq, List.any_append, Bool.and_comm]
    · simp only [Bool.not_eq_true] at hp
      simp only [hp, Bool.and_false, Bool.false_eq_true, if_false]
      rw [ih, List.filter_cons_of_neg (by simp [hp])]

theorem collectEmails_foldl (env : Env) (ms : List (List String)) (acc : List String) :
    collectEmails env ms acc
      = (ms.filterMap (fun found =>
          if found.length > 1 then some (ToLower env (TrimSpace (found.getD 1 "")))
          else none)).foldl
          (fun emails c =>
            if !emails.contains c && ContainsChar c '@' then emails ++ [c] else emails) acc := by
  induction ms generalizing acc with
  | nil => simp [collectEmails]
  | cons found rest ih =>
    unfold collectEmails
    by_cases h : found.length > 1
    · simp only [h, if_true, List.filterMap_cons, List.foldl_cons]
      split <;> exact ih _
    · simp only [h, if_false, List.filterMap_cons]
      exact ih _

theorem extractEmails_eq (env : Env) (data : String) :
    extractEmails env data
      = firstOccurrences ((emailCandidates env data).filter (fun e => ContainsChar e '@')) := by
  have h := foldl_addNew (fun e => ContainsChar e '@') (emailCandidates env data) []
  simp only [List.contains_nil, Bool.not_false, List.filter_true, List.nil_append] at h
  rw [← h]
  simp only [extractEmails, emailCandidates, emailPatterns, List.foldl_cons, List.foldl_nil,
    List.flatMap_cons, List.flatMap_nil, List.append_nil, List.foldl_append, collectEmails_foldl]

theorem toLower_toLower (c : Char) : c.toLower.toLower = c.toLower := by
  by_cases h : c.toNat ≥ 65 ∧ c.toNat ≤ 90
  · have hc : c.toLower = Char.ofNat (c.toNat + 32) := by
      simp only [Char.toLower]; rw [if_pos h]
    rw [hc]
    obtain ⟨h1, h2⟩ := h
    generalize c.toNat = n at h1 h2
    interval_cases n <;> decide
  · have hc : c.toLower = c := by simp only [Char.toLower]; rw [if_neg h]
    rw [hc, hc]

theorem ToLower_idem (env : Env) (h : ∀ c, env.toLowerRune (env.toLowerRune c) = env.toLowerRune c)
    (s : String) : ToLower env (ToLower env s) = ToLower env s := by
  simp only [ToLower, List.map_map]
  congr 1
  apply List.map_congr_left
  intro c _
  exact h c

/-- Claim C30: for every text, `extractEmails` returns the captures of the
four patterns (abuse, admin, technical, any address; in this order, match after
match), trimmed and lower-cased, that contain `@`, each at the place of its
first occurrence. So the list has no duplicates (two addresses that differ only
in letter case are one entry), every entry contains `@` and is the lower-cased
capture of a match, which lower-casing leaves unchanged when the case mapping of
a rune is idempotent; and a text in which no pattern matches yields the empty
list. -/
theorem extractEmails_first_occurrences (env : Env) (data : String) :
    extractEmails env data
        = firstOccurrences ((emailCandidates env data).filter (fun e => ContainsChar e '@'))
      ∧ (extractEmails env data).Nodup
      ∧ (∀ e ∈ extractEmails env data,
          ContainsChar e '@' = true
            ∧ (∃ pattern ∈ emailPatterns,
                ∃ found ∈ env.FindAllStringSubmatch ("(?i)" ++ pattern) data,
                  found.length > 1 ∧ e = ToLower env (TrimSpace (found.getD 1 "")))
            ∧ ((∀ c, env.toLowerRune (env.toLowerRune c) = env.toLowerRune c) →
                ToLower env e = e))
      ∧ ((∀ pattern ∈ emailPatterns, env.FindAllStringSubmatch ("(?i)" ++ pattern) data = []) →
          extractEmails env data = []) := by
  have hmem : ∀ e ∈ extractEmails env data,
      ContainsChar e '@' = true
        ∧ ∃ pattern ∈ emailPatterns,
            ∃ found ∈ env.FindAllStringSubmatch ("(?i)" ++ pattern) data,
              found.length > 1 ∧ e = ToLower env (TrimSpace (found.getD 1 "")) := by
    intro e he
    rw [extractEmails_eq, firstOccurrences_mem, List.mem_filter] at he
    refine ⟨he.2, ?_⟩
    obtain ⟨pattern, hp, hf⟩ := List.mem_flatMap.1 he.1
    obtain ⟨found, hfound, hsome⟩ := List.mem_filterMap.1 hf
    refine ⟨pattern, hp, found, hfound, ?_⟩
    by_cases hl : found.length > 1
    · rw [if_pos hl] at hsome
      exact ⟨hl, (Option.some.inj hsome).symm⟩
    · rw [if_neg hl] at hsome
      cases hsome
  refine ⟨extractEmails_eq env data, ?_, ?_, ?_⟩
  · rw [extractEmails_eq]
    exact firstOccurrences_nodup _
  · intro e he
    obtain ⟨h1, h2⟩ := hmem e he
    refine ⟨h1, h2, ?_⟩
    intro hidem
    obtain ⟨_, _, found, _, _, hf⟩ := h2
    rw [hf]
    exact ToLower_idem env hidem _
  · intro hnone
    rw [extractEmails_eq]
    have : emailCandidates env data = [] := by
      simp only [emailCandidates, List.flatMap_eq_nil_iff]
      intro p hp
      rw [hnone p hp]
      rfl
    rw [this]
    rfl

/-- The text of the test `duplicate emails`, whose two addresses differ only
in letter case, yields the one entry `test@example.com`; a text without a match
yields the empty list. -/
theorem extractEmails_first_occurrences_witness :
    extractEmails emailEnv "Email: test@example.com\nEmail: TEST@EXAMPLE.COM" = ["test@example.com"]
      ∧ (extractEmails emailEnv "Email: test@example.com\nEmail: TEST@EXAMPLE.COM").Nodup
      ∧ ToLower emailEnv "test@example.com" = "test@example.com"
      ∧ extractEmails exampleEnv "no address here" = [] :=
  ⟨by rw [(extractEmails_first_occurrences emailEnv _).1]; decide,
   (extractEmails_first_occurrences emailEnv _).2.1,
   ((extractEmails_first_occurrences emailEnv
      "Email: test@example.com\nEmail: TEST@EXAMPLE.COM").2.2.1 "test@example.com"
      (by decide)).2.2 toLower_toLower,
   (extractEmails_first_occurrences exampleEnv "no address here").2.2.2 (fun _ _ => rfl)⟩

/-! ## Resolved addresses under the contract of the resolver -/

/-- C16. Whenever `Collect` returns a Report, its error is nil and at least one
resolved address is recorded: `Report.IPs` is non-empty, and so is at least one
of `IPv4` and `IPv6`. The hypothesis is the contract of the resolver of the Go
library, which returns an error when it finds no address. -/
theorem Collect_records_an_address (env : Env) (ctx : Context) (target : String)
    (opts : Options) (r : Report)
    (hContract : ∀ c now t ips, env.LookupIPAddr c now t = .ok ips → ips ≠ [])
    (hr : (Collect env ctx target opts).report = some r) :
    (Collect env ctx target opts).err = none
    ∧ r.IPs ≠ [] ∧ (r.IPv4 ≠ [] ∨ r.IPv6 ≠ []) := by
  obtain ⟨ips, hl, _, _, h⟩ := Collect_records_addresses env ctx target opts r hr
  exact ⟨((Collect_error_iff_dns env ctx target opts).2 ips hl).2,
    h (hContract _ _ _ ips hl)⟩

/-- C16, at the sample run. -/
theorem Collect_records_an_address_witness :
    (Collect exampleEnv Background "example.com" exampleOptions).report = some exampleReport
    ∧ (Collect exampleEnv Background "example.com" exampleOptions).err = none
    ∧ exampleReport.IPs ≠ [] ∧ (exampleReport.IPv4 ≠ [] ∨ exampleReport.IPv6 ≠ []) :=
  ⟨by decide,
   Collect_records_an_address exampleEnv Background "example.com" exampleOptions exampleReport
     (fun _ _ _ ips h => by cases h; simp) (by decide)⟩

/-! ## The wait of a probe under a context that is done -/

/-- A `select` entered under a context that is already done, for a task that
has not delivered yet, takes the `Done()` case. -/
theorem selectFirst_done_late {α : Type} (ctx : Context) (start now finish d : Int)
    (out : Except String α) (coin : Bool) (hd : ctx.Done start = true) (hs : start ≤ now)
    (hlate : now < finish ∨ (now ≤ finish ∧ coin = true)) :
    selectFirst (WithTimeout ctx start d) now finish out coin = .done := by
  cases hc : ctx.doneAt with
  | none => simp [Context.Done, hc] at hd
  | some t =>
    simp only [Context.Done, hc, decide_eq_true_eq] at hd
    have hm : max (min t (start + d)) now = now :=
      max_eq_right (le_trans (min_le_left _ _) (le_trans hd hs))
    simp only [selectFirst, WithTimeout, hc, earlier, hm]
    rcases hlate with h | ⟨h, hcoin⟩
    · rw [if_neg (by omega), if_pos h]
    · rw [if_neg (by omega)]
      split
      · rfl
      · simp [hcoin]

/-- C17. For every run of `Collect` with `EnablePorts` set in which 443 is in
`Ports.Open`, the returned Report never has both `Errors["tls"]` absent and
`TLS.CommonName` empty. The context that `Collect` hands to `collectTLS` is
already done, so the probe records `TLS collection timeout` under the key
`tls`, provided the task `getTLSCertificate` has not delivered when the
`select` is entered: it takes at least a millisecond, or the `select` takes the
`Done()` case when both are ready. -/
theorem Collect_tls_error_or_common_name (env : Env) (ctx : Context) (target : String)
    (opts : Options) (r : Report) (hE : opts.EnablePorts = true)
    (hr : (Collect env ctx target opts).report = some r)
    (h443 : (443 : Int) ∈ r.Ports.Open)
    (hT : 0 < (getTLSCertificate env env.tIndepDone target).latency
      ∨ env.coin "tls" = true) :
    ¬ (r.Errors.get "tls" = none ∧ r.TLS.CommonName = "")
    ∧ r.Errors.get "tls" = some "TLS collection timeout" := by
  have key : r.Errors.get "tls" = some "TLS collection timeout" := by
    obtain ⟨_, r2, _, _, hcase⟩ := Collect_report_cases env ctx target opts r hr
    rcases hcase with ⟨hno, h⟩ | ⟨_, h2, h⟩
    · exfalso
      apply hno
      rw [h] at h443
      exact ⟨hE, h443⟩
    · rw [h]
      have hopen : isPortOpen r2.Ports.Open 443 = true := (isPortOpen_iff _ _).2 h2
      have hdone : (tlsContext env ctx target opts).Done env.tIndepDone = true :=
        (errgroupWait_done _ env.tIndepDone env.tIndepDone le_rfl).2
      have hsel := selectFirst_done_late (tlsContext env ctx target opts) env.tIndepDone
        env.tIndepDone
        (env.tIndepDone + (getTLSCertificate env env.tIndepDone target).latency) 4000
        (getTLSCertificate env env.tIndepDone target).result (env.coin "tls") hdone le_rfl
        (by
          rcases hT with h | h
          · left; omega
          · right; exact ⟨by omega, h⟩)
      unfold collectTLS
      simp only [hopen, Bool.not_true, Bool.false_eq_true, if_false, hsel]
      simp [Report.setError, ErrorMap.get_set_same]
  refine ⟨fun h => ?_, key⟩
  rw [key] at h
  cases h.1

/-- C17, at the sample run, whose TLS exchange takes 150 ms. -/
theorem Collect_tls_error_or_common_name_witness :
    exampleOptions.EnablePorts = true
    ∧ (Collect exampleEnv Background "example.com" exampleOptions).report = some exampleReport
    ∧ (443 : Int) ∈ exampleReport.Ports.Open
    ∧ ¬ (exampleReport.Errors.get "tls" = none ∧ exampleReport.TLS.CommonName = "")
    ∧ exampleReport.Errors.get "tls" = some "TLS collection timeout" :=
  ⟨rfl, by decide, by decide,
   Collect_tls_error_or_common_name exampleEnv Background "example.com" exampleOptions
     exampleReport rfl (by decide) (by decide) (Or.inl (by decide))⟩

/-! ## A deadline that has expired when the DNS phase starts -/

theorem WithTimeout_done (parent : Context) (now start d : Int)
    (h : parent.Done now = true) : (WithTimeout parent start d).Done now = true := by
  cases hp : parent.doneAt with
  | none => simp [Context.Done, hp] at h
  | some t =>
    simp only [Context.Done, hp, decide_eq_true_eq] at h
    simp only [WithTimeout, hp, earlier, Context.Done, decide_eq_true_eq]
    exact le_trans (min_le_left _ _) h

/-- C1, as the code has it: a deadline that has expired before the DNS phase
completes is no failure of the DNS phase when the target is an IP literal. With
a timeout that is not positive the context of the IP resolution is done when
`Collect` is entered; the resolver answers a literal without consulting its
context, and `Collect` returns a Report and a nil error and goes on to start
the other probes. -/
theorem Collect_expired_deadline (env : Env) (ctx : Context) (target : String)
    (opts : Options) (ips : List IP)
    (hExpired : opts.Timeout ≤ 0)
    (hLiteral : ∀ c now, env.LookupIPAddr c now target = .ok ips) :
    (dnsContext env ctx opts).Done env.tStart = true
    ∧ (Collect env ctx target opts).report ≠ none
    ∧ (Collect env ctx target opts).err = none
    ∧ (Collect env ctx target opts).started Probe.ping = true := by
  have hl : dnsLookup env ctx target opts = .ok ips := hLiteral _ _
  have hd := collectDNS_error_of_lookup env ctx target opts
    { Target := target, ResolvedAt := env.tStart, Errors := [] }
  rw [hl] at hd
  simp only [] at hd
  refine ⟨?_, ((Collect_error_iff_dns env ctx target opts).2 ips hl).1,
    ((Collect_error_iff_dns env ctx target opts).2 ips hl).2, ?_⟩
  · unfold dnsContext
    apply WithTimeout_done
    exact earlier_done ctx.doneAt (env.tStart + opts.Timeout) env.tStart (by omega)
  · unfold Collect Run.started
    simp only [hd]
    split <;> simp [independentProbes]

/-- C1, at the sample environment with the resolver of the Go library and a
timeout of zero: for the host name the run fails on the expired deadline, for
the literal `127.0.0.1` it returns a Report and a nil error. -/
theorem Collect_expired_deadline_witness :
    dnsLookup literalEnv Background "example.com" expiredOptions
        = .error "context deadline exceeded"
    ∧ (Collect literalEnv Background "example.com" expiredOptions).report = none
    ∧ (dnsContext literalEnv Background expiredOptions).Done literalEnv.tStart = true
    ∧ (Collect literalEnv Background "127.0.0.1" expiredOptions).report ≠ none
    ∧ (Collect literalEnv Background "127.0.0.1" expiredOptions).err = none
    ∧ (Collect literalEnv Background "127.0.0.1" expiredOptions).started Probe.ping = true :=
  ⟨rfl, by decide,
   Collect_expired_deadline literalEnv Background "127.0.0.1" expiredOptions [loopbackIP]
     (by decide) (fun _ _ => rfl)⟩

/-! ## Concurrent assignments to the error map -/

theorem whois_assignsError (env : Env) (ctx : Context) (now : Int) (target : String)
    (r : Report) (hd : ctx.Done now = true) (hl : 0 < (env.Whois target).latency) :
    assignsError env ctx now target Probe.whois r = true := by
  have hsel := selectFirst_done_late ctx now now (now + (env.Whois target).latency) 10000
    (env.Whois target).result (env.coin "whois") hd le_rfl (Or.inl (by omega))
  simp [assignsError, runProbe, collectWhois, hsel, Report.setError, ErrorMap.set]

theorem lookupTeamCymru_latency (env : Env) (ip : IP) (txt : String)
    (hl : ∀ q, 0 < (env.LookupTXTPlain q).latency)
    (h : (lookupTeamCymru env ip).result = .ok txt) :
    0 < (lookupTeamCymru env ip).latency := by
  unfold lookupTeamCymru at h ⊢
  split
  · rename_i e he
    simp only [he] at h
    cases h
  · rename_i reversed he
    simp only []
    split <;> exact hl _

theorem asn_assignsError (env : Env) (ctx : Context) (now : Int) (target : String)
    (r : Report) (hd : ctx.Done now = true)
    (hl : ∀ q, 0 < (env.LookupTXTPlain q).latency) :
    assignsError env ctx now target Probe.asn r = true := by
  simp only [assignsError, runProbe, collectASN]
  split
  · simp [Report.setError, ErrorMap.set]
  · rename_i ip_ hip
    cases hres : (lookupTeamCymru env ip_).result with
    | error e =>
      rcases selectFirst_error (α := String) (WithTimeout ctx now 8000)
        (now + (getTargetIP env target).latency)
        (now + (getTargetIP env target).latency + (lookupTeamCymru env ip_).latency) e
        (env.coin "asn") with hs | hs <;>
      simp [hs, Report.setError, ErrorMap.set]
    | ok txt =>
      have hlat := lookupTeamCymru_latency env ip_ txt hl hres
      have hsel := selectFirst_done_late ctx now (now + (getTargetIP env target).latency)
        (now + (getTargetIP env target).latency + (lookupTeamCymru env ip_).latency) 8000
        (Except.ok txt : Except String String) (env.coin "asn") hd (by omega)
        (Or.inl (by omega))
      simp [hsel, Report.setError, ErrorMap.set]

/-- C2, as the code has it: a successful IP resolution does not make `Collect`
return. The tasks of the second errgroup are handed a context that is already
done, so whenever the WHOIS query and the Team Cymru query take at least a
millisecond the WHOIS task and the ASN task both assign to the map
`report.Errors`, from two goroutines and without a lock; when the assignments
of the tasks overlap, the process stops with `concurrent map writes` and
neither a Report nor an error is returned. -/
theorem CollectProcess_concurrent_map_writes (env : Env) (ctx : Context) (target : String)
    (opts : Options) (ips : List IP)
    (hok : dnsLookup env ctx target opts = .ok ips)
    (hWhois : 0 < (env.Whois target).latency)
    (hTXT : ∀ q, 0 < (env.LookupTXTPlain q).latency)
    (hCollide : env.mapWritesCollide (taskErrorKeys env ctx target opts) = true) :
    "whois" ∈ taskErrorKeys env ctx target opts
    ∧ "asn" ∈ taskErrorKeys env ctx target opts
    ∧ CollectProcess env ctx target opts = .fatal "concurrent map writes"
    ∧ ∀ run, CollectProcess env ctx target opts ≠ .returned run := by
  have hdone := sharedContext_done env
    (errgroupWithContext (WithTimeout ctx env.tStart opts.Timeout)) target
    (dnsPhase env ctx target opts).1
  have hw := whois_assignsError env _ env.tDNSDone target (dnsPhase env ctx target opts).1
    hdone hWhois
  have ha := asn_assignsError env _ env.tDNSDone target (dnsPhase env ctx target opts).1
    hdone hTXT
  have hlen : 2 ≤ (taskErrorKeys env ctx target opts).length := by
    simp only [taskErrorKeys, List.length_map, independentProbes, List.filter_append,
      List.length_append, List.filter_cons, hw, ha, if_true]
    repeat' split
    all_goals simp only [List.length_cons, List.length_nil]
    all_goals omega
  have hfatal : CollectProcess env ctx target opts = .fatal "concurrent map writes" := by
    unfold CollectProcess
    simp only [hok, hCollide, hlen, decide_True, Bool.and_self, if_true]
    split <;> rfl
  refine ⟨?_, ?_, hfatal, fun run h => ?_⟩
  · exact List.mem_map.2 ⟨Probe.whois,
      List.mem_filter.2 ⟨by simp [independentProbes], hw⟩, rfl⟩
  · exact List.mem_map.2 ⟨Probe.asn,
      List.mem_filter.2 ⟨by simp [independentProbes], ha⟩, rfl⟩
  · rw [hfatal] at h
    cases h

/-- C2, at the sample run under a schedule in which the assignments overlap:
the traceroute, WHOIS, ASN and geolocation tasks all assign to `report.Errors`
and the process stops. -/
theorem CollectProcess_concurrent_map_writes_witness :
    dnsLookup racyEnv Background "example.com" exampleOptions = .ok [exampleIP]
    ∧ taskErrorKeys racyEnv Background "example.com" exampleOptions
        = ["traceroute", "whois", "asn", "geo"]
    ∧ CollectProcess racyEnv Background "example.com" exampleOptions
        = .fatal "concurrent map writes" :=
  ⟨rfl, by decide,
   (CollectProcess_concurrent_map_writes racyEnv Background "example.com" exampleOptions
      [exampleIP] rfl (by decide) (fun _ => Nat.zero_lt_succ 39) rfl).2.2.1⟩

/-- When the process is not stopped, what is returned is what `Collect` gives. -/
theorem CollectProcess_returned (env : Env) (ctx : Context) (target : String)
    (opts : Options) (run : Run) (h : CollectProcess env ctx target opts = .returned run) :
    run = Collect env ctx target opts := by
  unfold CollectProcess at h
  simp only [] at h
  repeat' split at h
  all_goals first
    | (cases h; rfl)
    | cases h

end Netgaze
